import Mathlib

/-!
# Verification of the "hunt" asymmetric-survival game simulation core

This file is a shallow embedding, in Lean 4, of the deterministic simulation
engine of the game: the geometry/collision kernel (`checkCollision`,
`hasLineOfSight`), the entity/world data model, and the per-tick state
transformer `updateGame` (the spec's `advance`).  The embedding follows the
current revision of the source's game-logic module (the second revision in the
provided sources, the one whose `updateGame` begins with the explicit
GAME_OVER early-return).

Modelling conventions, chosen to stay faithful to the JavaScript source:

* JS numbers are modelled as real numbers (`ℝ`); `Math.sqrt` is `Real.sqrt`,
  `Math.cos`/`Math.sin` are `Real.cos`/`Real.sin`, `Math.atan2 y x` is the
  argument of the complex number `x + y*i` (`Complex.arg`), `Math.floor` is
  `Int.floor`, and `Math.abs` is `|·|`.  Comparisons of reals are Props, so
  boolean-returning source functions become `Prop`-valued definitions and the
  development is classical and noncomputable.
* The global mutable RNG (`Math.random()`) is modelled as an explicit stream
  `rng : ℕ → ℝ` together with a cursor that is threaded, in source order,
  through every call site; `Date.now()` (used only to build fresh id strings)
  is an explicit parameter `now : ℕ`.
* The source mutates a shallow copy `newState` of the input state field by
  field; the embedding expresses the same computation as a sequence of pure
  state-to-state steps (`timePhase`, `hunterMove`, `cabinEntry`, `hunterShoot`,
  `demonMove`, `demonSkills`, `deerUpdate`, `bulletUpdate`), one per commented
  section of the source's `updateGame`, composed in the source's order.
* The numeric constants module (`constants.ts`) is imported by the game logic
  but is not part of the provided sources.  Modelled from the spec: the spec
  (§9) treats the constants' exact values as a tuning concern, so the model is
  parametric in a `Consts` record whose fields are named after the imported
  constants.
-/

namespace Hunt

noncomputable section
open Classical

/-- 2D point/vector, `Vector2` in `types.ts`: plain `{x, y}` record. -/
structure Vector2 where
  x : ℝ
  y : ℝ

/-- Source `distance(a, b)`: `Math.sqrt((a.x-b.x)**2 + (a.y-b.y)**2)`. -/
def distance (a b : Vector2) : ℝ :=
  Real.sqrt ((a.x - b.x) ^ 2 + (a.y - b.y) ^ 2)

/-- Source `normalize(v)`: returns the zero vector when the length is zero,
otherwise divides both components by the length. -/
def normalize (v : Vector2) : Vector2 :=
  let len := Real.sqrt (v.x * v.x + v.y * v.y)
  if len = 0 then ⟨0, 0⟩ else ⟨v.x / len, v.y / len⟩

/-- Source `add(a, b)` (component-wise vector sum). -/
def add (a b : Vector2) : Vector2 := ⟨a.x + b.x, a.y + b.y⟩

/-- Source `scale(v, s)` (component-wise scaling). -/
def scale (v : Vector2) (s : ℝ) : Vector2 := ⟨v.x * s, v.y * s⟩

/-- `Math.atan2(y, x)`, modelled as the argument of the complex number
`x + y*i` (both give the angle of the point `(x, y)` in `(-π, π]`,
with `atan2 0 0 = 0 = Complex.arg 0`). -/
def atan2 (y x : ℝ) : ℝ := Complex.arg ⟨x, y⟩

/-- `EntityType` in `types.ts`. -/
inductive EntityType where
  | HUNTER
  | DEMON
  | DEER
  | TREE
  | CABIN
  | MUSHROOM
  | BUSH
deriving DecidableEq

/-- Static/simple entity record (`Entity` in `types.ts`, without the optional
AI-state field, which in the tick is only ever read on deer — see `Deer`).
Used here for obstacles (trees, bushes, the cabin) and mushrooms. -/
structure Entity where
  id : String
  type : EntityType
  pos : Vector2
  size : ℝ
  angle : ℝ

/-- `DeerAIState` in `types.ts`: stop/go wandering timer record. -/
structure DeerAIState where
  moving : Bool
  timer : ℝ

/-- A wandering deer: an `Entity` of type DEER that always carries a
`DeerAIState` (every deer the source creates is given one). -/
structure Deer where
  id : String
  pos : Vector2
  size : ℝ
  angle : ℝ
  ai : DeerAIState

/-- `GamePhase` in `types.ts`. -/
inductive GamePhase where
  | MENU
  | LOBBY
  | JOINING
  | START
  | PLAYING
  | GAME_OVER_HUNTER_WINS
  | GAME_OVER_DEMON_WINS
deriving DecidableEq

/-- The hunter combatant (`Hunter` in `types.ts`, without the bot-AI field,
which the tick never touches).  `bullets` is the display-only ammo counter. -/
structure Hunter where
  pos : Vector2
  size : ℝ
  angle : ℝ
  cooldown : ℝ
  bullets : ℕ
  inCabin : Bool
  enterTimer : ℝ

/-- The demon combatant (`Demon` in `types.ts`, without the bot-AI field). -/
structure Demon where
  pos : Vector2
  size : ℝ
  angle : ℝ
  cooldown : ℝ
  energy : ℝ
  isRevealed : Bool
  stunTimer : ℝ
  trackingActiveTime : ℝ
  canTrack : Bool

/-- A projectile (`bullets` array entries in `GameState`). -/
structure Bullet where
  pos : Vector2
  velocity : Vector2
  active : Bool

/-- `GameMessage` in `types.ts` (recent-events log entry). -/
structure GameMessage where
  id : ℝ
  text : String
  timeLeft : ℝ

/-- `GameState` in `types.ts`: the aggregate world state. -/
structure GameState where
  phase : GamePhase
  timeOfDay : ℝ
  isNight : Bool
  nightTimer : ℝ
  hunter : Hunter
  demon : Demon
  deers : List Deer
  trees : List Entity
  bushes : List Entity
  mushrooms : List Entity
  bullets : List Bullet
  cabin : Entity
  mapWidth : ℝ
  mapHeight : ℝ
  lastShotTime : ℝ
  messages : List GameMessage

/-- `PlayerInput` in `types.ts` (the optional `action2` flag is never read by
the tick and is omitted). -/
structure PlayerInput where
  up : Bool
  down : Bool
  left : Bool
  right : Bool
  action : Bool

/-- Modelled from the spec: the numeric constants module (`constants.ts`) is
not among the provided sources; the spec (§9) treats the exact values as
hand-tuned, so the model is parametric in this record.  Field names follow the
source's imports, except that the tree-footprint fraction (named after its
"ratio" role in the source) is called `TREE_COLLISION_FACTOR` here. -/
structure Consts where
  MAP_SIZE : ℝ
  MOVE_SPEED_HUNTER : ℝ
  MOVE_SPEED_DEMON : ℝ
  MOVE_SPEED_DEER : ℝ
  SHOOT_COOLDOWN : ℝ
  BULLET_SPEED : ℝ
  DEMON_EAT_BONUS : ℝ
  SHOOT_PENALTY_SECONDS : ℝ
  DAY_DURATION_SECONDS : ℝ
  TREE_COLLISION_FACTOR : ℝ
  FPS : ℝ
  CABIN_ENTER_DURATION : ℝ
  NIGHT_DURATION_SECONDS : ℝ
  DEMON_STUN_DURATION : ℝ
  DEMON_TRACKING_DURATION : ℝ

/-- Source `checkRectCircleCollision(rectCenter, rectHalfSize, circleCenter,
circleRadius)`: axis-aligned square vs circle, with the source's four early
returns, then the corner distance test (non-strict, as in the source). -/
def checkRectCircleCollision (rectCenter : Vector2) (rectHalfSize : ℝ)
    (circleCenter : Vector2) (circleRadius : ℝ) : Prop :=
  let distX := |circleCenter.x - rectCenter.x|
  let distY := |circleCenter.y - rectCenter.y|
  if distX > rectHalfSize + circleRadius then False
  else if distY > rectHalfSize + circleRadius then False
  else if distX ≤ rectHalfSize then True
  else if distY ≤ rectHalfSize then True
  else
    (distX - rectHalfSize) * (distX - rectHalfSize) +
      (distY - rectHalfSize) * (distY - rectHalfSize) ≤ circleRadius * circleRadius

/-- One obstacle's contribution to `checkCollision`: bushes are skipped unless
`includeBushes`; trees use the square test with half-size
`size * TREE_COLLISION_RATIO`; everything else (cabin, bushes when included)
uses the circle test `distance < radius + size`. -/
def obstacleBlocks (c : Consts) (includeBushes : Bool) (pos : Vector2)
    (radius : ℝ) (obs : Entity) : Prop :=
  ¬(includeBushes = false ∧ obs.type = EntityType.BUSH) ∧
    (if obs.type = EntityType.TREE then
      checkRectCircleCollision obs.pos (obs.size * c.TREE_COLLISION_FACTOR) pos radius
    else distance pos obs.pos < radius + obs.size)

/-- Source `checkCollision(pos, radius, obstacles, includeBushes = false)`:
true when `pos` is outside the map bounds inset by `radius`, or overlaps some
obstacle in the list (the source's for-loop with early return is the
existential). -/
def checkCollision (c : Consts) (pos : Vector2) (radius : ℝ)
    (obstacles : List Entity) (includeBushes : Bool) : Prop :=
  pos.x < radius ∨ pos.x > c.MAP_SIZE - radius ∨
    pos.y < radius ∨ pos.y > c.MAP_SIZE - radius ∨
    ∃ obs ∈ obstacles, obstacleBlocks c includeBushes pos radius obs

/-- The per-sample blockedness test of `hasLineOfSight`: the source checks the
sample against every entity in the list — trees with the strict square test
(half-size `size * TREE_COLLISION_RATIO`), every other entity (cabin, bush,
...) with the strict circle test of radius `size`. -/
def losBlockedAt (c : Consts) (obstacles : List Entity) (p : Vector2) : Prop :=
  ∃ obs ∈ obstacles,
    if obs.type = EntityType.TREE then
      |p.x - obs.pos.x| < obs.size * c.TREE_COLLISION_FACTOR ∧
        |p.y - obs.pos.y| < obs.size * c.TREE_COLLISION_FACTOR
    else distance p obs.pos < obs.size

/-- A raymarch sample point: `p1 + dirV * d` (the loop's `checkPos`). -/
def losSample (p1 dirV : Vector2) (d : ℝ) : Vector2 :=
  ⟨p1.x + dirV.x * d, p1.y + dirV.y * d⟩

/-- The raymarch loop of `hasLineOfSight`, by fuel recursion.  One unfolding
is one loop iteration of the source: advance `currentDist` by the step size
10, break (return true) once it reaches `distTotal`, return false at a blocked
sample, otherwise continue.  `fuel` bounds the number of iterations; callers
supply enough fuel for the break to fire first (see `hasLineOfSight`). -/
def losAux (c : Consts) (obstacles : List Entity) (p1 dirV : Vector2)
    (distTotal : ℝ) : ℕ → ℝ → Prop
  | 0, _ => True
  | fuel + 1, currentDist =>
    let cd := currentDist + 10
    if cd ≥ distTotal then True
    else if losBlockedAt c obstacles (losSample p1 dirV cd) then False
    else losAux c obstacles p1 dirV distTotal fuel cd

/-- Source `hasLineOfSight(p1, p2, obstacles)`: marches a sample from `p1`
towards `p2` at step 10 and fails at the first sample strictly inside an
obstacle's footprint.  `⌈distTotal/10⌉` iterations always reach the loop's
break, so that much fuel computes the loop exactly.  (When `p1 = p2` the
source's direction is `0/0 = NaN` but the loop body never runs; here
`distTotal = 0` gives zero fuel and the same result `True`.) -/
def hasLineOfSight (c : Consts) (p1 p2 : Vector2) (obstacles : List Entity) : Prop :=
  let distTotal := distance p1 p2
  let dirV : Vector2 := ⟨(p2.x - p1.x) / distTotal, (p2.y - p1.y) / distTotal⟩
  losAux c obstacles p1 dirV distTotal (Nat.ceil (distTotal / 10)) 0

/-- Source `addMessage(messages, text)`: prepends a fresh message (random id,
2.0 s to live) and caps the log at the 5 most recent entries.  Returns the new
list and the advanced RNG cursor. -/
def addMessage (rng : ℕ → ℝ) (i : ℕ) (messages : List GameMessage)
    (text : String) : List GameMessage × ℕ :=
  (((⟨rng i, text, 2.0⟩ : GameMessage) :: messages).take 5, i + 1)

/-- Messages TTL (first statements of the tick body): each entry's `timeLeft`
decreases by `dt` and entries that are no longer positive are dropped. -/
def msgDecay (dt : ℝ) (s : GameState) : GameState :=
  let msgs := (s.messages.map (fun m => { m with timeLeft := m.timeLeft - dt })).filter
    (fun m => decide (m.timeLeft > 0))
  { s with messages := msgs }

/-- The `obstacles` list the tick computes once: all trees plus the cabin. -/
def obstaclesOf (s : GameState) : List Entity := s.trees ++ [s.cabin]

/-- The mushroom-respawn while-loop at dawn ("Respawn Mushrooms (Fill up to
10)"): while fewer than 10 mushrooms and attempts remain, draw a random
position; keep it if it is collision-free (bushes included) and at least 50
away from every current mushroom.  `fuel` is the remaining attempt budget
(50 at the call site). -/
def mushLoop (c : Consts) (obstacles : List Entity) (rng : ℕ → ℝ) (now : ℕ) :
    ℕ → List Entity → ℕ → List Entity × ℕ
  | 0, ms, i => (ms, i)
  | fuel + 1, ms, i =>
    if ms.length < 10 then
      let pos : Vector2 := ⟨rng i * c.MAP_SIZE, rng (i + 1) * c.MAP_SIZE⟩
      if ¬ checkCollision c pos 10 obstacles true ∧
          ¬ ∃ m ∈ ms, distance m.pos pos < 50 then
        mushLoop c obstacles rng now fuel
          (ms ++ [⟨"mush-respawn-" ++ toString now ++ "-" ++ toString ms.length,
                   EntityType.MUSHROOM, pos, 8, 0⟩]) (i + 2)
      else mushLoop c obstacles rng now fuel ms (i + 2)
    else (ms, i)

/-- The deer-respawn while-loop at dawn ("Respawn Deer (Fill up to 25)"):
while fewer than 25 deer and attempts remain, draw a random position; keep it
if it is collision-free (no minimum-spacing check).  A spawned deer gets a
random 8-way facing and a random moving flag with timer 60. -/
def deerLoop (c : Consts) (obstacles : List Entity) (rng : ℕ → ℝ) (now : ℕ) :
    ℕ → List Deer → ℕ → List Deer × ℕ
  | 0, ds, i => (ds, i)
  | fuel + 1, ds, i =>
    if ds.length < 25 then
      let pos : Vector2 := ⟨rng i * c.MAP_SIZE, rng (i + 1) * c.MAP_SIZE⟩
      if ¬ checkCollision c pos 15 obstacles false then
        deerLoop c obstacles rng now fuel
          (ds ++ [⟨"deer-respawn-" ++ toString now ++ "-" ++ toString ds.length,
                   pos, 12,
                   ((Int.floor (rng (i + 2) * 8) : ℤ) : ℝ) * (Real.pi / 4),
                   ⟨decide (rng (i + 3) > 0.5), 60⟩⟩]) (i + 4)
      else deerLoop c obstacles rng now fuel ds (i + 2)
    else (ds, i)

/-- Section "--- 1. Time & Phase ---" of `updateGame` (after the messages
TTL): at night, advance `nightTimer` and, when it reaches
`NIGHT_DURATION_SECONDS`, flip back to day (reset `nightTimer` and
`timeOfDay`, kick the hunter out of the cabin, clear `isRevealed` and
`canTrack` — the source resets neither `stunTimer` nor `trackingActiveTime`),
log a message and run the two respawn loops; during day, advance `timeOfDay`
by `dt / DAY_DURATION_SECONDS` and, when it reaches 1.0, flip to night
(`nightTimer := 0`, hunter out of the cabin, `isRevealed` and `canTrack` set —
the source does not clamp `timeOfDay` here). -/
def timePhase (c : Consts) (rng : ℕ → ℝ) (now : ℕ) (obstacles : List Entity)
    (dt : ℝ) (s : GameState) (i : ℕ) : GameState × ℕ :=
  if s.isNight then
    let nt := s.nightTimer + dt
    if nt ≥ c.NIGHT_DURATION_SECONDS then
      let m1 := addMessage rng i s.messages "黎明到来，新的一天..."
      let m2 := mushLoop c obstacles rng now 50 s.mushrooms m1.2
      let m3 := deerLoop c obstacles rng now 50 s.deers m2.2
      ({ s with
          isNight := false
          nightTimer := 0
          timeOfDay := 0
          hunter := { s.hunter with inCabin := false }
          demon := { s.demon with isRevealed := false, canTrack := false }
          messages := m1.1
          mushrooms := m2.1
          deers := m3.1 }, m3.2)
    else ({ s with nightTimer := nt }, i)
  else
    let tod := s.timeOfDay + dt / c.DAY_DURATION_SECONDS
    if tod ≥ 1.0 then
      let m1 := addMessage rng i s.messages "夜幕降临..."
      ({ s with
          timeOfDay := tod
          isNight := true
          nightTimer := 0
          hunter := { s.hunter with inCabin := false }
          messages := m1.1
          demon := { s.demon with isRevealed := true, canTrack := true } }, m1.2)
    else ({ s with timeOfDay := tod }, i)

/-- The input-to-move-vector accumulation at the head of both movement blocks
(`up` subtracts 1 from y, `down` adds 1, `left`/`right` likewise on x). -/
def inputVec (inp : PlayerInput) : Vector2 :=
  ⟨(if inp.left then (-1 : ℝ) else 0) + (if inp.right then 1 else 0),
   (if inp.up then (-1 : ℝ) else 0) + (if inp.down then 1 else 0)⟩

/-- Hunter movement (section "--- 2. Hunter ---", movement part): skipped
inside the cabin; otherwise, for a nonzero input vector, normalize it, try the
full displacement at `MOVE_SPEED_HUNTER * dt * FPS`, and on collision fall
back to the x-only and then the y-only displacement (wall sliding).  The
facing angle is set from the move direction whenever the input is nonzero. -/
def hunterMove (c : Consts) (obstacles : List Entity) (hi : PlayerInput)
    (dt : ℝ) (s : GameState) : GameState :=
  if s.hunter.inCabin then s
  else
    let hMove := inputVec hi
    if hMove.x ≠ 0 ∨ hMove.y ≠ 0 then
      let m := normalize hMove
      let moveDist := c.MOVE_SPEED_HUNTER * dt * c.FPS
      let nextPos := add s.hunter.pos (scale m moveDist)
      let ang := atan2 m.y m.x
      let pos' :=
        if ¬ checkCollision c nextPos s.hunter.size obstacles false then nextPos
        else if ¬ checkCollision c ⟨nextPos.x, s.hunter.pos.y⟩ s.hunter.size obstacles false then
          ⟨nextPos.x, s.hunter.pos.y⟩
        else if ¬ checkCollision c ⟨s.hunter.pos.x, nextPos.y⟩ s.hunter.size obstacles false then
          ⟨s.hunter.pos.x, nextPos.y⟩
        else s.hunter.pos
      { s with hunter := { s.hunter with pos := pos', angle := ang } }
    else s

/-- Cabin entry (section "--- 2. Hunter ---", "Cabin Entry"): at night, within
`cabin.size + 40` of the cabin's center and not yet inside, the entry timer
accumulates `dt` and entering happens at `CABIN_ENTER_DURATION`; otherwise the
timer drains at double speed (never below 0). -/
def cabinEntry (c : Consts) (rng : ℕ → ℝ) (dt : ℝ) (s : GameState) (i : ℕ) :
    GameState × ℕ :=
  let distCabin := distance s.hunter.pos s.cabin.pos
  if s.isNight = true ∧ distCabin < s.cabin.size + 40 ∧ s.hunter.inCabin = false then
    let et := s.hunter.enterTimer + dt
    if et ≥ c.CABIN_ENTER_DURATION then
      let m1 := addMessage rng i s.messages "猎人已躲入木屋。"
      ({ s with
          hunter := { s.hunter with inCabin := true, enterTimer := 0 }
          messages := m1.1 }, m1.2)
    else ({ s with hunter := { s.hunter with enterTimer := et } }, i)
  else
    ({ s with hunter := { s.hunter with enterTimer := max 0 (s.hunter.enterTimer - dt * 2) } }, i)

/-- Shooting (section "--- 2. Hunter ---", "Shooting"): the cooldown decays by
`dt * FPS` while positive; on a fire request with the (decayed) cooldown
elapsed and the hunter not sheltered, the cooldown is reset to
`SHOOT_COOLDOWN` and a projectile is appended, starting at the hunter's
position offset by `size + 5` along the facing direction, with velocity
`BULLET_SPEED` along the facing direction; during day `timeOfDay` additionally
grows by `SHOOT_PENALTY_SECONDS / DAY_DURATION_SECONDS`, clamped at 1.0. -/
def hunterShoot (c : Consts) (rng : ℕ → ℝ) (hi : PlayerInput) (dt : ℝ)
    (s : GameState) (i : ℕ) : GameState × ℕ :=
  let cd := if s.hunter.cooldown > 0 then s.hunter.cooldown - dt * c.FPS else s.hunter.cooldown
  if hi.action = true ∧ cd ≤ 0 ∧ s.hunter.inCabin = false then
    let dir : Vector2 := ⟨Real.cos s.hunter.angle, Real.sin s.hunter.angle⟩
    let startPos := add s.hunter.pos (scale dir (s.hunter.size + 5))
    let velocity := scale dir c.BULLET_SPEED
    let s1 := { s with
        hunter := { s.hunter with cooldown := c.SHOOT_COOLDOWN }
        bullets := s.bullets ++ [⟨startPos, velocity, true⟩] }
    if s1.isNight = false then
      let penalty := c.SHOOT_PENALTY_SECONDS / c.DAY_DURATION_SECONDS
      let m1 := addMessage rng i s1.messages "开枪惩罚: 时间流逝"
      ({ s1 with timeOfDay := min 1.0 (s1.timeOfDay + penalty), messages := m1.1 }, m1.2)
    else (s1, i)
  else ({ s with hunter := { s.hunter with cooldown := cd } }, i)

/-- Demon movement (section "--- 3. Demon ---"): while stunned only the stun
timer decays by `dt` (no clamp at 0 in this revision); otherwise movement
mirrors the hunter's diagonal-then-axis-fallback at speed
`MOVE_SPEED_DEMON * 1.3` at night and `MOVE_SPEED_DEER` (disguise) during
day. -/
def demonMove (c : Consts) (obstacles : List Entity) (di : PlayerInput)
    (dt : ℝ) (s : GameState) : GameState :=
  if s.demon.stunTimer > 0 then
    { s with demon := { s.demon with stunTimer := s.demon.stunTimer - dt } }
  else
    let dMove := inputVec di
    if dMove.x ≠ 0 ∨ dMove.y ≠ 0 then
      let m := normalize dMove
      let currentSpeed := if s.isNight then c.MOVE_SPEED_DEMON * 1.3 else c.MOVE_SPEED_DEER
      let moveDist := currentSpeed * dt * c.FPS
      let nextPos := add s.demon.pos (scale m moveDist)
      let ang := atan2 m.y m.x
      let pos' :=
        if ¬ checkCollision c nextPos s.demon.size obstacles false then nextPos
        else if ¬ checkCollision c ⟨nextPos.x, s.demon.pos.y⟩ s.demon.size obstacles false then
          ⟨nextPos.x, s.demon.pos.y⟩
        else if ¬ checkCollision c ⟨s.demon.pos.x, nextPos.y⟩ s.demon.size obstacles false then
          ⟨s.demon.pos.x, nextPos.y⟩
        else s.demon.pos
      { s with demon := { s.demon with pos := pos', angle := ang } }
    else s

/-- The stateful filter of the day "Eat Mushroom" branch: removes the first
mushroom within range 20 of `dpos` and keeps everything after it (the
source's `ate` flag). -/
def eatFilter (dpos : Vector2) : List Entity → List Entity
  | [] => []
  | m :: rest => if distance dpos m.pos < 20 then rest else m :: eatFilter dpos rest

/-- Demon skills (section "--- 3. Demon ---", "Demon Skills"): at night the
tracking window decays while positive; a fire request with the one-shot charge
available and `nightTimer > 0.5` consumes the charge and opens the window for
`DEMON_TRACKING_DURATION` (the half-second guard prevents a held key from
triggering right after the transition); then, if the hunter is not sheltered
and the demon not stunned and within contact distance `demon.size +
hunter.size`, the phase becomes GAME_OVER_DEMON_WINS.  During day a fire
request eats the first mushroom within range 20 and, on success, adds
`DEMON_EAT_BONUS` to `timeOfDay`, clamped at 1.0.  (Neither the tracking
guard nor the eat branch checks the stun timer in this revision.) -/
def demonSkills (c : Consts) (rng : ℕ → ℝ) (di : PlayerInput) (dt : ℝ)
    (s : GameState) (i : ℕ) : GameState × ℕ :=
  if s.isNight then
    let tat := if s.demon.trackingActiveTime > 0 then s.demon.trackingActiveTime - dt
               else s.demon.trackingActiveTime
    let s1 := { s with demon := { s.demon with trackingActiveTime := tat } }
    let r : GameState × ℕ :=
      if di.action = true ∧ s1.demon.canTrack = true ∧ s1.nightTimer > (0.5 : ℝ) then
        let m1 := addMessage rng i s1.messages "恶魔正在感知..."
        ({ s1 with
            demon := { s1.demon with canTrack := false, trackingActiveTime := c.DEMON_TRACKING_DURATION }
            messages := m1.1 }, m1.2)
      else (s1, i)
    if r.1.hunter.inCabin = false ∧ r.1.demon.stunTimer ≤ 0 then
      if distance r.1.demon.pos r.1.hunter.pos < r.1.demon.size + r.1.hunter.size then
        let m2 := addMessage rng r.2 r.1.messages "猎人被恶魔捕获！"
        ({ r.1 with phase := GamePhase.GAME_OVER_DEMON_WINS, messages := m2.1 }, m2.2)
      else r
    else r
  else
    if di.action = true then
      let ms := eatFilter s.demon.pos s.mushrooms
      if ms.length < s.mushrooms.length then
        let m1 := addMessage rng i s.messages "恶魔吞噬了蘑菇"
        ({ s with
            mushrooms := ms
            timeOfDay := min 1.0 (s.timeOfDay + c.DEMON_EAT_BONUS)
            messages := m1.1 }, m1.2)
      else ({ s with mushrooms := ms }, i)
    else (s, i)

/-- One deer's update (body of the map in section "--- 4. Deer ---"): the AI
timer decays by `dt * FPS`; on expiry the moving flag toggles and the timer is
reseeded to `60 + random*120`, and when the deer starts moving its facing
snaps to a random one of 8 directions; a moving deer advances along its facing
at `MOVE_SPEED_DEER * dt * FPS`, and a blocked destination cancels the move
and turns the deer around (`angle + π`). -/
def deerStepOne (c : Consts) (obstacles : List Entity) (rng : ℕ → ℝ) (dt : ℝ)
    (acc : List Deer × ℕ) (deer : Deer) : List Deer × ℕ :=
  let t0 := deer.ai.timer - dt * c.FPS
  let upd : Bool × ℝ × ℝ × ℕ :=
    if t0 ≤ 0 then
      let mv := !deer.ai.moving
      let tm := 60 + rng acc.2 * 120
      if mv then
        (mv, tm, ((Int.floor (rng (acc.2 + 1) * 8) : ℤ) : ℝ) * (Real.pi / 4), acc.2 + 2)
      else (mv, tm, deer.angle, acc.2 + 1)
    else (deer.ai.moving, t0, deer.angle, acc.2)
  let mv := upd.1
  let tm := upd.2.1
  let ang := upd.2.2.1
  let i' := upd.2.2.2
  if mv then
    let dir : Vector2 := ⟨Real.cos ang, Real.sin ang⟩
    let nextPos := add deer.pos (scale dir (c.MOVE_SPEED_DEER * dt * c.FPS))
    if ¬ checkCollision c nextPos deer.size obstacles false then
      (acc.1 ++ [{ deer with pos := nextPos, angle := ang, ai := ⟨mv, tm⟩ }], i')
    else (acc.1 ++ [{ deer with angle := ang + Real.pi, ai := ⟨mv, tm⟩ }], i')
  else (acc.1 ++ [{ deer with angle := ang, ai := ⟨mv, tm⟩ }], i')

/-- Section "--- 4. Deer ---": map `deerStepOne` over the herd (expressed as a
fold to thread the RNG cursor in source order). -/
def deerUpdate (c : Consts) (obstacles : List Entity) (rng : ℕ → ℝ) (dt : ℝ)
    (s : GameState) (i : ℕ) : GameState × ℕ :=
  let r := s.deers.foldl (deerStepOne c obstacles rng dt) ([], i)
  ({ s with deers := r.1 }, r.2)

/-- Accumulator for the projectile pass: the source's map body mutates
`newState.demon`, `newState.phase`, `newState.messages` and the dead-deer set
while producing the moved/deactivated bullets. -/
structure BulletAcc where
  bullets : List Bullet
  demon : Demon
  phase : GamePhase
  messages : List GameMessage
  deadDeerIds : List String
  idx : ℕ

/-- A bullet's next position: `pos + velocity * (dt * FPS)`. -/
def bulletNext (c : Consts) (dt : ℝ) (b : Bullet) : Vector2 :=
  add b.pos (scale b.velocity (dt * c.FPS))

/-- The per-bullet deer scan: the source returns at the first deer within
`deer.size + 5` of the bullet's next position. -/
def findDeerHit (nextPos : Vector2) : List Deer → Option Deer
  | [] => none
  | d :: rest => if distance nextPos d.pos < d.size + 5 then some d else findDeerHit nextPos rest

/-- One bullet's resolution (body of the map in section "--- 5. Bullets ---"),
in source order: move by `velocity * dt * FPS`; deactivate when the next
position leaves `[0, MAP_SIZE]` on either axis; deactivate on
`checkCollision` at radius 2; on overlap with the demon (`demon.size + 5`),
at night set the stun timer to `DEMON_STUN_DURATION`, and during day set the
phase to GAME_OVER_HUNTER_WINS and reveal the demon, deactivating the bullet
either way; otherwise deactivate on the first overlapping deer, recording its
id; a bullet that hits nothing keeps flying. -/
def bulletStepOne (c : Consts) (obstacles : List Entity) (deers : List Deer)
    (isNight : Bool) (rng : ℕ → ℝ) (dt : ℝ) (acc : BulletAcc) (b : Bullet) :
    BulletAcc :=
  let nextPos := bulletNext c dt b
  if nextPos.x < 0 ∨ nextPos.x > c.MAP_SIZE ∨ nextPos.y < 0 ∨ nextPos.y > c.MAP_SIZE then
    { acc with bullets := acc.bullets ++ [{ b with active := false }] }
  else if checkCollision c nextPos 2 obstacles false then
    { acc with bullets := acc.bullets ++ [{ b with active := false }] }
  else if distance nextPos acc.demon.pos < acc.demon.size + 5 then
    if isNight then
      let m1 := addMessage rng acc.idx acc.messages "恶魔被击晕！"
      { acc with
          bullets := acc.bullets ++ [{ b with active := false }]
          demon := { acc.demon with stunTimer := c.DEMON_STUN_DURATION }
          messages := m1.1
          idx := m1.2 }
    else
      let m1 := addMessage rng acc.idx acc.messages "恶魔被击杀！"
      { acc with
          bullets := acc.bullets ++ [{ b with active := false }]
          phase := GamePhase.GAME_OVER_HUNTER_WINS
          demon := { acc.demon with isRevealed := true }
          messages := m1.1
          idx := m1.2 }
  else
    match findDeerHit nextPos deers with
    | some d =>
      { acc with
          bullets := acc.bullets ++ [{ b with active := false }]
          deadDeerIds := acc.deadDeerIds ++ [d.id] }
    | none => { acc with bullets := acc.bullets ++ [{ b with pos := nextPos }] }

/-- Section "--- 5. Bullets ---": fold the per-bullet resolution over the
bullet list, drop the deactivated bullets, and remove the deer recorded as
hit (the source guards the removal by a non-empty dead-id set). -/
def bulletUpdate (c : Consts) (obstacles : List Entity) (rng : ℕ → ℝ)
    (dt : ℝ) (s : GameState) (i : ℕ) : GameState × ℕ :=
  let acc0 : BulletAcc := ⟨[], s.demon, s.phase, s.messages, [], i⟩
  let acc := s.bullets.foldl (bulletStepOne c obstacles s.deers s.isNight rng dt) acc0
  let deers' := if acc.deadDeerIds.length > 0 then
      s.deers.filter (fun d => !(acc.deadDeerIds.contains d.id))
    else s.deers
  ({ s with
      bullets := acc.bullets.filter (fun b => b.active)
      demon := acc.demon
      phase := acc.phase
      messages := acc.messages
      deers := deers' }, acc.idx)

/-- Cumulative tick stage 1: messages TTL then "--- 1. Time & Phase ---". -/
def tick1 (c : Consts) (rng : ℕ → ℝ) (now : ℕ) (dt : ℝ) (s : GameState) :
    GameState × ℕ :=
  timePhase c rng now (obstaclesOf s) dt (msgDecay dt s) 0

/-- Cumulative tick stage 2: … then hunter movement. -/
def tick2 (c : Consts) (rng : ℕ → ℝ) (now : ℕ) (hi : PlayerInput) (dt : ℝ)
    (s : GameState) : GameState × ℕ :=
  let r := tick1 c rng now dt s
  (hunterMove c (obstaclesOf s) hi dt r.1, r.2)

/-- Cumulative tick stage 3: … then cabin entry. -/
def tick3 (c : Consts) (rng : ℕ → ℝ) (now : ℕ) (hi : PlayerInput) (dt : ℝ)
    (s : GameState) : GameState × ℕ :=
  let r := tick2 c rng now hi dt s
  cabinEntry c rng dt r.1 r.2

/-- Cumulative tick stage 4: … then shooting. -/
def tick4 (c : Consts) (rng : ℕ → ℝ) (now : ℕ) (hi : PlayerInput) (dt : ℝ)
    (s : GameState) : GameState × ℕ :=
  let r := tick3 c rng now hi dt s
  hunterShoot c rng hi dt r.1 r.2

/-- Cumulative tick stage 5: … then demon movement (or stun decay). -/
def tick5 (c : Consts) (rng : ℕ → ℝ) (now : ℕ) (hi di : PlayerInput) (dt : ℝ)
    (s : GameState) : GameState × ℕ :=
  let r := tick4 c rng now hi dt s
  (demonMove c (obstaclesOf s) di dt r.1, r.2)

/-- Cumulative tick stage 6: … then demon skills / attack / eating. -/
def tick6 (c : Consts) (rng : ℕ → ℝ) (now : ℕ) (hi di : PlayerInput) (dt : ℝ)
    (s : GameState) : GameState × ℕ :=
  let r := tick5 c rng now hi di dt s
  demonSkills c rng di dt r.1 r.2

/-- Cumulative tick stage 7: … then deer wandering. -/
def tick7 (c : Consts) (rng : ℕ → ℝ) (now : ℕ) (hi di : PlayerInput) (dt : ℝ)
    (s : GameState) : GameState × ℕ :=
  let r := tick6 c rng now hi di dt s
  deerUpdate c (obstaclesOf s) rng dt r.1 r.2

/-- Source `updateGame(state, hunterInput, demonInput, dt)` — the spec's
`advance`.  The source first builds a field-by-field shallow copy `newState`
and returns that copy unchanged when the phase is one of the two GAME_OVER
phases (in a value semantics the copy equals the input state, so this branch
returns `s`); phases other than PLAYING and the GAME_OVER pair run the full
tick body.  Otherwise the eight sections run in source order, finishing with
the projectile pass. -/
def updateGame (c : Consts) (rng : ℕ → ℝ) (now : ℕ) (s : GameState)
    (hi di : PlayerInput) (dt : ℝ) : GameState :=
  if s.phase = GamePhase.GAME_OVER_HUNTER_WINS ∨
      s.phase = GamePhase.GAME_OVER_DEMON_WINS then s
  else
    let r := tick7 c rng now hi di dt s
    (bulletUpdate c (obstaclesOf s) rng dt r.1 r.2).1

/-- The out-of-bounds condition of the projectile pass (first early-out of
the map body in section "--- 5. Bullets ---"). -/
def bulletOut (c : Consts) (dt : ℝ) (b : Bullet) : Prop :=
  (bulletNext c dt b).x < 0 ∨ (bulletNext c dt b).x > c.MAP_SIZE ∨
    (bulletNext c dt b).y < 0 ∨ (bulletNext c dt b).y > c.MAP_SIZE

/-- The path condition under which a projectile reaches the demon this tick:
its next position is in bounds, clear of obstacles (radius-2 test), and
within `size + 5` of the demon — exactly the sequence of guards the source
evaluates before the demon-hit branch.  `dpos`/`dsize` are the demon's
position and size (constant throughout the pass). -/
def bulletHitsDemon (c : Consts) (obstacles : List Entity) (dt : ℝ)
    (dpos : Vector2) (dsize : ℝ) (b : Bullet) : Prop :=
  ¬ bulletOut c dt b ∧ ¬ checkCollision c (bulletNext c dt b) 2 obstacles false ∧
    distance (bulletNext c dt b) dpos < dsize + 5

/-- A projectile survives the pass when none of the source's four
deactivation conditions (bounds, obstacle, demon, deer) fires. -/
def bulletSurvives (c : Consts) (obstacles : List Entity) (deers : List Deer)
    (dt : ℝ) (dpos : Vector2) (dsize : ℝ) (b : Bullet) : Prop :=
  ¬ bulletOut c dt b ∧ ¬ checkCollision c (bulletNext c dt b) 2 obstacles false ∧
    ¬ distance (bulletNext c dt b) dpos < dsize + 5 ∧
    findDeerHit (bulletNext c dt b) deers = none

/-- What the projectile pass makes of one bullet: a surviving bullet is moved
to its next position, every other bullet is deactivated in place (and then
dropped by the final filter). -/
def bulletResolve (c : Consts) (obstacles : List Entity) (deers : List Deer)
    (dt : ℝ) (dpos : Vector2) (dsize : ℝ) (b : Bullet) : Bullet :=
  if bulletSurvives c obstacles deers dt dpos dsize b then
    { b with pos := bulletNext c dt b }
  else { b with active := false }

/-! ### Concrete instances used by witnesses and counterexamples

The development is parametric in `Consts`; these records pick illustrative
values (the witnesses only need some fixed instance). -/

/-- A concrete constants record: map 1000×1000, day 100 s, night 60 s, shoot
cooldown 30 frames, bullet speed 10, eat bonus 0.1, shoot penalty 5 s, tree
footprint factor 1/2, 1 FPS (so `dt·FPS` stays rational), cabin entry 3 s,
stun 4 s, tracking 5 s. -/
def Cx : Consts :=
  ⟨1000, 1, 1, 1, 30, 10, 1/10, 5, 100, 1/2, 1, 3, 60, 4, 5⟩

/-- Constants for the wall-sliding witness: hunter speed `√2` makes the
normalized diagonal displacement exactly `(1, 1)`. -/
def Cx4 : Consts := { Cx with MOVE_SPEED_HUNTER := Real.sqrt 2 }

/-- A constant RNG stream (every draw is 1/2). -/
def rngHalf : ℕ → ℝ := fun _ => 1/2

def noInput : PlayerInput := ⟨false, false, false, false, false⟩

def fireInput : PlayerInput := ⟨false, false, false, false, true⟩

/-- Diagonal (down+right) movement input. -/
def dirDR : PlayerInput := ⟨false, true, false, true, false⟩

def cabin0 : Entity := ⟨"cabin", EntityType.CABIN, ⟨900, 900⟩, 50, 0⟩

def hunter0 : Hunter := ⟨⟨100, 100⟩, 15, 0, 0, 0, false, 0⟩

def demon0 : Demon := ⟨⟨500, 100⟩, 14, 0, 0, 0, false, 0, 0, false⟩

/-- Base world: PLAYING, daybreak, hunter at (100,100), demon at (500,100),
cabin far away at (900,900), no trees/bushes/mushrooms/deer/bullets. -/
def S0 : GameState :=
  ⟨GamePhase.PLAYING, 0, false, 0, hunter0, demon0, [], [], [], [], [], cabin0,
   1000, 1000, 0, []⟩

def sMenu : GameState := { S0 with phase := GamePhase.MENU }

/-- Demon within contact range of the hunter (distance 10 < 15 + 14). -/
def demonNear : Demon := { demon0 with pos := ⟨110, 100⟩ }

def sNight2 : GameState := { S0 with isNight := true, nightTimer := 10, demon := demonNear }

/-- A bullet that will reach the demon this tick: next position (120,100),
distance 10 < demon.size + 5 = 19 from (110,100). -/
def bullet3 : Bullet := ⟨⟨130, 100⟩, ⟨-10, 0⟩, true⟩

def sNight3 : GameState := { sNight2 with bullets := [bullet3] }

/-- Small hunter (radius 2) for the sliding witness. -/
def hunter4 : Hunter := ⟨⟨100, 100⟩, 2, 0, 0, 0, false, 0⟩

/-- Tree with collision half-size 4 (8 · 1/2) sitting just south-east of the
hunter: the diagonal target (101,101) collides, the x-only target (101,100)
is free. -/
def tree4 : Entity := ⟨"tree", EntityType.TREE, ⟨101, 107⟩, 8, 0⟩

def s4 : GameState := { S0 with hunter := hunter4, trees := [tree4] }

def mush0 : Entity := ⟨"m0", EntityType.MUSHROOM, ⟨200, 200⟩, 8, 0⟩

/-- One tick before dusk: 199/200 + 1/100 = 201/200 crosses 1.0. -/
def sDusk : GameState := { S0 with timeOfDay := 199/200 }

/-- A demon that is stunned (5 s left) with a leftover tracking window. -/
def demonStun : Demon := { demon0 with stunTimer := 5, trackingActiveTime := 3 }

/-- One tick before dawn (nightTimer 59 + dt 1 = night duration 60), with a
stunned demon, a full mushroom field (10) and no deer. -/
def sDawn : GameState :=
  { S0 with isNight := true, nightTimer := 59, demon := demonStun,
            mushrooms := List.replicate 10 mush0 }

/-- Late-day state: the shoot penalty 5/100 would overshoot 1.0. -/
def sLate : GameState := { S0 with timeOfDay := 99/100 }

/-- Mushroom at distance 15 from the demon (in range 20, but not nearest). -/
def m1 : Entity := ⟨"m1", EntityType.MUSHROOM, ⟨515, 100⟩, 8, 0⟩

/-- Mushroom at distance 5 from the demon (the nearest one). -/
def m2 : Entity := ⟨"m2", EntityType.MUSHROOM, ⟨505, 100⟩, 8, 0⟩

/-- Two mushrooms in eating range, the farther one first in list order. -/
def sEat : GameState := { S0 with mushrooms := [m1, m2] }

def sEatLate : GameState := { sEat with timeOfDay := 99/100 }

/-- Night, stunned demon holding its tracking charge. -/
def sStunTrack : GameState :=
  { S0 with isNight := true, nightTimer := 10,
            demon := { demon0 with stunTimer := 5, canTrack := true } }

/-- Day, stunned demon with a mushroom in eating range. -/
def sStunEat : GameState :=
  { S0 with demon := { demon0 with stunTimer := 5 }, mushrooms := [m2] }

/-- Night just begun elsewhere: tracking charge available, 10 s into night. -/
def sNightTrack : GameState :=
  { S0 with isNight := true, nightTimer := 10, demon := { demon0 with canTrack := true } }

/-- First half-second of a night with the charge available. -/
def sNightEarly : GameState :=
  { S0 with isNight := true, nightTimer := 1/4, demon := { demon0 with canTrack := true } }

/-- A bush centered on the segment from (0,0) to (0,30), covering the sample
point (0,10). -/
def bush1 : Entity := ⟨"bush", EntityType.BUSH, ⟨0, 10⟩, 5, 0⟩

/-- A tree (collision half-size 5) centered on the same segment at (0,20). -/
def tree9 : Entity := ⟨"t9", EntityType.TREE, ⟨0, 20⟩, 10, 0⟩

/-- The same tree moved far off the segment. -/
def tree9far : Entity := ⟨"t9f", EntityType.TREE, ⟨100, 15⟩, 10, 0⟩

/-! ## General lemmas about the geometry kernel -/

theorem distance_nonneg (a b : Vector2) : 0 ≤ distance a b :=
  Real.sqrt_nonneg _

/-- `distance a b < r` unfolded to a square-free comparison (both sides of the
source's comparison are nonnegative, so squaring is lossless). -/
theorem distance_lt_iff (a b : Vector2) (r : ℝ) :
    distance a b < r ↔ 0 < r ∧ (a.x - b.x) ^ 2 + (a.y - b.y) ^ 2 < r ^ 2 := by
  constructor
  · intro h
    have hr : 0 < r := lt_of_le_of_lt (distance_nonneg a b) h
    exact ⟨hr, (Real.sqrt_lt' hr).1 h⟩
  · rintro ⟨hr, h⟩
    exact (Real.sqrt_lt' hr).2 h

/-! ## Frame lemmas: which state fields each tick section leaves unchanged -/

@[simp] theorem msgDecay_phase (dt : ℝ) (s : GameState) : (msgDecay dt s).phase = s.phase := rfl

@[simp] theorem msgDecay_isNight (dt : ℝ) (s : GameState) : (msgDecay dt s).isNight = s.isNight := rfl

@[simp] theorem msgDecay_nightTimer (dt : ℝ) (s : GameState) : (msgDecay dt s).nightTimer = s.nightTimer := rfl

@[simp] theorem msgDecay_timeOfDay (dt : ℝ) (s : GameState) : (msgDecay dt s).timeOfDay = s.timeOfDay := rfl

@[simp] theorem msgDecay_hunter (dt : ℝ) (s : GameState) : (msgDecay dt s).hunter = s.hunter := rfl

@[simp] theorem msgDecay_demon (dt : ℝ) (s : GameState) : (msgDecay dt s).demon = s.demon := rfl

@[simp] theorem msgDecay_trees (dt : ℝ) (s : GameState) : (msgDecay dt s).trees = s.trees := rfl

@[simp] theorem msgDecay_cabin (dt : ℝ) (s : GameState) : (msgDecay dt s).cabin = s.cabin := rfl

@[simp] theorem msgDecay_mushrooms (dt : ℝ) (s : GameState) : (msgDecay dt s).mushrooms = s.mushrooms := rfl

@[simp] theorem msgDecay_bullets (dt : ℝ) (s : GameState) : (msgDecay dt s).bullets = s.bullets := rfl

@[simp] theorem msgDecay_deers (dt : ℝ) (s : GameState) : (msgDecay dt s).deers = s.deers := rfl

/-- During a night tick that does not reach the night's end, the whole
"Time & Phase" section only advances `nightTimer`. -/
theorem timePhase_night_persist (c : Consts) (rng : ℕ → ℝ) (now : ℕ)
    (obstacles : List Entity) (dt : ℝ) (s : GameState) (i : ℕ)
    (hn : s.isNight = true) (hlt : s.nightTimer + dt < c.NIGHT_DURATION_SECONDS) :
    timePhase c rng now obstacles dt s i = ({ s with nightTimer := s.nightTimer + dt }, i) := by
  unfold timePhase
  rw [hn]
  simp only [if_true]
  rw [if_neg (by exact not_le.mpr hlt)]

/-- During a day tick that does not reach dusk, the "Time & Phase" section
only advances `timeOfDay`. -/
theorem timePhase_day_persist (c : Consts) (rng : ℕ → ℝ) (now : ℕ)
    (obstacles : List Entity) (dt : ℝ) (s : GameState) (i : ℕ)
    (hn : s.isNight = false) (hlt : s.timeOfDay + dt / c.DAY_DURATION_SECONDS < 1) :
    timePhase c rng now obstacles dt s i
      = ({ s with timeOfDay := s.timeOfDay + dt / c.DAY_DURATION_SECONDS }, i) := by
  unfold timePhase
  rw [hn]
  simp only [Bool.false_eq_true, if_false]
  rw [if_neg (by rw [show (1.0 : ℝ) = 1 from by norm_num]; exact not_le.mpr hlt)]

@[simp] theorem timePhase_phase (c : Consts) (rng : ℕ → ℝ) (now : ℕ)
    (obstacles : List Entity) (dt : ℝ) (s : GameState) (i : ℕ) :
    (timePhase c rng now obstacles dt s i).1.phase = s.phase := by
  simp only [timePhase]
  split_ifs <;> rfl

@[simp] theorem timePhase_trees (c : Consts) (rng : ℕ → ℝ) (now : ℕ)
    (obstacles : List Entity) (dt : ℝ) (s : GameState) (i : ℕ) :
    (timePhase c rng now obstacles dt s i).1.trees = s.trees := by
  simp only [timePhase]
  split_ifs <;> rfl

@[simp] theorem timePhase_cabin (c : Consts) (rng : ℕ → ℝ) (now : ℕ)
    (obstacles : List Entity) (dt : ℝ) (s : GameState) (i : ℕ) :
    (timePhase c rng now obstacles dt s i).1.cabin = s.cabin := by
  simp only [timePhase]
  split_ifs <;> rfl

@[simp] theorem timePhase_hunter_pos (c : Consts) (rng : ℕ → ℝ) (now : ℕ)
    (obstacles : List Entity) (dt : ℝ) (s : GameState) (i : ℕ) :
    (timePhase c rng now obstacles dt s i).1.hunter.pos = s.hunter.pos := by
  simp only [timePhase]
  split_ifs <;> rfl

@[simp] theorem timePhase_hunter_size (c : Consts) (rng : ℕ → ℝ) (now : ℕ)
    (obstacles : List Entity) (dt : ℝ) (s : GameState) (i : ℕ) :
    (timePhase c rng now obstacles dt s i).1.hunter.size = s.hunter.size := by
  simp only [timePhase]
  split_ifs <;> rfl

@[simp] theorem timePhase_demon_pos (c : Consts) (rng : ℕ → ℝ) (now : ℕ)
    (obstacles : List Entity) (dt : ℝ) (s : GameState) (i : ℕ) :
    (timePhase c rng now obstacles dt s i).1.demon.pos = s.demon.pos := by
  simp only [timePhase]
  split_ifs <;> rfl

@[simp] theorem timePhase_demon_size (c : Consts) (rng : ℕ → ℝ) (now : ℕ)
    (obstacles : List Entity) (dt : ℝ) (s : GameState) (i : ℕ) :
    (timePhase c rng now obstacles dt s i).1.demon.size = s.demon.size := by
  simp only [timePhase]
  split_ifs <;> rfl

@[simp] theorem timePhase_bullets (c : Consts) (rng : ℕ → ℝ) (now : ℕ)
    (obstacles : List Entity) (dt : ℝ) (s : GameState) (i : ℕ) :
    (timePhase c rng now obstacles dt s i).1.bullets = s.bullets := by
  simp only [timePhase]
  split_ifs <;> rfl

@[simp] theorem hunterMove_phase (c : Consts) (o : List Entity) (hi : PlayerInput)
    (dt : ℝ) (s : GameState) : (hunterMove c o hi dt s).phase = s.phase := by
  simp only [hunterMove]
  split_ifs <;> rfl

@[simp] theorem hunterMove_isNight (c : Consts) (o : List Entity) (hi : PlayerInput)
    (dt : ℝ) (s : GameState) : (hunterMove c o hi dt s).isNight = s.isNight := by
  simp only [hunterMove]
  split_ifs <;> rfl

@[simp] theorem hunterMove_nightTimer (c : Consts) (o : List Entity) (hi : PlayerInput)
    (dt : ℝ) (s : GameState) : (hunterMove c o hi dt s).nightTimer = s.nightTimer := by
  simp only [hunterMove]
  split_ifs <;> rfl

@[simp] theorem hunterMove_timeOfDay (c : Consts) (o : List Entity) (hi : PlayerInput)
    (dt : ℝ) (s : GameState) : (hunterMove c o hi dt s).timeOfDay = s.timeOfDay := by
  simp only [hunterMove]
  split_ifs <;> rfl

@[simp] theorem hunterMove_demon (c : Consts) (o : List Entity) (hi : PlayerInput)
    (dt : ℝ) (s : GameState) : (hunterMove c o hi dt s).demon = s.demon := by
  simp only [hunterMove]
  split_ifs <;> rfl

@[simp] theorem hunterMove_trees (c : Consts) (o : List Entity) (hi : PlayerInput)
    (dt : ℝ) (s : GameState) : (hunterMove c o hi dt s).trees = s.trees := by
  simp only [hunterMove]
  split_ifs <;> rfl

@[simp] theorem hunterMove_cabin (c : Consts) (o : List Entity) (hi : PlayerInput)
    (dt : ℝ) (s : GameState) : (hunterMove c o hi dt s).cabin = s.cabin := by
  simp only [hunterMove]
  split_ifs <;> rfl

@[simp] theorem hunterMove_mushrooms (c : Consts) (o : List Entity) (hi : PlayerInput)
    (dt : ℝ) (s : GameState) : (hunterMove c o hi dt s).mushrooms = s.mushrooms := by
  simp only [hunterMove]
  split_ifs <;> rfl

@[simp] theorem hunterMove_bullets (c : Consts) (o : List Entity) (hi : PlayerInput)
    (dt : ℝ) (s : GameState) : (hunterMove c o hi dt s).bullets = s.bullets := by
  simp only [hunterMove]
  split_ifs <;> rfl

@[simp] theorem hunterMove_hunter_size (c : Consts) (o : List Entity) (hi : PlayerInput)
    (dt : ℝ) (s : GameState) : (hunterMove c o hi dt s).hunter.size = s.hunter.size := by
  simp only [hunterMove]
  split_ifs <;> rfl

@[simp] theorem hunterMove_hunter_inCabin (c : Consts) (o : List Entity) (hi : PlayerInput)
    (dt : ℝ) (s : GameState) : (hunterMove c o hi dt s).hunter.inCabin = s.hunter.inCabin := by
  simp only [hunterMove]
  split_ifs <;> rfl

@[simp] theorem hunterMove_hunter_cooldown (c : Consts) (o : List Entity) (hi : PlayerInput)
    (dt : ℝ) (s : GameState) : (hunterMove c o hi dt s).hunter.cooldown = s.hunter.cooldown := by
  simp only [hunterMove]
  split_ifs <;> rfl

@[simp] theorem hunterMove_hunter_enterTimer (c : Consts) (o : List Entity) (hi : PlayerInput)
    (dt : ℝ) (s : GameState) : (hunterMove c o hi dt s).hunter.enterTimer = s.hunter.enterTimer := by
  simp only [hunterMove]
  split_ifs <;> rfl

@[simp] theorem cabinEntry_phase (c : Consts) (rng : ℕ → ℝ) (dt : ℝ) (s : GameState) (i : ℕ) :
    (cabinEntry c rng dt s i).1.phase = s.phase := by
  simp only [cabinEntry]
  split_ifs <;> rfl

@[simp] theorem cabinEntry_isNight (c : Consts) (rng : ℕ → ℝ) (dt : ℝ) (s : GameState) (i : ℕ) :
    (cabinEntry c rng dt s i).1.isNight = s.isNight := by
  simp only [cabinEntry]
  split_ifs <;> rfl

@[simp] theorem cabinEntry_nightTimer (c : Consts) (rng : ℕ → ℝ) (dt : ℝ) (s : GameState) (i : ℕ) :
    (cabinEntry c rng dt s i).1.nightTimer = s.nightTimer := by
  simp only [cabinEntry]
  split_ifs <;> rfl

@[simp] theorem cabinEntry_timeOfDay (c : Consts) (rng : ℕ → ℝ) (dt : ℝ) (s : GameState) (i : ℕ) :
    (cabinEntry c rng dt s i).1.timeOfDay = s.timeOfDay := by
  simp only [cabinEntry]
  split_ifs <;> rfl

@[simp] theorem cabinEntry_demon (c : Consts) (rng : ℕ → ℝ) (dt : ℝ) (s : GameState) (i : ℕ) :
    (cabinEntry c rng dt s i).1.demon = s.demon := by
  simp only [cabinEntry]
  split_ifs <;> rfl

@[simp] theorem cabinEntry_trees (c : Consts) (rng : ℕ → ℝ) (dt : ℝ) (s : GameState) (i : ℕ) :
    (cabinEntry c rng dt s i).1.trees = s.trees := by
  simp only [cabinEntry]
  split_ifs <;> rfl

@[simp] theorem cabinEntry_cabin (c : Consts) (rng : ℕ → ℝ) (dt : ℝ) (s : GameState) (i : ℕ) :
    (cabinEntry c rng dt s i).1.cabin = s.cabin := by
  simp only [cabinEntry]
  split_ifs <;> rfl

@[simp] theorem cabinEntry_mushrooms (c : Consts) (rng : ℕ → ℝ) (dt : ℝ) (s : GameState) (i : ℕ) :
    (cabinEntry c rng dt s i).1.mushrooms = s.mushrooms := by
  simp only [cabinEntry]
  split_ifs <;> rfl

@[simp] theorem cabinEntry_bullets (c : Consts) (rng : ℕ → ℝ) (dt : ℝ) (s : GameState) (i : ℕ) :
    (cabinEntry c rng dt s i).1.bullets = s.bullets := by
  simp only [cabinEntry]
  split_ifs <;> rfl

@[simp] theorem cabinEntry_deers (c : Consts) (rng : ℕ → ℝ) (dt : ℝ) (s : GameState) (i : ℕ) :
    (cabinEntry c rng dt s i).1.deers = s.deers := by
  simp only [cabinEntry]
  split_ifs <;> rfl

@[simp] theorem cabinEntry_hunter_pos (c : Consts) (rng : ℕ → ℝ) (dt : ℝ) (s : GameState) (i : ℕ) :
    (cabinEntry c rng dt s i).1.hunter.pos = s.hunter.pos := by
  simp only [cabinEntry]
  split_ifs <;> rfl

@[simp] theorem cabinEntry_hunter_size (c : Consts) (rng : ℕ → ℝ) (dt : ℝ) (s : GameState) (i : ℕ) :
    (cabinEntry c rng dt s i).1.hunter.size = s.hunter.size := by
  simp only [cabinEntry]
  split_ifs <;> rfl

@[simp] theorem cabinEntry_hunter_angle (c : Consts) (rng : ℕ → ℝ) (dt : ℝ) (s : GameState) (i : ℕ) :
    (cabinEntry c rng dt s i).1.hunter.angle = s.hunter.angle := by
  simp only [cabinEntry]
  split_ifs <;> rfl

@[simp] theorem cabinEntry_hunter_cooldown (c : Consts) (rng : ℕ → ℝ) (dt : ℝ) (s : GameState) (i : ℕ) :
    (cabinEntry c rng dt s i).1.hunter.cooldown = s.hunter.cooldown := by
  simp only [cabinEntry]
  split_ifs <;> rfl

@[simp] theorem hunterShoot_phase (c : Consts) (rng : ℕ → ℝ) (hi : PlayerInput) (dt : ℝ) (s : GameState) (i : ℕ) :
    (hunterShoot c rng hi dt s i).1.phase = s.phase := by
  simp only [hunterShoot]
  split_ifs <;> rfl

@[simp] theorem hunterShoot_isNight (c : Consts) (rng : ℕ → ℝ) (hi : PlayerInput) (dt : ℝ) (s : GameState) (i : ℕ) :
    (hunterShoot c rng hi dt s i).1.isNight = s.isNight := by
  simp only [hunterShoot]
  split_ifs <;> rfl

@[simp] theorem hunterShoot_nightTimer (c : Consts) (rng : ℕ → ℝ) (hi : PlayerInput) (dt : ℝ) (s : GameState) (i : ℕ) :
    (hunterShoot c rng hi dt s i).1.nightTimer = s.nightTimer := by
  simp only [hunterShoot]
  split_ifs <;> rfl

@[simp] theorem hunterShoot_demon (c : Consts) (rng : ℕ → ℝ) (hi : PlayerInput) (dt : ℝ) (s : GameState) (i : ℕ) :
    (hunterShoot c rng hi dt s i).1.demon = s.demon := by
  simp only [hunterShoot]
  split_ifs <;> rfl

@[simp] theorem hunterShoot_trees (c : Consts) (rng : ℕ → ℝ) (hi : PlayerInput) (dt : ℝ) (s : GameState) (i : ℕ) :
    (hunterShoot c rng hi dt s i).1.trees = s.trees := by
  simp only [hunterShoot]
  split_ifs <;> rfl

@[simp] theorem hunterShoot_cabin (c : Consts) (rng : ℕ → ℝ) (hi : PlayerInput) (dt : ℝ) (s : GameState) (i : ℕ) :
    (hunterShoot c rng hi dt s i).1.cabin = s.cabin := by
  simp only [hunterShoot]
  split_ifs <;> rfl

@[simp] theorem hunterShoot_mushrooms (c : Consts) (rng : ℕ → ℝ) (hi : PlayerInput) (dt : ℝ) (s : GameState) (i : ℕ) :
    (hunterShoot c rng hi dt s i).1.mushrooms = s.mushrooms := by
  simp only [hunterShoot]
  split_ifs <;> rfl

@[simp] theorem hunterShoot_deers (c : Consts) (rng : ℕ → ℝ) (hi : PlayerInput) (dt : ℝ) (s : GameState) (i : ℕ) :
    (hunterShoot c rng hi dt s i).1.deers = s.deers := by
  simp only [hunterShoot]
  split_ifs <;> rfl

@[simp] theorem hunterShoot_hunter_pos (c : Consts) (rng : ℕ → ℝ) (hi : PlayerInput) (dt : ℝ) (s : GameState) (i : ℕ) :
    (hunterShoot c rng hi dt s i).1.hunter.pos = s.hunter.pos := by
  simp only [hunterShoot]
  split_ifs <;> rfl

@[simp] theorem hunterShoot_hunter_size (c : Consts) (rng : ℕ → ℝ) (hi : PlayerInput) (dt : ℝ) (s : GameState) (i : ℕ) :
    (hunterShoot c rng hi dt s i).1.hunter.size = s.hunter.size := by
  simp only [hunterShoot]
  split_ifs <;> rfl

@[simp] theorem hunterShoot_hunter_inCabin (c : Consts) (rng : ℕ → ℝ) (hi : PlayerInput) (dt : ℝ) (s : GameState) (i : ℕ) :
    (hunterShoot c rng hi dt s i).1.hunter.inCabin = s.hunter.inCabin := by
  simp only [hunterShoot]
  split_ifs <;> rfl

@[simp] theorem hunterShoot_hunter_angle (c : Consts) (rng : ℕ → ℝ) (hi : PlayerInput) (dt : ℝ) (s : GameState) (i : ℕ) :
    (hunterShoot c rng hi dt s i).1.hunter.angle = s.hunter.angle := by
  simp only [hunterShoot]
  split_ifs <;> rfl

@[simp] theorem hunterShoot_timeOfDay_night (c : Consts) (rng : ℕ → ℝ) (hi : PlayerInput) (dt : ℝ) (s : GameState) (i : ℕ)
    (hn : s.isNight = true) : (hunterShoot c rng hi dt s i).1.timeOfDay = s.timeOfDay := by
  simp only [hunterShoot]
  split_ifs <;> first | rfl | simp_all

@[simp] theorem demonMove_phase (c : Consts) (o : List Entity) (di : PlayerInput) (dt : ℝ) (s : GameState) :
    (demonMove c o di dt s).phase = s.phase := by
  simp only [demonMove]
  split_ifs <;> rfl

@[simp] theorem demonMove_isNight (c : Consts) (o : List Entity) (di : PlayerInput) (dt : ℝ) (s : GameState) :
    (demonMove c o di dt s).isNight = s.isNight := by
  simp only [demonMove]
  split_ifs <;> rfl

@[simp] theorem demonMove_nightTimer (c : Consts) (o : List Entity) (di : PlayerInput) (dt : ℝ) (s : GameState) :
    (demonMove c o di dt s).nightTimer = s.nightTimer := by
  simp only [demonMove]
  split_ifs <;> rfl

@[simp] theorem demonMove_timeOfDay (c : Consts) (o : List Entity) (di : PlayerInput) (dt : ℝ) (s : GameState) :
    (demonMove c o di dt s).timeOfDay = s.timeOfDay := by
  simp only [demonMove]
  split_ifs <;> rfl

@[simp] theorem demonMove_hunter (c : Consts) (o : List Entity) (di : PlayerInput) (dt : ℝ) (s : GameState) :
    (demonMove c o di dt s).hunter = s.hunter := by
  simp only [demonMove]
  split_ifs <;> rfl

@[simp] theorem demonMove_trees (c : Consts) (o : List Entity) (di : PlayerInput) (dt : ℝ) (s : GameState) :
    (demonMove c o di dt s).trees = s.trees := by
  simp only [demonMove]
  split_ifs <;> rfl

@[simp] theorem demonMove_cabin (c : Consts) (o : List Entity) (di : PlayerInput) (dt : ℝ) (s : GameState) :
    (demonMove c o di dt s).cabin = s.cabin := by
  simp only [demonMove]
  split_ifs <;> rfl

@[simp] theorem demonMove_mushrooms (c : Consts) (o : List Entity) (di : PlayerInput) (dt : ℝ) (s : GameState) :
    (demonMove c o di dt s).mushrooms = s.mushrooms := by
  simp only [demonMove]
  split_ifs <;> rfl

@[simp] theorem demonMove_bullets (c : Consts) (o : List Entity) (di : PlayerInput) (dt : ℝ) (s : GameState) :
    (demonMove c o di dt s).bullets = s.bullets := by
  simp only [demonMove]
  split_ifs <;> rfl

@[simp] theorem demonMove_deers (c : Consts) (o : List Entity) (di : PlayerInput) (dt : ℝ) (s : GameState) :
    (demonMove c o di dt s).deers = s.deers := by
  simp only [demonMove]
  split_ifs <;> rfl

@[simp] theorem demonMove_demon_size (c : Consts) (o : List Entity) (di : PlayerInput) (dt : ℝ) (s : GameState) :
    (demonMove c o di dt s).demon.size = s.demon.size := by
  simp only [demonMove]
  split_ifs <;> rfl

@[simp] theorem demonMove_demon_canTrack (c : Consts) (o : List Entity) (di : PlayerInput) (dt : ℝ) (s : GameState) :
    (demonMove c o di dt s).demon.canTrack = s.demon.canTrack := by
  simp only [demonMove]
  split_ifs <;> rfl

@[simp] theorem demonMove_demon_trackingActiveTime (c : Consts) (o : List Entity) (di : PlayerInput) (dt : ℝ) (s : GameState) :
    (demonMove c o di dt s).demon.trackingActiveTime = s.demon.trackingActiveTime := by
  simp only [demonMove]
  split_ifs <;> rfl

@[simp] theorem demonMove_demon_isRevealed (c : Consts) (o : List Entity) (di : PlayerInput) (dt : ℝ) (s : GameState) :
    (demonMove c o di dt s).demon.isRevealed = s.demon.isRevealed := by
  simp only [demonMove]
  split_ifs <;> rfl

@[simp] theorem demonSkills_hunter (c : Consts) (rng : ℕ → ℝ) (di : PlayerInput) (dt : ℝ) (s : GameState) (i : ℕ) :
    (demonSkills c rng di dt s i).1.hunter = s.hunter := by
  simp only [demonSkills]
  split_ifs <;> rfl

@[simp] theorem demonSkills_isNight (c : Consts) (rng : ℕ → ℝ) (di : PlayerInput) (dt : ℝ) (s : GameState) (i : ℕ) :
    (demonSkills c rng di dt s i).1.isNight = s.isNight := by
  simp only [demonSkills]
  split_ifs <;> rfl

@[simp] theorem demonSkills_nightTimer (c : Consts) (rng : ℕ → ℝ) (di : PlayerInput) (dt : ℝ) (s : GameState) (i : ℕ) :
    (demonSkills c rng di dt s i).1.nightTimer = s.nightTimer := by
  simp only [demonSkills]
  split_ifs <;> rfl

@[simp] theorem demonSkills_trees (c : Consts) (rng : ℕ → ℝ) (di : PlayerInput) (dt : ℝ) (s : GameState) (i : ℕ) :
    (demonSkills c rng di dt s i).1.trees = s.trees := by
  simp only [demonSkills]
  split_ifs <;> rfl

@[simp] theorem demonSkills_cabin (c : Consts) (rng : ℕ → ℝ) (di : PlayerInput) (dt : ℝ) (s : GameState) (i : ℕ) :
    (demonSkills c rng di dt s i).1.cabin = s.cabin := by
  simp only [demonSkills]
  split_ifs <;> rfl

@[simp] theorem demonSkills_bullets (c : Consts) (rng : ℕ → ℝ) (di : PlayerInput) (dt : ℝ) (s : GameState) (i : ℕ) :
    (demonSkills c rng di dt s i).1.bullets = s.bullets := by
  simp only [demonSkills]
  split_ifs <;> rfl

@[simp] theorem demonSkills_deers (c : Consts) (rng : ℕ → ℝ) (di : PlayerInput) (dt : ℝ) (s : GameState) (i : ℕ) :
    (demonSkills c rng di dt s i).1.deers = s.deers := by
  simp only [demonSkills]
  split_ifs <;> rfl

@[simp] theorem demonSkills_demon_pos (c : Consts) (rng : ℕ → ℝ) (di : PlayerInput) (dt : ℝ) (s : GameState) (i : ℕ) :
    (demonSkills c rng di dt s i).1.demon.pos = s.demon.pos := by
  simp only [demonSkills]
  split_ifs <;> rfl

@[simp] theorem demonSkills_demon_size (c : Consts) (rng : ℕ → ℝ) (di : PlayerInput) (dt : ℝ) (s : GameState) (i : ℕ) :
    (demonSkills c rng di dt s i).1.demon.size = s.demon.size := by
  simp only [demonSkills]
  split_ifs <;> rfl

@[simp] theorem demonSkills_demon_stunTimer (c : Consts) (rng : ℕ → ℝ) (di : PlayerInput) (dt : ℝ) (s : GameState) (i : ℕ) :
    (demonSkills c rng di dt s i).1.demon.stunTimer = s.demon.stunTimer := by
  simp only [demonSkills]
  split_ifs <;> rfl

@[simp] theorem deerUpdate_phase (c : Consts) (o : List Entity) (rng : ℕ → ℝ) (dt : ℝ) (s : GameState) (i : ℕ) :
    (deerUpdate c o rng dt s i).1.phase = s.phase := rfl

@[simp] theorem deerUpdate_isNight (c : Consts) (o : List Entity) (rng : ℕ → ℝ) (dt : ℝ) (s : GameState) (i : ℕ) :
    (deerUpdate c o rng dt s i).1.isNight = s.isNight := rfl

@[simp] theorem deerUpdate_nightTimer (c : Consts) (o : List Entity) (rng : ℕ → ℝ) (dt : ℝ) (s : GameState) (i : ℕ) :
    (deerUpdate c o rng dt s i).1.nightTimer = s.nightTimer := rfl

@[simp] theorem deerUpdate_timeOfDay (c : Consts) (o : List Entity) (rng : ℕ → ℝ) (dt : ℝ) (s : GameState) (i : ℕ) :
    (deerUpdate c o rng dt s i).1.timeOfDay = s.timeOfDay := rfl

@[simp] theorem deerUpdate_hunter (c : Consts) (o : List Entity) (rng : ℕ → ℝ) (dt : ℝ) (s : GameState) (i : ℕ) :
    (deerUpdate c o rng dt s i).1.hunter = s.hunter := rfl

@[simp] theorem deerUpdate_demon (c : Consts) (o : List Entity) (rng : ℕ → ℝ) (dt : ℝ) (s : GameState) (i : ℕ) :
    (deerUpdate c o rng dt s i).1.demon = s.demon := rfl

@[simp] theorem deerUpdate_trees (c : Consts) (o : List Entity) (rng : ℕ → ℝ) (dt : ℝ) (s : GameState) (i : ℕ) :
    (deerUpdate c o rng dt s i).1.trees = s.trees := rfl

@[simp] theorem deerUpdate_cabin (c : Consts) (o : List Entity) (rng : ℕ → ℝ) (dt : ℝ) (s : GameState) (i : ℕ) :
    (deerUpdate c o rng dt s i).1.cabin = s.cabin := rfl

@[simp] theorem deerUpdate_mushrooms (c : Consts) (o : List Entity) (rng : ℕ → ℝ) (dt : ℝ) (s : GameState) (i : ℕ) :
    (deerUpdate c o rng dt s i).1.mushrooms = s.mushrooms := rfl

@[simp] theorem deerUpdate_bullets (c : Consts) (o : List Entity) (rng : ℕ → ℝ) (dt : ℝ) (s : GameState) (i : ℕ) :
    (deerUpdate c o rng dt s i).1.bullets = s.bullets := rfl

/-! ## The projectile pass, characterized -/

@[simp] theorem bulletStepOne_demon_pos (c : Consts) (o : List Entity) (ds : List Deer)
    (n : Bool) (rng : ℕ → ℝ) (dt : ℝ) (acc : BulletAcc) (b : Bullet) :
    (bulletStepOne c o ds n rng dt acc b).demon.pos = acc.demon.pos := by
  simp only [bulletStepOne]
  split_ifs <;> try rfl
  all_goals cases h : findDeerHit (bulletNext c dt b) ds <;> simp only [h] <;> rfl

@[simp] theorem bulletStepOne_demon_size (c : Consts) (o : List Entity) (ds : List Deer)
    (n : Bool) (rng : ℕ → ℝ) (dt : ℝ) (acc : BulletAcc) (b : Bullet) :
    (bulletStepOne c o ds n rng dt acc b).demon.size = acc.demon.size := by
  simp only [bulletStepOne]
  split_ifs <;> try rfl
  all_goals cases h : findDeerHit (bulletNext c dt b) ds <;> simp only [h] <;> rfl

@[simp] theorem bulletStepOne_demon_canTrack (c : Consts) (o : List Entity) (ds : List Deer)
    (n : Bool) (rng : ℕ → ℝ) (dt : ℝ) (acc : BulletAcc) (b : Bullet) :
    (bulletStepOne c o ds n rng dt acc b).demon.canTrack = acc.demon.canTrack := by
  simp only [bulletStepOne]
  split_ifs <;> try rfl
  all_goals cases h : findDeerHit (bulletNext c dt b) ds <;> simp only [h] <;> rfl

@[simp] theorem bulletStepOne_demon_trackingActiveTime (c : Consts) (o : List Entity) (ds : List Deer)
    (n : Bool) (rng : ℕ → ℝ) (dt : ℝ) (acc : BulletAcc) (b : Bullet) :
    (bulletStepOne c o ds n rng dt acc b).demon.trackingActiveTime = acc.demon.trackingActiveTime := by
  simp only [bulletStepOne]
  split_ifs <;> try rfl
  all_goals cases h : findDeerHit (bulletNext c dt b) ds <;> simp only [h] <;> rfl

/-- At night the projectile pass never writes the phase. -/
theorem bulletStepOne_phase_night (c : Consts) (o : List Entity) (ds : List Deer)
    (rng : ℕ → ℝ) (dt : ℝ) (acc : BulletAcc) (b : Bullet) :
    (bulletStepOne c o ds true rng dt acc b).phase = acc.phase := by
  simp only [bulletStepOne]
  split_ifs <;> try rfl
  all_goals cases h : findDeerHit (bulletNext c dt b) ds <;> simp only [h] <;> rfl

/-- At night, one bullet's resolution sets the stun timer to
`DEMON_STUN_DURATION` exactly when the bullet reaches the demon, and leaves
it alone otherwise. -/
theorem bulletStepOne_stun_night (c : Consts) (o : List Entity) (ds : List Deer)
    (rng : ℕ → ℝ) (dt : ℝ) (acc : BulletAcc) (b : Bullet) :
    (bulletStepOne c o ds true rng dt acc b).demon.stunTimer
      = if bulletHitsDemon c o dt acc.demon.pos acc.demon.size b then
          c.DEMON_STUN_DURATION
        else acc.demon.stunTimer := by
  simp only [bulletStepOne, bulletHitsDemon, bulletOut]
  split_ifs <;> try rfl
  all_goals try tauto
  all_goals cases h : findDeerHit (bulletNext c dt b) ds <;> simp only [h] <;> try rfl
  all_goals tauto

/-- During day, one bullet's resolution sets the phase to
GAME_OVER_HUNTER_WINS exactly when the bullet reaches the demon. -/
theorem bulletStepOne_phase_day (c : Consts) (o : List Entity) (ds : List Deer)
    (rng : ℕ → ℝ) (dt : ℝ) (acc : BulletAcc) (b : Bullet) :
    (bulletStepOne c o ds false rng dt acc b).phase
      = if bulletHitsDemon c o dt acc.demon.pos acc.demon.size b then
          GamePhase.GAME_OVER_HUNTER_WINS
        else acc.phase := by
  simp only [bulletStepOne, bulletHitsDemon, bulletOut]
  split_ifs <;> try rfl
  all_goals try tauto
  all_goals cases h : findDeerHit (bulletNext c dt b) ds <;> simp only [h] <;> try rfl
  all_goals tauto

/-- During day, one bullet's resolution reveals the demon exactly when the
bullet reaches it. -/
theorem bulletStepOne_isRevealed_day (c : Consts) (o : List Entity) (ds : List Deer)
    (rng : ℕ → ℝ) (dt : ℝ) (acc : BulletAcc) (b : Bullet) :
    (bulletStepOne c o ds false rng dt acc b).demon.isRevealed
      = if bulletHitsDemon c o dt acc.demon.pos acc.demon.size b then true
        else acc.demon.isRevealed := by
  simp only [bulletStepOne, bulletHitsDemon, bulletOut]
  split_ifs <;> try rfl
  all_goals try tauto
  all_goals cases h : findDeerHit (bulletNext c dt b) ds <;> simp only [h] <;> try rfl
  all_goals tauto

/-- One bullet's resolution appends exactly `bulletResolve` of it. -/
theorem bulletStepOne_bullets (c : Consts) (o : List Entity) (ds : List Deer)
    (n : Bool) (rng : ℕ → ℝ) (dt : ℝ) (acc : BulletAcc) (b : Bullet) :
    (bulletStepOne c o ds n rng dt acc b).bullets
      = acc.bullets ++ [bulletResolve c o ds dt acc.demon.pos acc.demon.size b] := by
  simp only [bulletStepOne, bulletResolve, bulletSurvives, bulletOut]
  split_ifs <;> try rfl
  all_goals try tauto
  all_goals cases h : findDeerHit (bulletNext c dt b) ds <;> simp only [h] <;> try rfl
  all_goals simp_all
  all_goals tauto

theorem bulletFold_demon_pos (c : Consts) (o : List Entity) (ds : List Deer)
    (n : Bool) (rng : ℕ → ℝ) (dt : ℝ) :
    ∀ (bs : List Bullet) (acc : BulletAcc),
      (bs.foldl (bulletStepOne c o ds n rng dt) acc).demon.pos = acc.demon.pos
  | [], _ => rfl
  | b :: bs, acc => by
    rw [List.foldl_cons, bulletFold_demon_pos c o ds n rng dt bs, bulletStepOne_demon_pos]

theorem bulletFold_demon_size (c : Consts) (o : List Entity) (ds : List Deer)
    (n : Bool) (rng : ℕ → ℝ) (dt : ℝ) :
    ∀ (bs : List Bullet) (acc : BulletAcc),
      (bs.foldl (bulletStepOne c o ds n rng dt) acc).demon.size = acc.demon.size
  | [], _ => rfl
  | b :: bs, acc => by
    rw [List.foldl_cons, bulletFold_demon_size c o ds n rng dt bs, bulletStepOne_demon_size]

theorem bulletFold_demon_canTrack (c : Consts) (o : List Entity) (ds : List Deer)
    (n : Bool) (rng : ℕ → ℝ) (dt : ℝ) :
    ∀ (bs : List Bullet) (acc : BulletAcc),
      (bs.foldl (bulletStepOne c o ds n rng dt) acc).demon.canTrack = acc.demon.canTrack
  | [], _ => rfl
  | b :: bs, acc => by
    rw [List.foldl_cons, bulletFold_demon_canTrack c o ds n rng dt bs, bulletStepOne_demon_canTrack]

theorem bulletFold_demon_trackingActiveTime (c : Consts) (o : List Entity) (ds : List Deer)
    (n : Bool) (rng : ℕ → ℝ) (dt : ℝ) :
    ∀ (bs : List Bullet) (acc : BulletAcc),
      (bs.foldl (bulletStepOne c o ds n rng dt) acc).demon.trackingActiveTime
        = acc.demon.trackingActiveTime
  | [], _ => rfl
  | b :: bs, acc => by
    rw [List.foldl_cons, bulletFold_demon_trackingActiveTime c o ds n rng dt bs,
      bulletStepOne_demon_trackingActiveTime]

theorem bulletFold_phase_night (c : Consts) (o : List Entity) (ds : List Deer)
    (rng : ℕ → ℝ) (dt : ℝ) :
    ∀ (bs : List Bullet) (acc : BulletAcc),
      (bs.foldl (bulletStepOne c o ds true rng dt) acc).phase = acc.phase
  | [], _ => rfl
  | b :: bs, acc => by
    rw [List.foldl_cons, bulletFold_phase_night c o ds rng dt bs, bulletStepOne_phase_night]

theorem bulletFold_stun_night (c : Consts) (o : List Entity) (ds : List Deer)
    (rng : ℕ → ℝ) (dt : ℝ) (dpos : Vector2) (dsize : ℝ) :
    ∀ (bs : List Bullet) (acc : BulletAcc), acc.demon.pos = dpos → acc.demon.size = dsize →
      (bs.foldl (bulletStepOne c o ds true rng dt) acc).demon.stunTimer
        = if ∃ b ∈ bs, bulletHitsDemon c o dt dpos dsize b then c.DEMON_STUN_DURATION
          else acc.demon.stunTimer
  | [], acc, _, _ => by simp
  | b :: bs, acc, hpos, hsize => by
    rw [List.foldl_cons,
      bulletFold_stun_night c o ds rng dt dpos dsize bs _
        (by rw [bulletStepOne_demon_pos, hpos]) (by rw [bulletStepOne_demon_size, hsize]),
      bulletStepOne_stun_night, hpos, hsize]
    by_cases hb : bulletHitsDemon c o dt dpos dsize b
    · simp [hb]
    · by_cases hbs : ∃ x ∈ bs, bulletHitsDemon c o dt dpos dsize x
      · simp [hb, hbs]
      · simp [hb, hbs]

theorem bulletFold_phase_day (c : Consts) (o : List Entity) (ds : List Deer)
    (rng : ℕ → ℝ) (dt : ℝ) (dpos : Vector2) (dsize : ℝ) :
    ∀ (bs : List Bullet) (acc : BulletAcc), acc.demon.pos = dpos → acc.demon.size = dsize →
      (bs.foldl (bulletStepOne c o ds false rng dt) acc).phase
        = if ∃ b ∈ bs, bulletHitsDemon c o dt dpos dsize b then
            GamePhase.GAME_OVER_HUNTER_WINS
          else acc.phase
  | [], acc, _, _ => by simp
  | b :: bs, acc, hpos, hsize => by
    rw [List.foldl_cons,
      bulletFold_phase_day c o ds rng dt dpos dsize bs _
        (by rw [bulletStepOne_demon_pos, hpos]) (by rw [bulletStepOne_demon_size, hsize]),
      bulletStepOne_phase_day, hpos, hsize]
    by_cases hb : bulletHitsDemon c o dt dpos dsize b
    · simp [hb]
    · by_cases hbs : ∃ x ∈ bs, bulletHitsDemon c o dt dpos dsize x
      · simp [hb, hbs]
      · simp [hb, hbs]

theorem bulletFold_isRevealed_day (c : Consts) (o : List Entity) (ds : List Deer)
    (rng : ℕ → ℝ) (dt : ℝ) (dpos : Vector2) (dsize : ℝ) :
    ∀ (bs : List Bullet) (acc : BulletAcc), acc.demon.pos = dpos → acc.demon.size = dsize →
      (bs.foldl (bulletStepOne c o ds false rng dt) acc).demon.isRevealed
        = if ∃ b ∈ bs, bulletHitsDemon c o dt dpos dsize b then true
          else acc.demon.isRevealed
  | [], acc, _, _ => by simp
  | b :: bs, acc, hpos, hsize => by
    rw [List.foldl_cons,
      bulletFold_isRevealed_day c o ds rng dt dpos dsize bs _
        (by rw [bulletStepOne_demon_pos, hpos]) (by rw [bulletStepOne_demon_size, hsize]),
      bulletStepOne_isRevealed_day, hpos, hsize]
    by_cases hb : bulletHitsDemon c o dt dpos dsize b
    · simp [hb]
    · by_cases hbs : ∃ x ∈ bs, bulletHitsDemon c o dt dpos dsize x
      · simp [hb, hbs]
      · simp [hb, hbs]

theorem bulletFold_bullets (c : Consts) (o : List Entity) (ds : List Deer)
    (n : Bool) (rng : ℕ → ℝ) (dt : ℝ) (dpos : Vector2) (dsize : ℝ) :
    ∀ (bs : List Bullet) (acc : BulletAcc), acc.demon.pos = dpos → acc.demon.size = dsize →
      (bs.foldl (bulletStepOne c o ds n rng dt) acc).bullets
        = acc.bullets ++ bs.map (bulletResolve c o ds dt dpos dsize)
  | [], acc, _, _ => by simp
  | b :: bs, acc, hpos, hsize => by
    rw [List.foldl_cons,
      bulletFold_bullets c o ds n rng dt dpos dsize bs _
        (by rw [bulletStepOne_demon_pos, hpos]) (by rw [bulletStepOne_demon_size, hsize]),
      bulletStepOne_bullets, hpos, hsize, List.map_cons, List.append_assoc]
    rfl

@[simp] theorem bulletUpdate_hunter (c : Consts) (o : List Entity) (rng : ℕ → ℝ)
    (dt : ℝ) (s : GameState) (i : ℕ) :
    (bulletUpdate c o rng dt s i).1.hunter = s.hunter := rfl

@[simp] theorem bulletUpdate_isNight (c : Consts) (o : List Entity) (rng : ℕ → ℝ)
    (dt : ℝ) (s : GameState) (i : ℕ) :
    (bulletUpdate c o rng dt s i).1.isNight = s.isNight := rfl

@[simp] theorem bulletUpdate_nightTimer (c : Consts) (o : List Entity) (rng : ℕ → ℝ)
    (dt : ℝ) (s : GameState) (i : ℕ) :
    (bulletUpdate c o rng dt s i).1.nightTimer = s.nightTimer := rfl

@[simp] theorem bulletUpdate_timeOfDay (c : Consts) (o : List Entity) (rng : ℕ → ℝ)
    (dt : ℝ) (s : GameState) (i : ℕ) :
    (bulletUpdate c o rng dt s i).1.timeOfDay = s.timeOfDay := rfl

@[simp] theorem bulletUpdate_trees (c : Consts) (o : List Entity) (rng : ℕ → ℝ)
    (dt : ℝ) (s : GameState) (i : ℕ) :
    (bulletUpdate c o rng dt s i).1.trees = s.trees := rfl

@[simp] theorem bulletUpdate_cabin (c : Consts) (o : List Entity) (rng : ℕ → ℝ)
    (dt : ℝ) (s : GameState) (i : ℕ) :
    (bulletUpdate c o rng dt s i).1.cabin = s.cabin := rfl

@[simp] theorem bulletUpdate_mushrooms (c : Consts) (o : List Entity) (rng : ℕ → ℝ)
    (dt : ℝ) (s : GameState) (i : ℕ) :
    (bulletUpdate c o rng dt s i).1.mushrooms = s.mushrooms := rfl

@[simp] theorem bulletUpdate_demon_pos (c : Consts) (o : List Entity) (rng : ℕ → ℝ)
    (dt : ℝ) (s : GameState) (i : ℕ) :
    (bulletUpdate c o rng dt s i).1.demon.pos = s.demon.pos := by
  simp only [bulletUpdate]
  rw [bulletFold_demon_pos]

@[simp] theorem bulletUpdate_demon_size (c : Consts) (o : List Entity) (rng : ℕ → ℝ)
    (dt : ℝ) (s : GameState) (i : ℕ) :
    (bulletUpdate c o rng dt s i).1.demon.size = s.demon.size := by
  simp only [bulletUpdate]
  rw [bulletFold_demon_size]

@[simp] theorem bulletUpdate_demon_canTrack (c : Consts) (o : List Entity) (rng : ℕ → ℝ)
    (dt : ℝ) (s : GameState) (i : ℕ) :
    (bulletUpdate c o rng dt s i).1.demon.canTrack = s.demon.canTrack := by
  simp only [bulletUpdate]
  rw [bulletFold_demon_canTrack]

@[simp] theorem bulletUpdate_demon_trackingActiveTime (c : Consts) (o : List Entity)
    (rng : ℕ → ℝ) (dt : ℝ) (s : GameState) (i : ℕ) :
    (bulletUpdate c o rng dt s i).1.demon.trackingActiveTime = s.demon.trackingActiveTime := by
  simp only [bulletUpdate]
  rw [bulletFold_demon_trackingActiveTime]

/-- At night the whole projectile pass preserves the phase: a night bullet hit
stuns but never ends the match by itself. -/
theorem bulletUpdate_phase_night (c : Consts) (o : List Entity) (rng : ℕ → ℝ)
    (dt : ℝ) (s : GameState) (i : ℕ) (hn : s.isNight = true) :
    (bulletUpdate c o rng dt s i).1.phase = s.phase := by
  simp only [bulletUpdate, hn]
  rw [bulletFold_phase_night]

/-- At night the projectile pass sets the stun timer to `DEMON_STUN_DURATION`
exactly when some bullet reaches the demon. -/
theorem bulletUpdate_stun_night (c : Consts) (o : List Entity) (rng : ℕ → ℝ)
    (dt : ℝ) (s : GameState) (i : ℕ) (hn : s.isNight = true) :
    (bulletUpdate c o rng dt s i).1.demon.stunTimer
      = if ∃ b ∈ s.bullets, bulletHitsDemon c o dt s.demon.pos s.demon.size b then
          c.DEMON_STUN_DURATION
        else s.demon.stunTimer := by
  simp only [bulletUpdate, hn]
  rw [bulletFold_stun_night c o s.deers rng dt s.demon.pos s.demon.size s.bullets _ rfl rfl]

/-- During day the projectile pass ends the match in a hunter victory exactly
when some bullet reaches the demon. -/
theorem bulletUpdate_phase_day (c : Consts) (o : List Entity) (rng : ℕ → ℝ)
    (dt : ℝ) (s : GameState) (i : ℕ) (hn : s.isNight = false) :
    (bulletUpdate c o rng dt s i).1.phase
      = if ∃ b ∈ s.bullets, bulletHitsDemon c o dt s.demon.pos s.demon.size b then
          GamePhase.GAME_OVER_HUNTER_WINS
        else s.phase := by
  simp only [bulletUpdate, hn]
  rw [bulletFold_phase_day c o s.deers rng dt s.demon.pos s.demon.size s.bullets _ rfl rfl]

/-- During day the projectile pass reveals the demon exactly when some bullet
reaches it. -/
theorem bulletUpdate_isRevealed_day (c : Consts) (o : List Entity) (rng : ℕ → ℝ)
    (dt : ℝ) (s : GameState) (i : ℕ) (hn : s.isNight = false) :
    (bulletUpdate c o rng dt s i).1.demon.isRevealed
      = if ∃ b ∈ s.bullets, bulletHitsDemon c o dt s.demon.pos s.demon.size b then true
        else s.demon.isRevealed := by
  simp only [bulletUpdate, hn]
  rw [bulletFold_isRevealed_day c o s.deers rng dt s.demon.pos s.demon.size s.bullets _ rfl rfl]

/-- The surviving projectile list: every bullet resolved by `bulletResolve`,
then filtered for the still-active ones. -/
theorem bulletUpdate_bullets (c : Consts) (o : List Entity) (rng : ℕ → ℝ)
    (dt : ℝ) (s : GameState) (i : ℕ) :
    (bulletUpdate c o rng dt s i).1.bullets
      = ((s.bullets.map (bulletResolve c o s.deers dt s.demon.pos s.demon.size)).filter
          (fun b => b.active)) := by
  simp only [bulletUpdate]
  rw [bulletFold_bullets c o s.deers s.isNight rng dt s.demon.pos s.demon.size s.bullets _ rfl rfl]
  rfl

/-! ## Demon skills / attack / eating, characterized -/

/-- Night contact kill: with the hunter unsheltered, the demon unstunned and
the pair within contact distance, the skills section ends the match in a
demon victory. -/
theorem demonSkills_kill (c : Consts) (rng : ℕ → ℝ) (di : PlayerInput) (dt : ℝ)
    (s : GameState) (i : ℕ) (hn : s.isNight = true)
    (hc : s.hunter.inCabin = false) (hs : s.demon.stunTimer ≤ 0)
    (hd : distance s.demon.pos s.hunter.pos < s.demon.size + s.hunter.size) :
    (demonSkills c rng di dt s i).1.phase = GamePhase.GAME_OVER_DEMON_WINS := by
  simp only [demonSkills, hn]
  split_ifs <;> first | rfl | simp_all

/-- Conversely, when any of the three contact-kill conditions fails, the
skills section leaves the phase alone (at night). -/
theorem demonSkills_no_kill (c : Consts) (rng : ℕ → ℝ) (di : PlayerInput) (dt : ℝ)
    (s : GameState) (i : ℕ) (hn : s.isNight = true)
    (h : ¬ (s.hunter.inCabin = false ∧ s.demon.stunTimer ≤ 0 ∧
        distance s.demon.pos s.hunter.pos < s.demon.size + s.hunter.size)) :
    (demonSkills c rng di dt s i).1.phase = s.phase := by
  simp only [demonSkills, hn]
  split_ifs <;> first | rfl | simp_all

/-- The day branch of the skills section never writes the phase. -/
theorem demonSkills_phase_day (c : Consts) (rng : ℕ → ℝ) (di : PlayerInput) (dt : ℝ)
    (s : GameState) (i : ℕ) (hn : s.isNight = false) :
    (demonSkills c rng di dt s i).1.phase = s.phase := by
  simp only [demonSkills, hn, Bool.false_eq_true, if_false]
  split_ifs <;> rfl

/-- The one-shot tracking charge after the skills section: consumed exactly
when the action is requested with the charge available and more than half a
second of night elapsed. -/
theorem demonSkills_canTrack_night (c : Consts) (rng : ℕ → ℝ) (di : PlayerInput) (dt : ℝ)
    (s : GameState) (i : ℕ) (hn : s.isNight = true) :
    (demonSkills c rng di dt s i).1.demon.canTrack
      = if di.action = true ∧ s.demon.canTrack = true ∧ s.nightTimer > (0.5 : ℝ) then false
        else s.demon.canTrack := by
  simp only [demonSkills, hn, eq_self_iff_true, if_true]
  split_ifs <;> first | rfl | simp_all

/-- The tracking-active window after the skills section: opened to
`DEMON_TRACKING_DURATION` exactly on a successful activation, otherwise the
already-open window decays by `dt`. -/
theorem demonSkills_trackingActiveTime_night (c : Consts) (rng : ℕ → ℝ)
    (di : PlayerInput) (dt : ℝ) (s : GameState) (i : ℕ) (hn : s.isNight = true) :
    (demonSkills c rng di dt s i).1.demon.trackingActiveTime
      = if di.action = true ∧ s.demon.canTrack = true ∧ s.nightTimer > (0.5 : ℝ) then
          c.DEMON_TRACKING_DURATION
        else if s.demon.trackingActiveTime > 0 then s.demon.trackingActiveTime - dt
        else s.demon.trackingActiveTime := by
  simp only [demonSkills, hn]
  split_ifs <;> first | rfl | simp_all

/-- In the first half-second of a night the skills section ignores the input
entirely: the result is the same for any two inputs. -/
theorem demonSkills_input_independent (c : Consts) (rng : ℕ → ℝ) (di di' : PlayerInput)
    (dt : ℝ) (s : GameState) (i : ℕ) (hn : s.isNight = true)
    (hnt : s.nightTimer ≤ (0.5 : ℝ)) :
    demonSkills c rng di dt s i = demonSkills c rng di' dt s i := by
  simp only [demonSkills, hn]
  split_ifs <;> try rfl
  all_goals simp_all
  all_goals linarith

/-- With no action requested during day, the skills section is the
identity. -/
theorem demonSkills_day_noaction (c : Consts) (rng : ℕ → ℝ) (di : PlayerInput) (dt : ℝ)
    (s : GameState) (i : ℕ) (hn : s.isNight = false) (ha : di.action = false) :
    demonSkills c rng di dt s i = (s, i) := by
  simp only [demonSkills, hn, ha]
  split_ifs <;> simp_all

/-! ## The eat filter, characterized -/

theorem eatFilter_of_none (dpos : Vector2) :
    ∀ ms : List Entity, (∀ m ∈ ms, ¬ distance dpos m.pos < 20) → eatFilter dpos ms = ms
  | [], _ => rfl
  | m :: rest, h => by
    rw [eatFilter, if_neg (h m (List.mem_cons_self m rest)),
      eatFilter_of_none dpos rest (fun x hx => h x (List.mem_cons_of_mem m hx))]

/-- When some mushroom is in range, the filter removes exactly the first
in-range mushroom in list order and keeps everything else. -/
theorem eatFilter_decomp (dpos : Vector2) :
    ∀ ms : List Entity, (∃ m ∈ ms, distance dpos m.pos < 20) →
      ∃ pre mid post, ms = pre ++ mid :: post ∧
        (∀ m ∈ pre, ¬ distance dpos m.pos < 20) ∧
        distance dpos mid.pos < 20 ∧
        eatFilter dpos ms = pre ++ post
  | [], h => absurd h (by simp)
  | m :: rest, h => by
    by_cases hm : distance dpos m.pos < 20
    · exact ⟨[], m, rest, rfl, by simp, hm, by rw [eatFilter, if_pos hm]; rfl⟩
    · have hrest : ∃ x ∈ rest, distance dpos x.pos < 20 := by
        rcases h with ⟨x, hx, hdx⟩
        rcases List.mem_cons.mp hx with rfl | hx'
        · exact absurd hdx hm
        · exact ⟨x, hx', hdx⟩
      rcases eatFilter_decomp dpos rest hrest with ⟨pre, mid, post, hsplit, hpre, hmid, hfil⟩
      refine ⟨m :: pre, mid, post, by rw [hsplit]; rfl, ?_, hmid, ?_⟩
      · intro x hx
        rcases List.mem_cons.mp hx with rfl | hx'
        · exact hm
        · exact hpre x hx'
      · rw [eatFilter, if_neg hm, hfil]
        rfl

/-- The filter never grows the list, and shrinks it by exactly one when a
mushroom is in range. -/
theorem eatFilter_length (dpos : Vector2) (ms : List Entity)
    (h : ∃ m ∈ ms, distance dpos m.pos < 20) :
    (eatFilter dpos ms).length + 1 = ms.length := by
  rcases eatFilter_decomp dpos ms h with ⟨pre, mid, post, hsplit, -, -, hfil⟩
  rw [hfil, hsplit]
  simp
  omega

/-- Day eating with a mushroom in range: the first in-range mushroom is
removed and the eat bonus lands on `timeOfDay`, clamped at 1.0. -/
theorem demonSkills_day_eat (c : Consts) (rng : ℕ → ℝ) (di : PlayerInput) (dt : ℝ)
    (s : GameState) (i : ℕ) (hn : s.isNight = false) (ha : di.action = true)
    (hx : ∃ m ∈ s.mushrooms, distance s.demon.pos m.pos < 20) :
    (demonSkills c rng di dt s i).1.mushrooms = eatFilter s.demon.pos s.mushrooms ∧
      (demonSkills c rng di dt s i).1.timeOfDay
        = min 1.0 (s.timeOfDay + c.DEMON_EAT_BONUS) := by
  have hlen : (eatFilter s.demon.pos s.mushrooms).length < s.mushrooms.length := by
    have := eatFilter_length s.demon.pos s.mushrooms hx
    omega
  simp only [demonSkills, hn, ha]
  split_ifs <;> simp_all

/-- Day eating with no mushroom in range: the pickup list and `timeOfDay`
are untouched. -/
theorem demonSkills_day_eat_none (c : Consts) (rng : ℕ → ℝ) (di : PlayerInput) (dt : ℝ)
    (s : GameState) (i : ℕ) (hn : s.isNight = false) (ha : di.action = true)
    (hx : ¬ ∃ m ∈ s.mushrooms, distance s.demon.pos m.pos < 20) :
    (demonSkills c rng di dt s i).1.mushrooms = s.mushrooms ∧
      (demonSkills c rng di dt s i).1.timeOfDay = s.timeOfDay := by
  have heq : eatFilter s.demon.pos s.mushrooms = s.mushrooms := by
    apply eatFilter_of_none
    intro m hm hd
    exact hx ⟨m, hm, hd⟩
  simp only [demonSkills, hn, ha]
  split_ifs <;> simp_all

/-! ## Movement, characterized -/

/-- The hunter's movement step never moves into a blocked position: every
candidate it adopts has just passed the `checkCollision` guard. -/
theorem hunterMove_no_collision (c : Consts) (o : List Entity) (hi : PlayerInput)
    (dt : ℝ) (s : GameState)
    (h : ¬ checkCollision c s.hunter.pos s.hunter.size o false) :
    ¬ checkCollision c (hunterMove c o hi dt s).hunter.pos s.hunter.size o false := by
  simp only [hunterMove]
  split_ifs <;> simpa

/-- Wall sliding, x axis: when the full diagonal displacement is blocked but
the x-only displacement is free, the hunter moves along x. -/
theorem hunterMove_slide_x (c : Consts) (o : List Entity) (hi : PlayerInput)
    (dt : ℝ) (s : GameState) (hc : s.hunter.inCabin = false)
    (hm : (inputVec hi).x ≠ 0 ∨ (inputVec hi).y ≠ 0)
    (hfull : checkCollision c
      (add s.hunter.pos (scale (normalize (inputVec hi)) (c.MOVE_SPEED_HUNTER * dt * c.FPS)))
      s.hunter.size o false)
    (hx : ¬ checkCollision c
      ⟨(add s.hunter.pos (scale (normalize (inputVec hi)) (c.MOVE_SPEED_HUNTER * dt * c.FPS))).x,
        s.hunter.pos.y⟩ s.hunter.size o false) :
    (hunterMove c o hi dt s).hunter.pos
      = ⟨(add s.hunter.pos (scale (normalize (inputVec hi)) (c.MOVE_SPEED_HUNTER * dt * c.FPS))).x,
          s.hunter.pos.y⟩ := by
  simp only [hunterMove, hc]
  rw [if_neg (by simp), if_pos hm, if_neg (not_not.mpr hfull), if_pos hx]

/-- Wall sliding, y axis: when both the full displacement and the x-only
displacement are blocked but the y-only displacement is free, the hunter
moves along y. -/
theorem hunterMove_slide_y (c : Consts) (o : List Entity) (hi : PlayerInput)
    (dt : ℝ) (s : GameState) (hc : s.hunter.inCabin = false)
    (hm : (inputVec hi).x ≠ 0 ∨ (inputVec hi).y ≠ 0)
    (hfull : checkCollision c
      (add s.hunter.pos (scale (normalize (inputVec hi)) (c.MOVE_SPEED_HUNTER * dt * c.FPS)))
      s.hunter.size o false)
    (hx : checkCollision c
      ⟨(add s.hunter.pos (scale (normalize (inputVec hi)) (c.MOVE_SPEED_HUNTER * dt * c.FPS))).x,
        s.hunter.pos.y⟩ s.hunter.size o false)
    (hy : ¬ checkCollision c
      ⟨s.hunter.pos.x,
        (add s.hunter.pos (scale (normalize (inputVec hi)) (c.MOVE_SPEED_HUNTER * dt * c.FPS))).y⟩
      s.hunter.size o false) :
    (hunterMove c o hi dt s).hunter.pos
      = ⟨s.hunter.pos.x,
          (add s.hunter.pos (scale (normalize (inputVec hi)) (c.MOVE_SPEED_HUNTER * dt * c.FPS))).y⟩ := by
  simp only [hunterMove, hc]
  rw [if_neg (by simp), if_pos hm, if_neg (not_not.mpr hfull), if_neg (not_not.mpr hx), if_pos hy]

/-- The demon's movement step never moves into a blocked position. -/
theorem demonMove_no_collision (c : Consts) (o : List Entity) (di : PlayerInput)
    (dt : ℝ) (s : GameState)
    (h : ¬ checkCollision c s.demon.pos s.demon.size o false) :
    ¬ checkCollision c (demonMove c o di dt s).demon.pos s.demon.size o false := by
  simp only [demonMove]
  split_ifs <;> simpa

/-- A stunned demon only sees its stun timer decay; position, facing and
every other field are untouched. -/
theorem demonMove_stunned (c : Consts) (o : List Entity) (di : PlayerInput)
    (dt : ℝ) (s : GameState) (hs : s.demon.stunTimer > 0) :
    demonMove c o di dt s
      = { s with demon := { s.demon with stunTimer := s.demon.stunTimer - dt } } := by
  simp only [demonMove]
  rw [if_pos hs]

/-- Wall sliding for the demon, x axis. -/
theorem demonMove_slide_x (c : Consts) (o : List Entity) (di : PlayerInput)
    (dt : ℝ) (s : GameState) (hs : ¬ s.demon.stunTimer > 0)
    (hm : (inputVec di).x ≠ 0 ∨ (inputVec di).y ≠ 0)
    (hfull : checkCollision c
      (add s.demon.pos (scale (normalize (inputVec di))
        ((if s.isNight then c.MOVE_SPEED_DEMON * 1.3 else c.MOVE_SPEED_DEER) * dt * c.FPS)))
      s.demon.size o false)
    (hx : ¬ checkCollision c
      ⟨(add s.demon.pos (scale (normalize (inputVec di))
          ((if s.isNight then c.MOVE_SPEED_DEMON * 1.3 else c.MOVE_SPEED_DEER) * dt * c.FPS))).x,
        s.demon.pos.y⟩ s.demon.size o false) :
    (demonMove c o di dt s).demon.pos
      = ⟨(add s.demon.pos (scale (normalize (inputVec di))
            ((if s.isNight then c.MOVE_SPEED_DEMON * 1.3 else c.MOVE_SPEED_DEER) * dt * c.FPS))).x,
          s.demon.pos.y⟩ := by
  simp only [demonMove]
  rw [if_neg hs, if_pos hm, if_neg (not_not.mpr hfull), if_pos hx]

/-- Wall sliding for the demon, y axis. -/
theorem demonMove_slide_y (c : Consts) (o : List Entity) (di : PlayerInput)
    (dt : ℝ) (s : GameState) (hs : ¬ s.demon.stunTimer > 0)
    (hm : (inputVec di).x ≠ 0 ∨ (inputVec di).y ≠ 0)
    (hfull : checkCollision c
      (add s.demon.pos (scale (normalize (inputVec di))
        ((if s.isNight then c.MOVE_SPEED_DEMON * 1.3 else c.MOVE_SPEED_DEER) * dt * c.FPS)))
      s.demon.size o false)
    (hx : checkCollision c
      ⟨(add s.demon.pos (scale (normalize (inputVec di))
          ((if s.isNight then c.MOVE_SPEED_DEMON * 1.3 else c.MOVE_SPEED_DEER) * dt * c.FPS))).x,
        s.demon.pos.y⟩ s.demon.size o false)
    (hy : ¬ checkCollision c
      ⟨s.demon.pos.x,
        (add s.demon.pos (scale (normalize (inputVec di))
          ((if s.isNight then c.MOVE_SPEED_DEMON * 1.3 else c.MOVE_SPEED_DEER) * dt * c.FPS))).y⟩
      s.demon.size o false) :
    (demonMove c o di dt s).demon.pos
      = ⟨s.demon.pos.x,
          (add s.demon.pos (scale (normalize (inputVec di))
            ((if s.isNight then c.MOVE_SPEED_DEMON * 1.3 else c.MOVE_SPEED_DEER) * dt * c.FPS))).y⟩ := by
  simp only [demonMove]
  rw [if_neg hs, if_pos hm, if_neg (not_not.mpr hfull), if_neg (not_not.mpr hx), if_pos hy]

/-! ## The day/night boundary, characterized -/

/-- Crossing dusk: when `timeOfDay` reaches 1.0 within the tick, the
"Time & Phase" section flips to night, resets the night timer, kicks the
hunter out of the cabin, reveals the demon and arms the tracking charge — and
stores the overshooting `timeOfDay` value without clamping it. -/
theorem timePhase_dusk (c : Consts) (rng : ℕ → ℝ) (now : ℕ) (o : List Entity)
    (dt : ℝ) (s : GameState) (i : ℕ) (hn : s.isNight = false)
    (hge : s.timeOfDay + dt / c.DAY_DURATION_SECONDS ≥ 1) :
    (timePhase c rng now o dt s i).1
      = { s with
          timeOfDay := s.timeOfDay + dt / c.DAY_DURATION_SECONDS
          isNight := true
          nightTimer := 0
          hunter := { s.hunter with inCabin := false }
          messages := (addMessage rng i s.messages "夜幕降临...").1
          demon := { s.demon with isRevealed := true, canTrack := true } } := by
  simp only [timePhase, hn, Bool.false_eq_true, if_false]
  rw [if_pos (by rw [show (1.0 : ℝ) = 1 from by norm_num]; exact hge)]

/-- Crossing dawn: when `nightTimer` reaches the night duration within the
tick, the "Time & Phase" section flips back to day with both counters reset,
evicts the hunter, clears `isRevealed` and `canTrack`, and replaces the
mushroom and deer lists by the respawn loops' output.  Note which demon
fields are *not* touched: `stunTimer` and `trackingActiveTime` survive into
the day. -/
theorem timePhase_dawn (c : Consts) (rng : ℕ → ℝ) (now : ℕ) (o : List Entity)
    (dt : ℝ) (s : GameState) (i : ℕ) (hn : s.isNight = true)
    (hge : s.nightTimer + dt ≥ c.NIGHT_DURATION_SECONDS) :
    (timePhase c rng now o dt s i).1
      = { s with
          isNight := false
          nightTimer := 0
          timeOfDay := 0
          hunter := { s.hunter with inCabin := false }
          demon := { s.demon with isRevealed := false, canTrack := false }
          messages := (addMessage rng i s.messages "黎明到来，新的一天...").1
          mushrooms := (mushLoop c o rng now 50 s.mushrooms
            (addMessage rng i s.messages "黎明到来，新的一天...").2).1
          deers := (deerLoop c o rng now 50 s.deers
            (mushLoop c o rng now 50 s.mushrooms
              (addMessage rng i s.messages "黎明到来，新的一天...").2).2).1 } := by
  simp only [timePhase, hn, eq_self_iff_true, if_true]
  rw [if_pos hge]

/-! ## The respawn loops, characterized -/

/-- Every mushroom the dawn respawn loop adds is appended after the existing
ones, sits at a collision-free spot (bushes included in the check), and the
loop never grows the list beyond the fixed count 10. -/
theorem mushLoop_spec (c : Consts) (o : List Entity) (rng : ℕ → ℝ) (now : ℕ) :
    ∀ (fuel : ℕ) (ms : List Entity) (i : ℕ),
      (ms <+: (mushLoop c o rng now fuel ms i).1) ∧
        (∀ m ∈ (mushLoop c o rng now fuel ms i).1, m ∈ ms ∨ ¬ checkCollision c m.pos 10 o true) ∧
        (mushLoop c o rng now fuel ms i).1.length ≤ max ms.length 10
  | 0, ms, i => by
    simp only [mushLoop]
    exact ⟨List.prefix_refl ms, fun m hm => Or.inl hm, by simp⟩
  | fuel + 1, ms, i => by
    simp only [mushLoop]
    split_ifs with hlen hval
    · rcases mushLoop_spec c o rng now fuel
        (ms ++ [⟨"mush-respawn-" ++ toString now ++ "-" ++ toString ms.length,
                 EntityType.MUSHROOM, ⟨rng i * c.MAP_SIZE, rng (i + 1) * c.MAP_SIZE⟩, 8, 0⟩])
        (i + 2) with ⟨hpre, hmem, hbound⟩
      refine ⟨(List.prefix_append ms _).trans hpre, ?_, ?_⟩
      · intro m hm
        rcases hmem m hm with hm1 | hm2
        · rcases List.mem_append.mp hm1 with hm3 | hm4
          · exact Or.inl hm3
          · rcases List.mem_singleton.mp hm4 with rfl
            exact Or.inr hval.1
        · exact Or.inr hm2
      · refine le_trans hbound ?_
        rw [List.length_append, List.length_singleton]
        omega
    · exact mushLoop_spec c o rng now fuel ms (i + 2)
    · exact ⟨List.prefix_refl ms, fun m hm => Or.inl hm, by simp⟩

/-- The minimum-spacing invariant of the mushroom respawn loop, for any
relation `R` that holds of every pair at distance at least 50: the loop
preserves pairwise-`R`, because each accepted position is checked against
every mushroom already in the list. -/
theorem mushLoop_pairwise (c : Consts) (o : List Entity) (rng : ℕ → ℝ) (now : ℕ)
    (R : Entity → Entity → Prop)
    (hR : ∀ a b : Entity, ¬ distance a.pos b.pos < 50 → R a b) :
    ∀ (fuel : ℕ) (ms : List Entity) (i : ℕ),
      ms.Pairwise R → ((mushLoop c o rng now fuel ms i).1).Pairwise R
  | 0, ms, i, h => h
  | fuel + 1, ms, i, h => by
    simp only [mushLoop]
    split_ifs with hlen hval
    · apply mushLoop_pairwise c o rng now R hR fuel _ (i + 2)
      rw [List.pairwise_append]
      refine ⟨h, List.pairwise_singleton R _, ?_⟩
      intro a ha b hb
      rcases List.mem_singleton.mp hb with rfl
      apply hR
      intro hclose
      exact hval.2 ⟨a, ha, hclose⟩
    · exact mushLoop_pairwise c o rng now R hR fuel ms (i + 2) h
    · exact h

/-- Every deer the dawn respawn loop adds is appended after the existing
ones at a collision-free spot, and the loop never grows the herd beyond the
fixed count 25.  (Unlike the mushroom loop, no spacing check is made.) -/
theorem deerLoop_spec (c : Consts) (o : List Entity) (rng : ℕ → ℝ) (now : ℕ) :
    ∀ (fuel : ℕ) (ds : List Deer) (i : ℕ),
      (ds <+: (deerLoop c o rng now fuel ds i).1) ∧
        (∀ d ∈ (deerLoop c o rng now fuel ds i).1, d ∈ ds ∨ ¬ checkCollision c d.pos 15 o false) ∧
        (deerLoop c o rng now fuel ds i).1.length ≤ max ds.length 25
  | 0, ds, i => by
    simp only [deerLoop]
    exact ⟨List.prefix_refl ds, fun d hd => Or.inl hd, by simp⟩
  | fuel + 1, ds, i => by
    simp only [deerLoop]
    split_ifs with hlen hval
    · exact deerLoop_spec c o rng now fuel ds (i + 2)
    · rcases deerLoop_spec c o rng now fuel
        (ds ++ [⟨"deer-respawn-" ++ toString now ++ "-" ++ toString ds.length,
                 ⟨rng i * c.MAP_SIZE, rng (i + 1) * c.MAP_SIZE⟩, 12,
                 ((Int.floor (rng (i + 2) * 8) : ℤ) : ℝ) * (Real.pi / 4),
                 ⟨decide (rng (i + 3) > 0.5), 60⟩⟩])
        (i + 4) with ⟨hpre, hmem, hbound⟩
      refine ⟨(List.prefix_append ds _).trans hpre, ?_, ?_⟩
      · intro d hd
        rcases hmem d hd with hd1 | hd2
        · rcases List.mem_append.mp hd1 with hd3 | hd4
          · exact Or.inl hd3
          · rcases List.mem_singleton.mp hd4 with rfl
            exact Or.inr hval
        · exact Or.inr hd2
      · refine le_trans hbound ?_
        rw [List.length_append, List.length_singleton]
        omega
    · exact ⟨List.prefix_refl ds, fun d hd => Or.inl hd, by simp⟩

/-! ## The raymarch loop, characterized -/

/-- The fuel-indexed raymarch loop, as a quantifier: starting from
`currentDist = cd` with enough fuel to reach the break, the loop succeeds
exactly when no sample it visits (`cd + 10·j` for `j = 1, 2, …` strictly
before `distTotal`) is blocked. -/
theorem losAux_iff (c : Consts) (o : List Entity) (p1 dirV : Vector2) (distTotal : ℝ) :
    ∀ (fuel : ℕ) (cd : ℝ), distTotal ≤ cd + 10 * fuel + 10 →
      (losAux c o p1 dirV distTotal fuel cd ↔
        ∀ j : ℕ, 1 ≤ j → (j : ℝ) ≤ (fuel : ℝ) → cd + 10 * j < distTotal →
          ¬ losBlockedAt c o (losSample p1 dirV (cd + 10 * j)))
  | 0, cd, _ => by
    simp only [losAux]
    constructor
    · intro _ j hj1 hj0 _
      exfalso
      have h1 : (1 : ℝ) ≤ (j : ℝ) := by exact_mod_cast hj1
      norm_num at hj0
      omega
    · intro _
      trivial
  | fuel + 1, cd, hfa => by
    simp only [losAux]
    by_cases hbrk : cd + 10 ≥ distTotal
    · rw [if_pos hbrk]
      constructor
      · intro _ j hj1 _ hjlt
        exfalso
        have h1 : (1 : ℝ) ≤ (j : ℝ) := by exact_mod_cast hj1
        nlinarith
      · intro _
        trivial
    · rw [if_neg hbrk]
      by_cases hblk : losBlockedAt c o (losSample p1 dirV (cd + 10))
      · rw [if_pos hblk]
        simp only [false_iff]
        intro h
        refine absurd ?_ (h 1 le_rfl (by push_cast; linarith) (by push_cast; linarith))
        simpa using hblk
      · rw [if_neg hblk]
        rw [losAux_iff c o p1 dirV distTotal fuel (cd + 10) (by push_cast at hfa ⊢; linarith)]
        constructor
        · intro h j hj1 hjf hjlt
          by_cases hj2 : j = 1
          · subst hj2
            simpa using hblk
          · have hj1' : 1 ≤ j - 1 := by omega
            have hcast : ((j - 1 : ℕ) : ℝ) = (j : ℝ) - 1 := by
              push_cast [Nat.cast_sub hj1]
              ring
            have harg : (cd + 10) + 10 * ((j - 1 : ℕ) : ℝ) = cd + 10 * j := by
              rw [hcast]; ring
            have := h (j - 1) hj1'
              (by rw [hcast]; push_cast at hjf ⊢; linarith)
              (by rw [harg]; exact hjlt)
            rwa [harg] at this
        · intro h j hj1 hjf hjlt
          have harg : cd + 10 * ((j + 1 : ℕ) : ℝ) = (cd + 10) + 10 * j := by
            push_cast; ring
          have := h (j + 1) (by omega)
            (by push_cast at hjf ⊢; linarith)
            (by rw [harg]; exact hjlt)
          rwa [harg] at this

/-- `hasLineOfSight` fails exactly when some raymarch sample — `p1` plus the
unit direction towards `p2` scaled by `10·j`, for some `j ≥ 1` with
`10·j` strictly short of the distance — lies strictly inside some listed
entity's footprint. -/
theorem hasLineOfSight_not_iff (c : Consts) (p1 p2 : Vector2) (o : List Entity) :
    ¬ hasLineOfSight c p1 p2 o ↔
      ∃ j : ℕ, 1 ≤ j ∧ 10 * (j : ℝ) < distance p1 p2 ∧
        losBlockedAt c o
          (losSample p1
            ⟨(p2.x - p1.x) / distance p1 p2, (p2.y - p1.y) / distance p1 p2⟩
            (10 * j)) := by
  have hd0 : 0 ≤ distance p1 p2 := distance_nonneg p1 p2
  have hfa : distance p1 p2 ≤ 0 + 10 * (Nat.ceil (distance p1 p2 / 10) : ℝ) + 10 := by
    have := Nat.le_ceil (distance p1 p2 / 10)
    nlinarith [this]
  have hiff := losAux_iff c o p1
    ⟨(p2.x - p1.x) / distance p1 p2, (p2.y - p1.y) / distance p1 p2⟩
    (distance p1 p2) (Nat.ceil (distance p1 p2 / 10)) 0 hfa
  rw [show hasLineOfSight c p1 p2 o
      = losAux c o p1
          ⟨(p2.x - p1.x) / distance p1 p2, (p2.y - p1.y) / distance p1 p2⟩
          (distance p1 p2) (Nat.ceil (distance p1 p2 / 10)) 0 from rfl, hiff]
  rw [not_forall]
  constructor
  · rintro ⟨j, hj⟩
    rcases Classical.not_imp.mp hj with ⟨hj1, hj'⟩
    rcases Classical.not_imp.mp hj' with ⟨hjf, hj''⟩
    rcases Classical.not_imp.mp hj'' with ⟨hjlt, hblk⟩
    refine ⟨j, hj1, by linarith [hjlt], ?_⟩
    have : (0 : ℝ) + 10 * j = 10 * j := by ring
    rw [← this]
    exact not_not.mp hblk
  · rintro ⟨j, hj1, hjlt, hblk⟩
    refine ⟨j, ?_⟩
    rw [Classical.not_imp]
    refine ⟨hj1, ?_⟩
    rw [Classical.not_imp]
    constructor
    · have h10 : 10 * (j : ℝ) < 10 * (Nat.ceil (distance p1 p2 / 10) : ℝ) + 10 := by
        calc 10 * (j : ℝ) < distance p1 p2 := hjlt
        _ ≤ 0 + 10 * (Nat.ceil (distance p1 p2 / 10) : ℝ) + 10 := hfa
        _ = 10 * (Nat.ceil (distance p1 p2 / 10) : ℝ) + 10 := by ring
      have hjr : (j : ℝ) < (Nat.ceil (distance p1 p2 / 10) : ℝ) + 1 := by linarith
      have hj' : j < Nat.ceil (distance p1 p2 / 10) + 1 := by exact_mod_cast hjr
      have : j ≤ Nat.ceil (distance p1 p2 / 10) := by omega
      exact_mod_cast this
    · rw [Classical.not_imp]
      refine ⟨by linarith, ?_⟩
      rw [not_not]
      have : (0 : ℝ) + 10 * j = 10 * j := by ring
      rw [this]
      exact hblk

/-! ## Small no-op lemmas used to evaluate concrete scenarios -/

theorem updateGame_run (c : Consts) (rng : ℕ → ℝ) (now : ℕ) (s : GameState)
    (hi di : PlayerInput) (dt : ℝ)
    (h : ¬ (s.phase = GamePhase.GAME_OVER_HUNTER_WINS ∨
        s.phase = GamePhase.GAME_OVER_DEMON_WINS)) :
    updateGame c rng now s hi di dt
      = (bulletUpdate c (obstaclesOf s) rng dt (tick7 c rng now hi di dt s).1
          (tick7 c rng now hi di dt s).2).1 := by
  simp only [updateGame]
  rw [if_neg h]

theorem inputVec_noInput : inputVec noInput = ⟨0, 0⟩ := by
  simp [inputVec, noInput]

theorem inputVec_fireInput : inputVec fireInput = ⟨0, 0⟩ := by
  simp [inputVec, fireInput]

theorem inputVec_dirDR : inputVec dirDR = ⟨1, 1⟩ := by
  simp [inputVec, dirDR]

/-- With a zero move vector the hunter's movement block does nothing. -/
theorem hunterMove_still (c : Consts) (o : List Entity) (hi : PlayerInput)
    (dt : ℝ) (s : GameState) (hm : inputVec hi = ⟨0, 0⟩) :
    hunterMove c o hi dt s = s := by
  simp only [hunterMove, hm]
  split_ifs with h1 h2 <;> first | rfl | simp_all

/-- With a zero move vector and no stun the demon's movement block does
nothing. -/
theorem demonMove_still (c : Consts) (o : List Entity) (di : PlayerInput)
    (dt : ℝ) (s : GameState) (hs : ¬ s.demon.stunTimer > 0)
    (hm : inputVec di = ⟨0, 0⟩) :
    demonMove c o di dt s = s := by
  simp only [demonMove, hm]
  split_ifs with h1 h2 <;> first | rfl | simp_all

/-- Away from the cabin-entry situation, only the entry timer drains. -/
theorem cabinEntry_else (c : Consts) (rng : ℕ → ℝ) (dt : ℝ) (s : GameState) (i : ℕ)
    (h : ¬ (s.isNight = true ∧ distance s.hunter.pos s.cabin.pos < s.cabin.size + 40 ∧
        s.hunter.inCabin = false)) :
    cabinEntry c rng dt s i
      = ({ s with hunter := { s.hunter with enterTimer := max 0 (s.hunter.enterTimer - dt * 2) } }, i) := by
  simp only [cabinEntry]
  rw [if_neg h]

/-- Without a fire request the shooting block only decays the cooldown. -/
theorem hunterShoot_noaction (c : Consts) (rng : ℕ → ℝ) (hi : PlayerInput)
    (dt : ℝ) (s : GameState) (i : ℕ) (ha : hi.action = false) :
    hunterShoot c rng hi dt s i
      = ({ s with hunter := { s.hunter with cooldown :=
            if s.hunter.cooldown > 0 then s.hunter.cooldown - dt * c.FPS
            else s.hunter.cooldown } }, i) := by
  simp only [hunterShoot, ha, Bool.false_eq_true, false_and, if_false]

/-- A fire request with the (decayed) cooldown elapsed and the hunter outside
the cabin: the cooldown resets, one projectile is appended at the offset spawn
point with velocity `BULLET_SPEED` along the facing direction, and during day
`timeOfDay` takes the clamped penalty. -/
theorem hunterShoot_fire (c : Consts) (rng : ℕ → ℝ) (hi : PlayerInput)
    (dt : ℝ) (s : GameState) (i : ℕ) (ha : hi.action = true)
    (hcd : (if s.hunter.cooldown > 0 then s.hunter.cooldown - dt * c.FPS
        else s.hunter.cooldown) ≤ 0)
    (hcab : s.hunter.inCabin = false) :
    (hunterShoot c rng hi dt s i).1.hunter.cooldown = c.SHOOT_COOLDOWN ∧
      (hunterShoot c rng hi dt s i).1.bullets
        = s.bullets ++ [⟨add s.hunter.pos
            (scale ⟨Real.cos s.hunter.angle, Real.sin s.hunter.angle⟩ (s.hunter.size + 5)),
            scale ⟨Real.cos s.hunter.angle, Real.sin s.hunter.angle⟩ c.BULLET_SPEED, true⟩] ∧
      (hunterShoot c rng hi dt s i).1.timeOfDay
        = (if s.isNight = false then
            min 1.0 (s.timeOfDay + c.SHOOT_PENALTY_SECONDS / c.DAY_DURATION_SECONDS)
          else s.timeOfDay) := by
  simp only [hunterShoot]
  rw [if_pos ⟨ha, hcd, hcab⟩]
  by_cases hn : s.isNight = false
  · rw [if_pos hn, if_pos hn]
    exact ⟨rfl, rfl, rfl⟩
  · rw [if_neg hn, if_neg hn]
    exact ⟨rfl, rfl, rfl⟩

/-! ## C1: absorbing phases -/

/-- C1 (amended): the two GAME_OVER phases are absorbing — `updateGame`
returns the state unchanged (the source returns a field-by-field copy, equal
as a value).  The original claim's stronger statement, that *every*
non-PLAYING phase is returned unchanged, is refuted by
`C1_counterexample`: in this revision only the two GAME_OVER phases are
early-returned, and a MENU/LOBBY/START state runs the whole tick body. -/
theorem C1_game_over_absorbing (c : Consts) (rng : ℕ → ℝ) (now : ℕ)
    (s : GameState) (hi di : PlayerInput) (dt : ℝ)
    (h : s.phase = GamePhase.GAME_OVER_HUNTER_WINS ∨
      s.phase = GamePhase.GAME_OVER_DEMON_WINS) :
    updateGame c rng now s hi di dt = s := by
  simp only [updateGame]
  rw [if_pos h]

/-- C1 witness: a concrete GAME_OVER state is returned unchanged. -/
theorem C1_game_over_absorbing_witness :
    updateGame Cx rngHalf 0 { S0 with phase := GamePhase.GAME_OVER_DEMON_WINS }
      noInput noInput 1 = { S0 with phase := GamePhase.GAME_OVER_DEMON_WINS } :=
  C1_game_over_absorbing Cx rngHalf 0 _ noInput noInput 1 (Or.inr rfl)

theorem hunterShoot_timeOfDay_noaction (c : Consts) (rng : ℕ → ℝ) (hi : PlayerInput)
    (dt : ℝ) (s : GameState) (i : ℕ) (ha : hi.action = false) :
    (hunterShoot c rng hi dt s i).1.timeOfDay = s.timeOfDay := by
  rw [hunterShoot_noaction c rng hi dt s i ha]

/-- Projections of `tick1` under a quiet (non-crossing) day step. -/
theorem tick1_day_quiet (c : Consts) (rng : ℕ → ℝ) (now : ℕ) (dt : ℝ)
    (s : GameState) (hn : s.isNight = false)
    (hlt : s.timeOfDay + dt / c.DAY_DURATION_SECONDS < 1) :
    (tick1 c rng now dt s).1.timeOfDay = s.timeOfDay + dt / c.DAY_DURATION_SECONDS ∧
      (tick1 c rng now dt s).1.isNight = false ∧
      (tick1 c rng now dt s).1.hunter = s.hunter ∧
      (tick1 c rng now dt s).1.demon = s.demon ∧
      (tick1 c rng now dt s).1.mushrooms = s.mushrooms ∧
      (tick1 c rng now dt s).1.bullets = s.bullets ∧
      (tick1 c rng now dt s).1.phase = s.phase ∧
      (tick1 c rng now dt s).1.cabin = s.cabin := by
  have e1 := timePhase_day_persist c rng now (obstaclesOf s) dt (msgDecay dt s) 0
    (by rw [msgDecay_isNight]; exact hn)
    (by rw [msgDecay_timeOfDay]; exact hlt)
  simp only [tick1]
  rw [e1]
  exact ⟨rfl, hn, rfl, rfl, rfl, rfl, rfl, rfl⟩

/-- With no fire/action requests, a quiet mid-day tick advances `timeOfDay`
by exactly `dt / DAY_DURATION_SECONDS`. -/
theorem updateGame_timeOfDay_quiet (c : Consts) (rng : ℕ → ℝ) (now : ℕ)
    (s : GameState) (hi di : PlayerInput) (dt : ℝ)
    (hp : ¬ (s.phase = GamePhase.GAME_OVER_HUNTER_WINS ∨
        s.phase = GamePhase.GAME_OVER_DEMON_WINS))
    (hn : s.isNight = false)
    (hlt : s.timeOfDay + dt / c.DAY_DURATION_SECONDS < 1)
    (ha : hi.action = false) (hd : di.action = false) :
    (updateGame c rng now s hi di dt).timeOfDay
      = s.timeOfDay + dt / c.DAY_DURATION_SECONDS := by
  rcases tick1_day_quiet c rng now dt s hn hlt with ⟨h1tod, h1n, -, -, -, -, -, -⟩
  have h5n : (tick5 c rng now hi di dt s).1.isNight = false := by
    simp only [tick5, tick4, tick3, tick2, demonMove_isNight, hunterShoot_isNight,
      cabinEntry_isNight, hunterMove_isNight]
    exact h1n
  have h5tod : (tick5 c rng now hi di dt s).1.timeOfDay
      = s.timeOfDay + dt / c.DAY_DURATION_SECONDS := by
    simp only [tick5, tick4, tick3, tick2, demonMove_timeOfDay]
    rw [hunterShoot_timeOfDay_noaction c rng hi dt _ _ ha, cabinEntry_timeOfDay,
      hunterMove_timeOfDay]
    exact h1tod
  rw [updateGame_run c rng now s hi di dt hp, bulletUpdate_timeOfDay]
  simp only [tick7, deerUpdate_timeOfDay, tick6]
  rw [demonSkills_day_noaction c rng di dt _ _ h5n hd]
  exact h5tod

/-- C1 counterexample: the claim "for every state whose phase is not PLAYING,
`advance` returns the state unchanged" fails on a MENU-phase state — the
GAME_OVER early-return in this revision covers only the two GAME_OVER phases,
so a MENU state's `timeOfDay` is advanced by the tick body. -/
theorem C1_counterexample :
    updateGame Cx rngHalf 0 sMenu noInput noInput 1 ≠ sMenu := by
  have hne : sMenu.phase = GamePhase.MENU := rfl
  have h : (updateGame Cx rngHalf 0 sMenu noInput noInput 1).timeOfDay
      = sMenu.timeOfDay + 1 / Cx.DAY_DURATION_SECONDS := by
    apply updateGame_timeOfDay_quiet
    · rw [hne]
      intro hor
      rcases hor with h' | h' <;> cases h'
    · rfl
    · show sMenu.timeOfDay + 1 / Cx.DAY_DURATION_SECONDS < 1
      norm_num [sMenu, S0, Cx]
    · rfl
    · rfl
  intro heq
  rw [heq] at h
  have : sMenu.timeOfDay = (0 : ℝ) := rfl
  rw [this] at h
  have : Cx.DAY_DURATION_SECONDS = (100 : ℝ) := rfl
  rw [this] at h
  norm_num at h

/-- Projections of `tick1` under a night step that does not reach dawn. -/
theorem tick1_night_quiet (c : Consts) (rng : ℕ → ℝ) (now : ℕ) (dt : ℝ)
    (s : GameState) (hn : s.isNight = true)
    (hlt : s.nightTimer + dt < c.NIGHT_DURATION_SECONDS) :
    (tick1 c rng now dt s).1.nightTimer = s.nightTimer + dt ∧
      (tick1 c rng now dt s).1.isNight = true ∧
      (tick1 c rng now dt s).1.hunter = s.hunter ∧
      (tick1 c rng now dt s).1.demon = s.demon ∧
      (tick1 c rng now dt s).1.mushrooms = s.mushrooms ∧
      (tick1 c rng now dt s).1.bullets = s.bullets ∧
      (tick1 c rng now dt s).1.phase = s.phase ∧
      (tick1 c rng now dt s).1.cabin = s.cabin ∧
      (tick1 c rng now dt s).1.deers = s.deers ∧
      (tick1 c rng now dt s).1.timeOfDay = s.timeOfDay := by
  have e1 := timePhase_night_persist c rng now (obstaclesOf s) dt (msgDecay dt s) 0
    (by rw [msgDecay_isNight]; exact hn)
    (by rw [msgDecay_nightTimer]; exact hlt)
  simp only [tick1]
  rw [e1]
  exact ⟨rfl, hn, rfl, rfl, rfl, rfl, rfl, rfl, rfl, rfl⟩

/-- Projections of `tick5` for a quiet night tick: night persists, neither
side moves or acts, the demon is unstunned and the hunter is away from the
cabin. -/
theorem tick5_quiet_night (c : Consts) (rng : ℕ → ℝ) (now : ℕ)
    (s : GameState) (hi di : PlayerInput) (dt : ℝ)
    (hn : s.isNight = true) (hpersist : s.nightTimer + dt < c.NIGHT_DURATION_SECONDS)
    (hhm : inputVec hi = ⟨0, 0⟩) (ha : hi.action = false)
    (hdm : inputVec di = ⟨0, 0⟩)
    (hs : ¬ s.demon.stunTimer > 0)
    (hfar : ¬ distance s.hunter.pos s.cabin.pos < s.cabin.size + 40) :
    (tick5 c rng now hi di dt s).1.hunter.pos = s.hunter.pos ∧
      (tick5 c rng now hi di dt s).1.hunter.inCabin = s.hunter.inCabin ∧
      (tick5 c rng now hi di dt s).1.hunter.size = s.hunter.size ∧
      (tick5 c rng now hi di dt s).1.demon = s.demon ∧
      (tick5 c rng now hi di dt s).1.phase = s.phase ∧
      (tick5 c rng now hi di dt s).1.isNight = true ∧
      (tick5 c rng now hi di dt s).1.bullets = s.bullets ∧
      (tick5 c rng now hi di dt s).1.deers = s.deers ∧
      (tick5 c rng now hi di dt s).1.nightTimer = s.nightTimer + dt := by
  rcases tick1_night_quiet c rng now dt s hn hpersist
    with ⟨h1nt, h1n, h1h, h1d, h1m, h1b, h1p, h1c, h1de, h1t⟩
  have e2 : (tick2 c rng now hi dt s).1 = (tick1 c rng now dt s).1 := by
    simp only [tick2]
    rw [hunterMove_still c (obstaclesOf s) hi dt _ hhm]
  have hfar3 : ¬ ((tick2 c rng now hi dt s).1.isNight = true ∧
      distance (tick2 c rng now hi dt s).1.hunter.pos (tick2 c rng now hi dt s).1.cabin.pos
        < (tick2 c rng now hi dt s).1.cabin.size + 40 ∧
      (tick2 c rng now hi dt s).1.hunter.inCabin = false) := by
    rw [e2, h1h, h1c]
    intro hc
    exact hfar hc.2.1
  have e3 := cabinEntry_else c rng dt (tick2 c rng now hi dt s).1 (tick2 c rng now hi dt s).2 hfar3
  have h4d : (tick4 c rng now hi dt s).1.demon.stunTimer = s.demon.stunTimer := by
    simp only [tick4, hunterShoot_demon, tick3, cabinEntry_demon]
    rw [e2, h1d]
  have e5 : (tick5 c rng now hi di dt s).1 = (tick4 c rng now hi dt s).1 := by
    simp only [tick5]
    rw [demonMove_still c (obstaclesOf s) di dt _ (by rw [h4d]; exact hs) hdm]
  refine ⟨?_, ?_, ?_, ?_, ?_, ?_, ?_, ?_, ?_⟩
  · rw [e5]
    simp only [tick4, hunterShoot_hunter_pos, tick3]
    rw [e3]
    show (tick2 c rng now hi dt s).1.hunter.pos = s.hunter.pos
    rw [e2, h1h]
  · rw [e5]
    simp only [tick4, hunterShoot_hunter_inCabin, tick3]
    rw [e3]
    show (tick2 c rng now hi dt s).1.hunter.inCabin = s.hunter.inCabin
    rw [e2, h1h]
  · rw [e5]
    simp only [tick4, hunterShoot_hunter_size, tick3]
    rw [e3]
    show (tick2 c rng now hi dt s).1.hunter.size = s.hunter.size
    rw [e2, h1h]
  · rw [e5]
    simp only [tick4, hunterShoot_demon, tick3, cabinEntry_demon]
    rw [e2, h1d]
  · rw [e5]
    simp only [tick4, hunterShoot_phase, tick3, cabinEntry_phase]
    rw [e2, h1p]
  · rw [e5]
    simp only [tick4, hunterShoot_isNight, tick3, cabinEntry_isNight]
    rw [e2, h1n]
  · rw [e5]
    simp only [tick4]
    rw [hunterShoot_noaction c rng hi dt (tick3 c rng now hi dt s).1 (tick3 c rng now hi dt s).2 ha]
    show (tick3 c rng now hi dt s).1.bullets = s.bullets
    simp only [tick3, cabinEntry_bullets]
    rw [e2, h1b]
  · rw [e5]
    simp only [tick4, hunterShoot_deers, tick3, cabinEntry_deers]
    rw [e2, h1de]
  · rw [e5]
    simp only [tick4, hunterShoot_nightTimer, tick3, cabinEntry_nightTimer]
    rw [e2, h1nt]

/-! ## C2: the night contact kill -/

/-- C2: for a PLAYING state at night, with the night persisting through the
tick, `updateGame` ends the match in a demon victory exactly when — at the
moment of the check, i.e. on the mid-tick state after movement, cabin entry
and stun decay (`tick5`) — the hunter is unsheltered, the demon unstunned,
and demon and hunter are within the combined-radius contact distance
`demon.size + hunter.size`; in particular a sheltered hunter is immune to
the night contact kill regardless of demon proximity. -/
theorem C2_night_contact_kill (c : Consts) (rng : ℕ → ℝ) (now : ℕ)
    (s : GameState) (hi di : PlayerInput) (dt : ℝ)
    (hp : s.phase = GamePhase.PLAYING) (hn : s.isNight = true)
    (hpersist : s.nightTimer + dt < c.NIGHT_DURATION_SECONDS) :
    ((updateGame c rng now s hi di dt).phase = GamePhase.GAME_OVER_DEMON_WINS ↔
      ((tick5 c rng now hi di dt s).1.hunter.inCabin = false ∧
        (tick5 c rng now hi di dt s).1.demon.stunTimer ≤ 0 ∧
        distance (tick5 c rng now hi di dt s).1.demon.pos
            (tick5 c rng now hi di dt s).1.hunter.pos
          < (tick5 c rng now hi di dt s).1.demon.size
            + (tick5 c rng now hi di dt s).1.hunter.size)) ∧
    ((tick5 c rng now hi di dt s).1.hunter.inCabin = true →
      (updateGame c rng now s hi di dt).phase ≠ GamePhase.GAME_OVER_DEMON_WINS) := by
  rcases tick1_night_quiet c rng now dt s hn hpersist
    with ⟨-, h1n, -, -, -, -, h1p, -, -, -⟩
  have h5n : (tick5 c rng now hi di dt s).1.isNight = true := by
    simp only [tick5, demonMove_isNight, tick4, hunterShoot_isNight, tick3,
      cabinEntry_isNight, tick2, hunterMove_isNight]
    exact h1n
  have h5p : (tick5 c rng now hi di dt s).1.phase = GamePhase.PLAYING := by
    simp only [tick5, demonMove_phase, tick4, hunterShoot_phase, tick3,
      cabinEntry_phase, tick2, hunterMove_phase]
    rw [h1p, hp]
  have h7n : (tick7 c rng now hi di dt s).1.isNight = true := by
    simp only [tick7, deerUpdate_isNight, tick6, demonSkills_isNight]
    exact h5n
  have hphase : (updateGame c rng now s hi di dt).phase
      = (demonSkills c rng di dt (tick5 c rng now hi di dt s).1
          (tick5 c rng now hi di dt s).2).1.phase := by
    rw [updateGame_run c rng now s hi di dt (by rw [hp]; intro h; rcases h with h | h <;> cases h)]
    rw [bulletUpdate_phase_night _ _ _ _ _ _ h7n]
    simp only [tick7, deerUpdate_phase, tick6]
  have hiff : (updateGame c rng now s hi di dt).phase = GamePhase.GAME_OVER_DEMON_WINS ↔
      ((tick5 c rng now hi di dt s).1.hunter.inCabin = false ∧
        (tick5 c rng now hi di dt s).1.demon.stunTimer ≤ 0 ∧
        distance (tick5 c rng now hi di dt s).1.demon.pos
            (tick5 c rng now hi di dt s).1.hunter.pos
          < (tick5 c rng now hi di dt s).1.demon.size
            + (tick5 c rng now hi di dt s).1.hunter.size) := by
    constructor
    · intro hdw
      by_contra hcond
      rw [hphase, demonSkills_no_kill _ _ _ _ _ _ h5n hcond, h5p] at hdw
      cases hdw
    · intro hcond
      rw [hphase]
      exact demonSkills_kill _ _ _ _ _ _ h5n hcond.1 hcond.2.1 hcond.2.2
  refine ⟨hiff, fun hcab hdw => ?_⟩
  have hcond := hiff.mp hdw
  rw [hcab] at hcond
  exact absurd hcond.1 (by simp)

/-- C2 witness: at a concrete night state with the demon 10 world units from
the hunter (combined radius 29), unstunned and the hunter outside the cabin,
the tick ends the match in a demon victory. -/
theorem C2_night_contact_kill_witness :
    (updateGame Cx rngHalf 0 sNight2 noInput noInput 1).phase
      = GamePhase.GAME_OVER_DEMON_WINS := by
  have hpersist : sNight2.nightTimer + 1 < Cx.NIGHT_DURATION_SECONDS := by
    norm_num [sNight2, S0, Cx]
  have hiff := (C2_night_contact_kill Cx rngHalf 0 sNight2 noInput noInput 1
    rfl rfl hpersist).1
  rw [hiff]
  have hfar : ¬ distance sNight2.hunter.pos sNight2.cabin.pos
      < sNight2.cabin.size + 40 := by
    rw [distance_lt_iff]
    norm_num [sNight2, S0, hunter0, cabin0]
  rcases tick5_quiet_night Cx rngHalf 0 sNight2 noInput noInput 1 rfl hpersist
    inputVec_noInput rfl inputVec_noInput
    (by norm_num [sNight2, S0, demonNear, demon0]) hfar
    with ⟨hpos, hcab, hsz, hdem, -, -, -, -, -⟩
  refine ⟨by rw [hcab]; rfl, by rw [hdem]; norm_num [sNight2, S0, demonNear, demon0], ?_⟩
  rw [hdem, hpos, hsz, distance_lt_iff]
  norm_num [sNight2, S0, demonNear, demon0, hunter0]

/-! ## C3: projectile vs demon -/

/-- C3 (amended): in the projectile-resolution step of `updateGame`, a bullet
reaching the demon (in bounds, clear of obstacles, within `size + 5`) (a) at
night leaves the phase of the state entering the step unchanged — the hit
itself never ends the match, though an earlier section of the same tick (the
night contact kill) may already have done so — and sets the stun timer to
`DEMON_STUN_DURATION`; (b) during day always sets the phase to
GAME_OVER_HUNTER_WINS and reveals the demon; and (c) in both cases the
projectile is removed: every surviving bullet is the moved image of a bullet
that hit nothing. -/
theorem C3_projectile_demon_hit (c : Consts) (o : List Entity) (rng : ℕ → ℝ)
    (dt : ℝ) (s : GameState) (i : ℕ) :
    (s.isNight = true → (bulletUpdate c o rng dt s i).1.phase = s.phase) ∧
    (s.isNight = true →
      (∃ b ∈ s.bullets, bulletHitsDemon c o dt s.demon.pos s.demon.size b) →
      (bulletUpdate c o rng dt s i).1.demon.stunTimer = c.DEMON_STUN_DURATION) ∧
    (s.isNight = false →
      (∃ b ∈ s.bullets, bulletHitsDemon c o dt s.demon.pos s.demon.size b) →
      (bulletUpdate c o rng dt s i).1.phase = GamePhase.GAME_OVER_HUNTER_WINS ∧
        (bulletUpdate c o rng dt s i).1.demon.isRevealed = true) ∧
    (∀ b' ∈ (bulletUpdate c o rng dt s i).1.bullets, b'.active = true ∧
      ∃ b ∈ s.bullets, bulletSurvives c o s.deers dt s.demon.pos s.demon.size b ∧
        b' = { b with pos := bulletNext c dt b }) := by
  refine ⟨fun hn => bulletUpdate_phase_night c o rng dt s i hn,
    fun hn hx => ?_, fun hn hx => ?_, fun b' hb' => ?_⟩
  · rw [bulletUpdate_stun_night c o rng dt s i hn, if_pos hx]
  · rw [bulletUpdate_phase_day c o rng dt s i hn, bulletUpdate_isRevealed_day c o rng dt s i hn,
      if_pos hx, if_pos hx]
    exact ⟨rfl, rfl⟩
  · rw [bulletUpdate_bullets c o rng dt s i] at hb'
    rcases List.mem_filter.mp hb' with ⟨hmem, hact⟩
    rcases List.mem_map.mp hmem with ⟨b, hb, hres⟩
    by_cases hsur : bulletSurvives c o s.deers dt s.demon.pos s.demon.size b
    · refine ⟨?_, b, hb, hsur, ?_⟩
      · exact hact
      · rw [← hres, bulletResolve, if_pos hsur]
    · exfalso
      rw [bulletResolve, if_neg hsur] at hres
      rw [← hres] at hact
      simp at hact

/-- The concrete bullet of `sNight3` reaches the demon this tick. -/
theorem bullet3_hits :
    bulletHitsDemon Cx (obstaclesOf sNight3) 1 sNight3.demon.pos sNight3.demon.size bullet3 := by
  have hnext : bulletNext Cx 1 bullet3 = ⟨120, 100⟩ := by
    simp only [bulletNext, bullet3, add, scale]
    norm_num [Cx]
  refine ⟨?_, ?_, ?_⟩
  · rw [bulletOut, hnext]
    norm_num [Cx]
  · rw [hnext]
    intro hcol
    rcases hcol with h | h | h | h | ⟨obs, hobs, hblk⟩
    · norm_num at h
    · norm_num [Cx] at h
    · norm_num at h
    · norm_num [Cx] at h
    · have : obs = cabin0 := by
        simpa [obstaclesOf, sNight3, sNight2, S0] using hobs
      subst this
      rcases hblk with ⟨-, hblk⟩
      rw [if_neg (by rw [show cabin0.type = EntityType.CABIN from rfl]; decide)] at hblk
      rw [distance_lt_iff] at hblk
      norm_num [cabin0] at hblk
  · rw [hnext, distance_lt_iff]
    norm_num [sNight3, sNight2, S0, demonNear, demon0]

/-- C3 witness: at the concrete night state `sNight3`, the projectile pass
stuns the demon for `DEMON_STUN_DURATION`, leaves the phase PLAYING, and
removes the bullet. -/
theorem C3_projectile_demon_hit_witness :
    (bulletUpdate Cx (obstaclesOf sNight3) rngHalf 1 sNight3 0).1.demon.stunTimer
        = Cx.DEMON_STUN_DURATION ∧
      (bulletUpdate Cx (obstaclesOf sNight3) rngHalf 1 sNight3 0).1.phase
        = GamePhase.PLAYING ∧
      ∀ b' ∈ (bulletUpdate Cx (obstaclesOf sNight3) rngHalf 1 sNight3 0).1.bullets,
        b'.active = true := by
  rcases C3_projectile_demon_hit Cx (obstaclesOf sNight3) rngHalf 1 sNight3 0
    with ⟨hpn, hstun, -, hrem⟩
  have hx : ∃ b ∈ sNight3.bullets,
      bulletHitsDemon Cx (obstaclesOf sNight3) 1 sNight3.demon.pos sNight3.demon.size b :=
    ⟨bullet3, by simp [sNight3], bullet3_hits⟩
  exact ⟨hstun rfl hx, hpn rfl, fun b' hb' => (hrem b' hb').1⟩

/-- C3 counterexample: the claim "at night a projectile hit never results in
a GAME_OVER phase" is false for the tick as a whole: in `sNight3` the demon
both touches the hunter (contact kill, earlier in the tick) and is hit by a
bullet at night (stunned, later in the tick), so the resulting phase *is*
GAME_OVER_DEMON_WINS even though a night bullet hit occurred. -/
theorem C3_counterexample :
    sNight3.isNight = true ∧
    (∃ b ∈ sNight3.bullets,
      bulletHitsDemon Cx (obstaclesOf sNight3) 1 sNight3.demon.pos sNight3.demon.size b) ∧
    (updateGame Cx rngHalf 0 sNight3 noInput noInput 1).phase
      = GamePhase.GAME_OVER_DEMON_WINS ∧
    (updateGame Cx rngHalf 0 sNight3 noInput noInput 1).demon.stunTimer
      = Cx.DEMON_STUN_DURATION := by
  have hpersist : sNight3.nightTimer + 1 < Cx.NIGHT_DURATION_SECONDS := by
    norm_num [sNight3, sNight2, S0, Cx]
  have hfar : ¬ distance sNight3.hunter.pos sNight3.cabin.pos
      < sNight3.cabin.size + 40 := by
    rw [distance_lt_iff]
    norm_num [sNight3, sNight2, S0, hunter0, cabin0]
  rcases tick5_quiet_night Cx rngHalf 0 sNight3 noInput noInput 1 rfl hpersist
    inputVec_noInput rfl inputVec_noInput
    (by norm_num [sNight3, sNight2, S0, demonNear, demon0]) hfar
    with ⟨hpos, hcab, hsz, hdem, -, hn5, hbul, -, -⟩
  have h7n : (tick7 Cx rngHalf 0 noInput noInput 1 sNight3).1.isNight = true := by
    simp only [tick7, deerUpdate_isNight, tick6, demonSkills_isNight]
    exact hn5
  have hrun := updateGame_run Cx rngHalf 0 sNight3 noInput noInput 1
    (by rw [show sNight3.phase = GamePhase.PLAYING from rfl]
        intro h; rcases h with h | h <;> cases h)
  have hphase : (updateGame Cx rngHalf 0 sNight3 noInput noInput 1).phase
      = (demonSkills Cx rngHalf noInput 1 (tick5 Cx rngHalf 0 noInput noInput 1 sNight3).1
          (tick5 Cx rngHalf 0 noInput noInput 1 sNight3).2).1.phase := by
    rw [hrun, bulletUpdate_phase_night _ _ _ _ _ _ h7n]
    simp only [tick7, deerUpdate_phase, tick6]
  have hkill := demonSkills_kill Cx rngHalf noInput 1
    (tick5 Cx rngHalf 0 noInput noInput 1 sNight3).1
    (tick5 Cx rngHalf 0 noInput noInput 1 sNight3).2 hn5
    (by rw [hcab]; rfl)
    (by rw [hdem]; norm_num [sNight3, sNight2, S0, demonNear, demon0])
    (by rw [hdem, hpos, hsz, distance_lt_iff]
        norm_num [sNight3, sNight2, S0, demonNear, demon0, hunter0])
  have h7b : (tick7 Cx rngHalf 0 noInput noInput 1 sNight3).1.bullets = sNight3.bullets := by
    simp only [tick7, deerUpdate_bullets, tick6, demonSkills_bullets]
    exact hbul
  have h7dp : (tick7 Cx rngHalf 0 noInput noInput 1 sNight3).1.demon.pos = sNight3.demon.pos := by
    simp only [tick7, deerUpdate_demon, tick6, demonSkills_demon_pos]
    rw [hdem]
  have h7ds : (tick7 Cx rngHalf 0 noInput noInput 1 sNight3).1.demon.size = sNight3.demon.size := by
    simp only [tick7, deerUpdate_demon, tick6, demonSkills_demon_size]
    rw [hdem]
  have hx7 : ∃ b ∈ (tick7 Cx rngHalf 0 noInput noInput 1 sNight3).1.bullets,
      bulletHitsDemon Cx (obstaclesOf sNight3) 1
        (tick7 Cx rngHalf 0 noInput noInput 1 sNight3).1.demon.pos
        (tick7 Cx rngHalf 0 noInput noInput 1 sNight3).1.demon.size b := by
    rw [h7b, h7dp, h7ds]
    exact ⟨bullet3, by simp [sNight3], bullet3_hits⟩
  have hstun : (updateGame Cx rngHalf 0 sNight3 noInput noInput 1).demon.stunTimer
      = Cx.DEMON_STUN_DURATION := by
    rw [hrun, bulletUpdate_stun_night _ _ _ _ _ _ h7n, if_pos hx7]
  exact ⟨rfl, ⟨bullet3, by simp [sNight3], bullet3_hits⟩,
    by rw [hphase]; exact hkill, hstun⟩

/-! ## C4: collision-safe movement and wall sliding -/

/-- C4: for either combatant, if the current position passes
`checkCollision` (no non-bush obstacle overlap and inside the map bounds
inset by the radius), the position after the movement block passes it too;
moreover, when the full displacement is blocked but the x-only displacement
is free the combatant moves along x, and when the x-only displacement is
also blocked but the y-only one is free it moves along y — wall sliding
instead of a full stop whenever exactly one axis is blocked. -/
theorem C4_movement_collision (c : Consts) (s : GameState) (hi di : PlayerInput) (dt : ℝ) :
    ((¬ checkCollision c s.hunter.pos s.hunter.size (obstaclesOf s) false →
      ¬ checkCollision c (hunterMove c (obstaclesOf s) hi dt s).hunter.pos
          s.hunter.size (obstaclesOf s) false) ∧
     (¬ checkCollision c s.demon.pos s.demon.size (obstaclesOf s) false →
      ¬ checkCollision c (demonMove c (obstaclesOf s) di dt s).demon.pos
          s.demon.size (obstaclesOf s) false)) ∧
    (s.hunter.inCabin = false →
      ((inputVec hi).x ≠ 0 ∨ (inputVec hi).y ≠ 0) →
      (checkCollision c
          (add s.hunter.pos (scale (normalize (inputVec hi)) (c.MOVE_SPEED_HUNTER * dt * c.FPS)))
          s.hunter.size (obstaclesOf s) false →
        ((¬ checkCollision c
            ⟨(add s.hunter.pos (scale (normalize (inputVec hi)) (c.MOVE_SPEED_HUNTER * dt * c.FPS))).x,
              s.hunter.pos.y⟩ s.hunter.size (obstaclesOf s) false →
          (hunterMove c (obstaclesOf s) hi dt s).hunter.pos
            = ⟨(add s.hunter.pos (scale (normalize (inputVec hi)) (c.MOVE_SPEED_HUNTER * dt * c.FPS))).x,
                s.hunter.pos.y⟩) ∧
         (checkCollision c
            ⟨(add s.hunter.pos (scale (normalize (inputVec hi)) (c.MOVE_SPEED_HUNTER * dt * c.FPS))).x,
              s.hunter.pos.y⟩ s.hunter.size (obstaclesOf s) false →
          ¬ checkCollision c
            ⟨s.hunter.pos.x,
              (add s.hunter.pos (scale (normalize (inputVec hi)) (c.MOVE_SPEED_HUNTER * dt * c.FPS))).y⟩
            s.hunter.size (obstaclesOf s) false →
          (hunterMove c (obstaclesOf s) hi dt s).hunter.pos
            = ⟨s.hunter.pos.x,
                (add s.hunter.pos (scale (normalize (inputVec hi)) (c.MOVE_SPEED_HUNTER * dt * c.FPS))).y⟩)))) ∧
    (¬ s.demon.stunTimer > 0 →
      ((inputVec di).x ≠ 0 ∨ (inputVec di).y ≠ 0) →
      (checkCollision c
          (add s.demon.pos (scale (normalize (inputVec di))
            ((if s.isNight then c.MOVE_SPEED_DEMON * 1.3 else c.MOVE_SPEED_DEER) * dt * c.FPS)))
          s.demon.size (obstaclesOf s) false →
        ((¬ checkCollision c
            ⟨(add s.demon.pos (scale (normalize (inputVec di))
                ((if s.isNight then c.MOVE_SPEED_DEMON * 1.3 else c.MOVE_SPEED_DEER) * dt * c.FPS))).x,
              s.demon.pos.y⟩ s.demon.size (obstaclesOf s) false →
          (demonMove c (obstaclesOf s) di dt s).demon.pos
            = ⟨(add s.demon.pos (scale (normalize (inputVec di))
                  ((if s.isNight then c.MOVE_SPEED_DEMON * 1.3 else c.MOVE_SPEED_DEER) * dt * c.FPS))).x,
                s.demon.pos.y⟩) ∧
         (checkCollision c
            ⟨(add s.demon.pos (scale (normalize (inputVec di))
                ((if s.isNight then c.MOVE_SPEED_DEMON * 1.3 else c.MOVE_SPEED_DEER) * dt * c.FPS))).x,
              s.demon.pos.y⟩ s.demon.size (obstaclesOf s) false →
          ¬ checkCollision c
            ⟨s.demon.pos.x,
              (add s.demon.pos (scale (normalize (inputVec di))
                ((if s.isNight then c.MOVE_SPEED_DEMON * 1.3 else c.MOVE_SPEED_DEER) * dt * c.FPS))).y⟩
            s.demon.size (obstaclesOf s) false →
          (demonMove c (obstaclesOf s) di dt s).demon.pos
            = ⟨s.demon.pos.x,
                (add s.demon.pos (scale (normalize (inputVec di))
                  ((if s.isNight then c.MOVE_SPEED_DEMON * 1.3 else c.MOVE_SPEED_DEER) * dt * c.FPS))).y⟩)))) := by
  refine ⟨⟨hunterMove_no_collision c (obstaclesOf s) hi dt s,
    demonMove_no_collision c (obstaclesOf s) di dt s⟩, ?_, ?_⟩
  · intro hc hm hfull
    exact ⟨fun hx => hunterMove_slide_x c (obstaclesOf s) hi dt s hc hm hfull hx,
      fun hx hy => hunterMove_slide_y c (obstaclesOf s) hi dt s hc hm hfull hx hy⟩
  · intro hs hm hfull
    exact ⟨fun hx => demonMove_slide_x c (obstaclesOf s) di dt s hs hm hfull hx,
      fun hx hy => demonMove_slide_y c (obstaclesOf s) di dt s hs hm hfull hx hy⟩

/-- `normalize (1,1)` scaled by `√2` is exactly `(1,1)`. -/
theorem scale_normalize_one_one :
    scale (normalize ⟨1, 1⟩) (Real.sqrt 2 * 1 * 1) = (⟨1, 1⟩ : Vector2) := by
  have h2 : Real.sqrt ((1 : ℝ) * 1 + 1 * 1) = Real.sqrt 2 := by norm_num
  have hne : Real.sqrt 2 ≠ 0 :=
    ne_of_gt (Real.sqrt_pos.mpr (by norm_num))
  simp only [normalize, scale, h2]
  rw [if_neg hne]
  simp only [mul_one]
  have : 1 / Real.sqrt 2 * Real.sqrt 2 = 1 := one_div_mul_cancel hne
  rw [Vector2.mk.injEq]
  exact ⟨this, this⟩

/-- The full diagonal target of the sliding witness. -/
theorem s4_nextPos :
    add s4.hunter.pos (scale (normalize (inputVec dirDR)) (Cx4.MOVE_SPEED_HUNTER * 1 * Cx4.FPS))
      = (⟨101, 101⟩ : Vector2) := by
  rw [inputVec_dirDR, show Cx4.MOVE_SPEED_HUNTER = Real.sqrt 2 from rfl,
    show Cx4.FPS = (1 : ℝ) from rfl, scale_normalize_one_one]
  show add (⟨100, 100⟩ : Vector2) ⟨1, 1⟩ = ⟨101, 101⟩
  simp only [add, Vector2.mk.injEq]
  norm_num

/-- The diagonal target (101,101) overlaps `tree4`. -/
theorem s4_full_blocked :
    checkCollision Cx4 (⟨101, 101⟩ : Vector2) s4.hunter.size (obstaclesOf s4) false := by
  refine Or.inr (Or.inr (Or.inr (Or.inr ⟨tree4, by simp [obstaclesOf, s4, S0], ?_⟩)))
  refine ⟨by rw [show tree4.type = EntityType.TREE from rfl]; simp, ?_⟩
  rw [if_pos (show tree4.type = EntityType.TREE from rfl)]
  show checkRectCircleCollision tree4.pos (tree4.size * Cx4.TREE_COLLISION_FACTOR) _ s4.hunter.size
  simp only [checkRectCircleCollision, tree4, s4, hunter4, Cx4, Cx]
  norm_num

/-- The x-only target (101,100) is free of every obstacle and in bounds. -/
theorem s4_xslide_free :
    ¬ checkCollision Cx4 (⟨101, 100⟩ : Vector2) s4.hunter.size (obstaclesOf s4) false := by
  intro hcol
  rcases hcol with h | h | h | h | ⟨obs, hobs, hblk⟩
  · norm_num [s4, hunter4] at h
  · norm_num [s4, hunter4, Cx4, Cx] at h
  · norm_num [s4, hunter4] at h
  · norm_num [s4, hunter4, Cx4, Cx] at h
  · rcases (by simpa [obstaclesOf, s4, S0] using hobs : obs = tree4 ∨ obs = cabin0) with rfl | rfl
    · rcases hblk with ⟨-, hblk⟩
      rw [if_pos (show tree4.type = EntityType.TREE from rfl)] at hblk
      simp only [checkRectCircleCollision, tree4, s4, hunter4, Cx4, Cx] at hblk
      norm_num at hblk
    · rcases hblk with ⟨-, hblk⟩
      rw [if_neg (by rw [show cabin0.type = EntityType.CABIN from rfl]; decide)] at hblk
      rw [distance_lt_iff] at hblk
      norm_num [cabin0, s4, hunter4] at hblk

/-- C4 witness: at the concrete state `s4` with diagonal input, the full
displacement is blocked, the x-only displacement is free, and the hunter
slides to (101,100) — which again passes `checkCollision`. -/
theorem C4_movement_collision_witness :
    (hunterMove Cx4 (obstaclesOf s4) dirDR 1 s4).hunter.pos = (⟨101, 100⟩ : Vector2) ∧
      ¬ checkCollision Cx4 (hunterMove Cx4 (obstaclesOf s4) dirDR 1 s4).hunter.pos
          s4.hunter.size (obstaclesOf s4) false := by
  have hm : (inputVec dirDR).x ≠ 0 ∨ (inputVec dirDR).y ≠ 0 := by
    rw [inputVec_dirDR]
    norm_num
  have hfull : checkCollision Cx4
      (add s4.hunter.pos (scale (normalize (inputVec dirDR)) (Cx4.MOVE_SPEED_HUNTER * 1 * Cx4.FPS)))
      s4.hunter.size (obstaclesOf s4) false := by
    rw [s4_nextPos]
    exact s4_full_blocked
  have hx : ¬ checkCollision Cx4
      ⟨(add s4.hunter.pos (scale (normalize (inputVec dirDR)) (Cx4.MOVE_SPEED_HUNTER * 1 * Cx4.FPS))).x,
        s4.hunter.pos.y⟩ s4.hunter.size (obstaclesOf s4) false := by
    rw [show (⟨(add s4.hunter.pos (scale (normalize (inputVec dirDR)) (Cx4.MOVE_SPEED_HUNTER * 1 * Cx4.FPS))).x,
        s4.hunter.pos.y⟩ : Vector2) = ⟨101, 100⟩ by rw [s4_nextPos]; rfl]
    exact s4_xslide_free
  have hslide := (((C4_movement_collision Cx4 s4 dirDR dirDR 1).2.1) rfl hm hfull).1 hx
  have hpt : (⟨(add s4.hunter.pos (scale (normalize (inputVec dirDR)) (Cx4.MOVE_SPEED_HUNTER * 1 * Cx4.FPS))).x,
      s4.hunter.pos.y⟩ : Vector2) = ⟨101, 100⟩ := by rw [s4_nextPos]; rfl
  constructor
  · rw [hslide, hpt]
  · rw [hslide, hpt]
    exact s4_xslide_free

/-! ## C5: the day/night boundaries -/

@[simp] theorem hunterMove_deers (c : Consts) (o : List Entity) (hi : PlayerInput)
    (dt : ℝ) (s : GameState) : (hunterMove c o hi dt s).deers = s.deers := by
  simp only [hunterMove]
  split_ifs <;> rfl

/-- The night branch of the skills section never writes `timeOfDay`. -/
theorem demonSkills_timeOfDay_night (c : Consts) (rng : ℕ → ℝ) (di : PlayerInput)
    (dt : ℝ) (s : GameState) (i : ℕ) (hn : s.isNight = true) :
    (demonSkills c rng di dt s i).1.timeOfDay = s.timeOfDay := by
  simp only [demonSkills, hn]
  split_ifs <;> first | rfl | simp_all

/-- When the tick is at night after the "Time & Phase" section and the hunter
does not fire, no later section touches `timeOfDay`: the whole tick's
`timeOfDay` is the one `tick1` computed. -/
theorem updateGame_timeOfDay_to_night (c : Consts) (rng : ℕ → ℝ) (now : ℕ)
    (s : GameState) (hi di : PlayerInput) (dt : ℝ)
    (hp : ¬ (s.phase = GamePhase.GAME_OVER_HUNTER_WINS ∨
        s.phase = GamePhase.GAME_OVER_DEMON_WINS))
    (ha : hi.action = false)
    (hn1 : (tick1 c rng now dt s).1.isNight = true) :
    (updateGame c rng now s hi di dt).timeOfDay = (tick1 c rng now dt s).1.timeOfDay := by
  have h5n : (tick5 c rng now hi di dt s).1.isNight = true := by
    simp only [tick5, tick4, tick3, tick2, demonMove_isNight, hunterShoot_isNight,
      cabinEntry_isNight, hunterMove_isNight]
    exact hn1
  have h5tod : (tick5 c rng now hi di dt s).1.timeOfDay = (tick1 c rng now dt s).1.timeOfDay := by
    simp only [tick5, tick4, tick3, tick2, demonMove_timeOfDay]
    rw [hunterShoot_timeOfDay_noaction c rng hi dt _ _ ha, cabinEntry_timeOfDay,
      hunterMove_timeOfDay]
  rw [updateGame_run c rng now s hi di dt hp, bulletUpdate_timeOfDay]
  simp only [tick7, deerUpdate_timeOfDay, tick6]
  rw [demonSkills_timeOfDay_night c rng di dt _ _ h5n]
  exact h5tod

/-- With the constant RNG stream `rngHalf` every candidate deer position is
the map center (500, 500); if that spot is collision-free, the respawn loop
accepts every draw until the herd reaches 25 — all at the same spot, with the
same fresh AI state `⟨false, 60⟩`. -/
theorem deerLoop_rngHalf_eval (o : List Entity)
    (hfree : ¬ checkCollision Cx ⟨500, 500⟩ 15 o false) :
    ∀ (fuel : ℕ) (ds : List Deer) (i : ℕ), ds.length ≤ 25 →
      ((deerLoop Cx o rngHalf 0 fuel ds i).1.map (fun d => (d.pos, d.ai)))
        = ds.map (fun d => (d.pos, d.ai))
            ++ List.replicate (min fuel (25 - ds.length))
                ((⟨500, 500⟩ : Vector2), (⟨false, 60⟩ : DeerAIState))
  | 0, ds, i, _ => by
    simp only [deerLoop]
    simp
  | fuel + 1, ds, i, hle => by
    have hx : rngHalf i * Cx.MAP_SIZE = (500 : ℝ) := by norm_num [rngHalf, Cx]
    have hy : rngHalf (i + 1) * Cx.MAP_SIZE = (500 : ℝ) := by norm_num [rngHalf, Cx]
    have hb : decide (rngHalf (i + 3) > 0.5) = false :=
      decide_eq_false (by norm_num [rngHalf])
    simp only [deerLoop]
    rw [hx, hy, hb]
    by_cases hlen : ds.length < 25
    · rw [if_pos hlen, if_pos hfree]
      refine Eq.trans (deerLoop_rngHalf_eval o hfree fuel _ (i + 4) ?_) ?_
      · rw [List.length_append, List.length_singleton]
        omega
      · rw [List.map_append, List.length_append, List.length_singleton]
        have hK : min (fuel + 1) (25 - ds.length) = min fuel (25 - (ds.length + 1)) + 1 := by
          omega
        rw [hK, List.replicate_succ, List.append_assoc]
        rfl
    · rw [if_neg hlen]
      have h0 : 25 - ds.length = 0 := by omega
      rw [h0]
      simp

/-- One idle deer (not moving, timer not yet expiring this tick) is appended
with only its AI timer decayed: the position is untouched. -/
theorem deerFold_idle_pos (c : Consts) (o : List Entity) (rng : ℕ → ℝ) (dt : ℝ) :
    ∀ (ds : List Deer) (acc : List Deer × ℕ),
      (∀ d ∈ ds, d.ai.moving = false ∧ 0 < d.ai.timer - dt * c.FPS) →
      ((ds.foldl (deerStepOne c o rng dt) acc).1.map (fun d => d.pos))
        = acc.1.map (fun d => d.pos) ++ ds.map (fun d => d.pos)
  | [], acc, _ => by simp
  | d :: rest, acc, h => by
    have hd := h d (List.mem_cons_self d rest)
    have hstep : deerStepOne c o rng dt acc d
        = (acc.1 ++ [{ d with ai := ⟨false, d.ai.timer - dt * c.FPS⟩ }], acc.2) := by
      simp only [deerStepOne]
      rw [if_neg (not_le.mpr hd.2)]
      simp only [hd.1, Bool.false_eq_true, if_false]
    rw [List.foldl_cons, hstep,
      deerFold_idle_pos c o rng dt rest _ (fun x hx => h x (List.mem_cons_of_mem d hx))]
    simp [List.append_assoc]

/-- Over a herd of idle deer the whole deer section leaves every position in
place (only AI timers decay). -/
theorem deerUpdate_pos_idle (c : Consts) (o : List Entity) (rng : ℕ → ℝ)
    (dt : ℝ) (s : GameState) (i : ℕ)
    (h : ∀ d ∈ s.deers, d.ai.moving = false ∧ 0 < d.ai.timer - dt * c.FPS) :
    (deerUpdate c o rng dt s i).1.deers.map (fun d => d.pos)
      = s.deers.map (fun d => d.pos) := by
  simp only [deerUpdate]
  rw [deerFold_idle_pos c o rng dt s.deers ([], i) h]
  simp

/-- With no projectiles in flight the projectile pass is the identity (the
empty fold leaves demon, phase, messages and deer untouched). -/
theorem bulletUpdate_nobullets (c : Consts) (o : List Entity) (rng : ℕ → ℝ)
    (dt : ℝ) (s : GameState) (i : ℕ) (hb : s.bullets = []) :
    (bulletUpdate c o rng dt s i).1 = { s with bullets := [] } := by
  simp only [bulletUpdate, hb, List.foldl_nil]
  rfl

/-- C5 (amended): the two boundaries of the day/night machine, as the
"Time & Phase" section implements them.  Crossing dusk (`timeOfDay` reaching
1.0) flips to night exactly once in the tick — the section runs once per tick
— resetting `nightTimer`, evicting the hunter, revealing the demon and arming
the tracking charge, but the overshooting `timeOfDay` is stored WITHOUT the
clamp at 1.0 the spec describes.  Crossing dawn (`nightTimer` reaching the
night duration) flips back to day with both counters reset, the hunter
evicted and `isRevealed`/`canTrack` cleared — but the demon's `stunTimer` and
`trackingActiveTime` are NOT cleared; the mushroom respawn tops the pickups up
to at most 10 at collision-free positions (bushes included) spaced at least 50
from the surviving pickups, while the deer respawn tops the herd up to at most
25 at collision-free positions with NO minimum-spacing check. -/
theorem C5_day_night_boundaries (c : Consts) (rng : ℕ → ℝ) (now : ℕ)
    (o : List Entity) (dt : ℝ) (s : GameState) (i : ℕ) :
    (s.isNight = false → s.timeOfDay + dt / c.DAY_DURATION_SECONDS ≥ 1 →
      (timePhase c rng now o dt s i).1
        = { s with
            timeOfDay := s.timeOfDay + dt / c.DAY_DURATION_SECONDS
            isNight := true
            nightTimer := 0
            hunter := { s.hunter with inCabin := false }
            messages := (addMessage rng i s.messages "夜幕降临...").1
            demon := { s.demon with isRevealed := true, canTrack := true } }) ∧
    (s.isNight = true → s.nightTimer + dt ≥ c.NIGHT_DURATION_SECONDS →
      ((timePhase c rng now o dt s i).1.isNight = false ∧
        (timePhase c rng now o dt s i).1.nightTimer = 0 ∧
        (timePhase c rng now o dt s i).1.timeOfDay = 0 ∧
        (timePhase c rng now o dt s i).1.hunter.inCabin = false ∧
        (timePhase c rng now o dt s i).1.demon.isRevealed = false ∧
        (timePhase c rng now o dt s i).1.demon.canTrack = false ∧
        (timePhase c rng now o dt s i).1.demon.stunTimer = s.demon.stunTimer ∧
        (timePhase c rng now o dt s i).1.demon.trackingActiveTime
          = s.demon.trackingActiveTime ∧
        s.mushrooms <+: (timePhase c rng now o dt s i).1.mushrooms ∧
        (∀ m ∈ (timePhase c rng now o dt s i).1.mushrooms,
          m ∈ s.mushrooms ∨ ¬ checkCollision c m.pos 10 o true) ∧
        (timePhase c rng now o dt s i).1.mushrooms.length ≤ max s.mushrooms.length 10 ∧
        (∀ R : Entity → Entity → Prop,
          (∀ a b : Entity, ¬ distance a.pos b.pos < 50 → R a b) →
          s.mushrooms.Pairwise R →
            ((timePhase c rng now o dt s i).1.mushrooms).Pairwise R) ∧
        s.deers <+: (timePhase c rng now o dt s i).1.deers ∧
        (∀ d ∈ (timePhase c rng now o dt s i).1.deers,
          d ∈ s.deers ∨ ¬ checkCollision c d.pos 15 o false) ∧
        (timePhase c rng now o dt s i).1.deers.length ≤ max s.deers.length 25)) := by
  constructor
  · intro hn hge
    exact timePhase_dusk c rng now o dt s i hn hge
  · intro hn hge
    rw [timePhase_dawn c rng now o dt s i hn hge]
    refine ⟨rfl, rfl, rfl, rfl, rfl, rfl, rfl, rfl, ?_, ?_, ?_, ?_, ?_, ?_, ?_⟩
    · exact (mushLoop_spec c o rng now 50 s.mushrooms _).1
    · exact (mushLoop_spec c o rng now 50 s.mushrooms _).2.1
    · exact (mushLoop_spec c o rng now 50 s.mushrooms _).2.2
    · intro R hR hp
      exact mushLoop_pairwise c o rng now R hR 50 s.mushrooms _ hp
    · exact (deerLoop_spec c o rng now 50 s.deers _).1
    · exact (deerLoop_spec c o rng now 50 s.deers _).2.1
    · exact (deerLoop_spec c o rng now 50 s.deers _).2.2

/-- C5 witness: at the concrete dusk state the section flips to night with
the unclamped `timeOfDay` 201/200, and at the concrete dawn state it flips to
day with the stunned demon's timers surviving. -/
theorem C5_day_night_boundaries_witness :
    (timePhase Cx rngHalf 0 [] 1 sDusk 0).1.timeOfDay = 201/200 ∧
      (timePhase Cx rngHalf 0 [] 1 sDusk 0).1.isNight = true ∧
      (timePhase Cx rngHalf 0 [] 1 sDawn 0).1.isNight = false ∧
      (timePhase Cx rngHalf 0 [] 1 sDawn 0).1.demon.stunTimer = 5 ∧
      (timePhase Cx rngHalf 0 [] 1 sDawn 0).1.demon.trackingActiveTime = 3 := by
  have h1 := (C5_day_night_boundaries Cx rngHalf 0 [] 1 sDusk 0).1 rfl
    (by show (199 : ℝ)/200 + 1 / 100 ≥ 1; norm_num)
  have h2 := (C5_day_night_boundaries Cx rngHalf 0 [] 1 sDawn 0).2 rfl
    (by show (59 : ℝ) + 1 ≥ 60; norm_num)
  rcases h2 with ⟨hn2, -, -, -, -, -, hst, htr, -, -, -, -, -, -, -⟩
  refine ⟨?_, ?_, hn2, ?_, ?_⟩
  · rw [h1]
    show (199 : ℝ)/200 + 1/100 = 201/200
    norm_num
  · rw [h1]
  · rw [hst]
    rfl
  · rw [htr]
    rfl

/-- The map center is collision-free for a deer-sized circle in the dawn
scenario's obstacle list (the cabin sits far away at (900, 900)). -/
theorem free500 : ¬ checkCollision Cx ⟨500, 500⟩ 15 (obstaclesOf sDawn) false := by
  intro hcol
  rcases hcol with h | h | h | h | ⟨obs, hobs, hblk⟩
  · norm_num at h
  · norm_num [Cx] at h
  · norm_num at h
  · norm_num [Cx] at h
  · have : obs = cabin0 := by simpa [obstaclesOf, sDawn, S0] using hobs
    subst this
    rcases hblk with ⟨-, hblk⟩
    rw [if_neg (by rw [show cabin0.type = EntityType.CABIN from rfl]; decide)] at hblk
    rw [distance_lt_iff] at hblk
    norm_num [cabin0] at hblk

/-- C5 counterexample, refuting three parts of the original claim on concrete
runs of the full `updateGame`.  (1) At `sDusk` the tick crossing dusk stores
`timeOfDay = 201/200 > 1`: the value is not clamped at 1.0.  (2) At `sDawn`
the tick crossing dawn leaves the demon's stun timer positive (4, after the
usual `dt` decay) and its tracking window at 3: neither is cleared by the
day flip.  (3) The same tick respawns 25 deer that all sit at the single
point (500, 500) under the constant RNG stream: the deer respawn enforces no
minimum spacing between creatures. -/
theorem C5_counterexample :
    (updateGame Cx rngHalf 0 sDusk noInput noInput 1).timeOfDay = 201/200 ∧
      (updateGame Cx rngHalf 0 sDawn noInput noInput 1).demon.stunTimer = 4 ∧
      (updateGame Cx rngHalf 0 sDawn noInput noInput 1).demon.trackingActiveTime = 3 ∧
      (updateGame Cx rngHalf 0 sDawn noInput noInput 1).deers.map (fun d => d.pos)
        = List.replicate 25 (⟨500, 500⟩ : Vector2) := by
  have hpDusk : ¬ (sDusk.phase = GamePhase.GAME_OVER_HUNTER_WINS ∨
      sDusk.phase = GamePhase.GAME_OVER_DEMON_WINS) := by
    rintro (h | h) <;> exact absurd h (by decide)
  have hpDawn : ¬ (sDawn.phase = GamePhase.GAME_OVER_HUNTER_WINS ∨
      sDawn.phase = GamePhase.GAME_OVER_DEMON_WINS) := by
    rintro (h | h) <;> exact absurd h (by decide)
  have e0 : msgDecay 1 sDusk = sDusk := rfl
  have h1dusk : (tick1 Cx rngHalf 0 1 sDusk).1
      = { sDusk with
          timeOfDay := sDusk.timeOfDay + 1 / Cx.DAY_DURATION_SECONDS
          isNight := true
          nightTimer := 0
          hunter := { sDusk.hunter with inCabin := false }
          messages := (addMessage rngHalf 0 sDusk.messages "夜幕降临...").1
          demon := { sDusk.demon with isRevealed := true, canTrack := true } } := by
    simp only [tick1]
    rw [e0]
    exact timePhase_dusk Cx rngHalf 0 (obstaclesOf sDusk) 1 sDusk 0 rfl
      (by show (199 : ℝ)/200 + 1 / 100 ≥ 1; norm_num)
  have hn1 : (tick1 Cx rngHalf 0 1 sDusk).1.isNight = true := by rw [h1dusk]
  refine ⟨?_, ?_⟩
  · rw [updateGame_timeOfDay_to_night Cx rngHalf 0 sDusk noInput noInput 1 hpDusk rfl hn1,
      h1dusk]
    show (199 : ℝ)/200 + 1/100 = 201/200
    norm_num
  -- the dawn run
  have e0d : msgDecay 1 sDawn = sDawn := rfl
  have h1 : (tick1 Cx rngHalf 0 1 sDawn).1
      = { sDawn with
          isNight := false
          nightTimer := 0
          timeOfDay := 0
          hunter := { sDawn.hunter with inCabin := false }
          demon := { sDawn.demon with isRevealed := false, canTrack := false }
          messages := (addMessage rngHalf 0 sDawn.messages "黎明到来，新的一天...").1
          mushrooms := (mushLoop Cx (obstaclesOf sDawn) rngHalf 0 50 sDawn.mushrooms
            (addMessage rngHalf 0 sDawn.messages "黎明到来，新的一天...").2).1
          deers := (deerLoop Cx (obstaclesOf sDawn) rngHalf 0 50 sDawn.deers
            (mushLoop Cx (obstaclesOf sDawn) rngHalf 0 50 sDawn.mushrooms
              (addMessage rngHalf 0 sDawn.messages "黎明到来，新的一天...").2).2).1 } := by
    simp only [tick1]
    rw [e0d]
    exact timePhase_dawn Cx rngHalf 0 (obstaclesOf sDawn) 1 sDawn 0 rfl
      (by show (59 : ℝ) + 1 ≥ 60; norm_num)
  have hdl : ∀ j : ℕ,
      (deerLoop Cx (obstaclesOf sDawn) rngHalf 0 50 [] j).1.map (fun d => (d.pos, d.ai))
        = List.replicate 25 ((⟨500, 500⟩ : Vector2), (⟨false, 60⟩ : DeerAIState)) := by
    intro j
    rw [deerLoop_rngHalf_eval (obstaclesOf sDawn) free500 50 [] j (by decide)]
    norm_num
  have hdeers1 : (tick1 Cx rngHalf 0 1 sDawn).1.deers.map (fun d => (d.pos, d.ai))
      = List.replicate 25 ((⟨500, 500⟩ : Vector2), (⟨false, 60⟩ : DeerAIState)) := by
    rw [h1]
    exact hdl _
  have hdeers5 : (tick5 Cx rngHalf 0 noInput noInput 1 sDawn).1.deers
      = (tick1 Cx rngHalf 0 1 sDawn).1.deers := by
    simp only [tick5, tick4, tick3, tick2, demonMove_deers, hunterShoot_deers,
      cabinEntry_deers, hunterMove_deers]
  have h5n : (tick5 Cx rngHalf 0 noInput noInput 1 sDawn).1.isNight = false := by
    simp only [tick5, tick4, tick3, tick2, demonMove_isNight, hunterShoot_isNight,
      cabinEntry_isNight, hunterMove_isNight]
    rw [h1]
  have e6 := demonSkills_day_noaction Cx rngHalf noInput 1
    (tick5 Cx rngHalf 0 noInput noInput 1 sDawn).1
    (tick5 Cx rngHalf 0 noInput noInput 1 sDawn).2 h5n rfl
  have h61 : (tick6 Cx rngHalf 0 noInput noInput 1 sDawn).1
      = (tick5 Cx rngHalf 0 noInput noInput 1 sDawn).1 := by
    simp only [tick6]
    rw [e6]
  have h4dem : (tick4 Cx rngHalf 0 noInput 1 sDawn).1.demon
      = { demonStun with isRevealed := false, canTrack := false } := by
    simp only [tick4, hunterShoot_demon, tick3, cabinEntry_demon, tick2, hunterMove_demon]
    rw [h1]
    rfl
  have h5dem : (tick5 Cx rngHalf 0 noInput noInput 1 sDawn).1.demon
      = { demonStun with
          isRevealed := false
          canTrack := false
          stunTimer := demonStun.stunTimer - 1 } := by
    simp only [tick5]
    rw [demonMove_stunned Cx (obstaclesOf sDawn) noInput 1
      (tick4 Cx rngHalf 0 noInput 1 sDawn).1
      (by rw [h4dem]; show (5 : ℝ) > 0; norm_num)]
    rw [h4dem]
  have h7dem : (tick7 Cx rngHalf 0 noInput noInput 1 sDawn).1.demon
      = (tick5 Cx rngHalf 0 noInput noInput 1 sDawn).1.demon := by
    simp only [tick7, deerUpdate_demon]
    rw [h61]
  have hidle : ∀ d ∈ (tick5 Cx rngHalf 0 noInput noInput 1 sDawn).1.deers,
      d.ai.moving = false ∧ 0 < d.ai.timer - 1 * Cx.FPS := by
    intro d hd
    rw [hdeers5] at hd
    have hmem : (d.pos, d.ai)
        ∈ (tick1 Cx rngHalf 0 1 sDawn).1.deers.map (fun x => (x.pos, x.ai)) :=
      List.mem_map_of_mem _ hd
    rw [hdeers1] at hmem
    have heq := List.eq_of_mem_replicate hmem
    have hai : d.ai = ⟨false, 60⟩ := congrArg Prod.snd heq
    constructor
    · rw [hai]
    · rw [hai]
      show (0 : ℝ) < 60 - 1 * 1
      norm_num
  have h7pos : (tick7 Cx rngHalf 0 noInput noInput 1 sDawn).1.deers.map (fun d => d.pos)
      = List.replicate 25 (⟨500, 500⟩ : Vector2) := by
    simp only [tick7]
    rw [h61, deerUpdate_pos_idle Cx (obstaclesOf sDawn) rngHalf 1
      (tick5 Cx rngHalf 0 noInput noInput 1 sDawn).1
      (tick6 Cx rngHalf 0 noInput noInput 1 sDawn).2 hidle, hdeers5]
    have h2 := congrArg (List.map Prod.fst) hdeers1
    rw [List.map_map, List.map_replicate] at h2
    exact h2
  have hb7 : (tick7 Cx rngHalf 0 noInput noInput 1 sDawn).1.bullets = [] := by
    simp only [tick7, deerUpdate_bullets]
    rw [h61]
    simp only [tick5, demonMove_bullets, tick4]
    rw [hunterShoot_noaction Cx rngHalf noInput 1 (tick3 Cx rngHalf 0 noInput 1 sDawn).1
      (tick3 Cx rngHalf 0 noInput 1 sDawn).2 rfl]
    show (tick3 Cx rngHalf 0 noInput 1 sDawn).1.bullets = []
    simp only [tick3, cabinEntry_bullets, tick2, hunterMove_bullets]
    rw [h1]
    rfl
  have hrun : updateGame Cx rngHalf 0 sDawn noInput noInput 1
      = (bulletUpdate Cx (obstaclesOf sDawn) rngHalf 1
          (tick7 Cx rngHalf 0 noInput noInput 1 sDawn).1
          (tick7 Cx rngHalf 0 noInput noInput 1 sDawn).2).1 :=
    updateGame_run Cx rngHalf 0 sDawn noInput noInput 1 hpDawn
  have hbu := bulletUpdate_nobullets Cx (obstaclesOf sDawn) rngHalf 1
    (tick7 Cx rngHalf 0 noInput noInput 1 sDawn).1
    (tick7 Cx rngHalf 0 noInput noInput 1 sDawn).2 hb7
  refine ⟨?_, ?_, ?_⟩
  · rw [hrun, hbu]
    show (tick7 Cx rngHalf 0 noInput noInput 1 sDawn).1.demon.stunTimer = 4
    rw [h7dem, h5dem]
    show (5 : ℝ) - 1 = 4
    norm_num
  · rw [hrun, hbu]
    show (tick7 Cx rngHalf 0 noInput noInput 1 sDawn).1.demon.trackingActiveTime = 3
    rw [h7dem, h5dem]
    rfl
  · rw [hrun, hbu]
    show (tick7 Cx rngHalf 0 noInput noInput 1 sDawn).1.deers.map (fun d => d.pos)
      = List.replicate 25 (⟨500, 500⟩ : Vector2)
    exact h7pos

/-! ## C6: shooting -/

/-- C6 (amended): on a fire request with the (decayed) cooldown elapsed and
the hunter not sheltered, the shooting section of `updateGame` resets the
cooldown to `SHOOT_COOLDOWN` and appends EXACTLY ONE projectile — starting
not at the hunter's position but offset from it by `size + 5` along the
facing direction — with velocity `BULLET_SPEED` along the facing direction;
during day `timeOfDay` takes the penalty
`SHOOT_PENALTY_SECONDS / DAY_DURATION_SECONDS` CLAMPED at 1.0, and at night
`timeOfDay` is unchanged by firing. -/
theorem C6_shooting (c : Consts) (rng : ℕ → ℝ) (hi : PlayerInput) (dt : ℝ)
    (s : GameState) (i : ℕ) (ha : hi.action = true)
    (hcd : (if s.hunter.cooldown > 0 then s.hunter.cooldown - dt * c.FPS
        else s.hunter.cooldown) ≤ 0)
    (hcab : s.hunter.inCabin = false) :
    (hunterShoot c rng hi dt s i).1.hunter.cooldown = c.SHOOT_COOLDOWN ∧
      (hunterShoot c rng hi dt s i).1.bullets
        = s.bullets ++ [⟨add s.hunter.pos
            (scale ⟨Real.cos s.hunter.angle, Real.sin s.hunter.angle⟩ (s.hunter.size + 5)),
            scale ⟨Real.cos s.hunter.angle, Real.sin s.hunter.angle⟩ c.BULLET_SPEED, true⟩] ∧
      (hunterShoot c rng hi dt s i).1.bullets.length = s.bullets.length + 1 ∧
      (hunterShoot c rng hi dt s i).1.timeOfDay
        = (if s.isNight = false then
            min 1.0 (s.timeOfDay + c.SHOOT_PENALTY_SECONDS / c.DAY_DURATION_SECONDS)
          else s.timeOfDay) := by
  rcases hunterShoot_fire c rng hi dt s i ha hcd hcab with ⟨h1, h2, h3⟩
  refine ⟨h1, h2, ?_, h3⟩
  rw [h2, List.length_append, List.length_singleton]

/-- C6 witness: at the base state with a fire request the cooldown resets to
the constant and the (previously empty) projectile list has exactly one
entry. -/
theorem C6_shooting_witness :
    (hunterShoot Cx rngHalf fireInput 1 S0 0).1.hunter.cooldown = Cx.SHOOT_COOLDOWN ∧
      (hunterShoot Cx rngHalf fireInput 1 S0 0).1.bullets.length = 1 := by
  have h := C6_shooting Cx rngHalf fireInput 1 S0 0 rfl (by simp [S0, hunter0]) rfl
  refine ⟨h.1, ?_⟩
  rw [h.2.2.1]
  rfl

/-- C6 counterexample: at the base state (hunter at (100, 100), radius 15,
facing angle 0) the spawned projectile starts at (120, 100) — the muzzle
offset `size + 5`, not the hunter's position — and at the late-day state
`sLate` the shot's `timeOfDay` lands on the clamp value 1, not on
`timeOfDay + SHOOT_PENALTY/DAY_DURATION = 26/25`. -/
theorem C6_counterexample :
    (hunterShoot Cx rngHalf fireInput 1 S0 0).1.bullets
        = [⟨⟨120, 100⟩, ⟨10, 0⟩, true⟩] ∧
      (⟨120, 100⟩ : Vector2) ≠ S0.hunter.pos ∧
      (hunterShoot Cx rngHalf fireInput 1 sLate 0).1.timeOfDay = 1 ∧
      sLate.timeOfDay + Cx.SHOOT_PENALTY_SECONDS / Cx.DAY_DURATION_SECONDS ≠ 1 := by
  have hcd0 : (if S0.hunter.cooldown > 0 then S0.hunter.cooldown - 1 * Cx.FPS
      else S0.hunter.cooldown) ≤ 0 := by simp [S0, hunter0]
  have hcdL : (if sLate.hunter.cooldown > 0 then sLate.hunter.cooldown - 1 * Cx.FPS
      else sLate.hunter.cooldown) ≤ 0 := by simp [sLate, S0, hunter0]
  rcases hunterShoot_fire Cx rngHalf fireInput 1 S0 0 rfl hcd0 rfl with ⟨-, h2, -⟩
  rcases hunterShoot_fire Cx rngHalf fireInput 1 sLate 0 rfl hcdL rfl with ⟨-, -, h3⟩
  refine ⟨?_, ?_, ?_, ?_⟩
  · rw [h2, show S0.hunter.angle = 0 from rfl, Real.cos_zero, Real.sin_zero,
      show S0.hunter.pos = (⟨100, 100⟩ : Vector2) from rfl,
      show S0.hunter.size = (15 : ℝ) from rfl,
      show Cx.BULLET_SPEED = (10 : ℝ) from rfl,
      show S0.bullets = ([] : List Bullet) from rfl]
    simp only [add, scale, List.nil_append, List.cons.injEq, Bullet.mk.injEq,
      Vector2.mk.injEq, and_true]
    norm_num
  · intro h
    rw [show S0.hunter.pos = (⟨100, 100⟩ : Vector2) from rfl, Vector2.mk.injEq] at h
    norm_num at h
  · rw [h3, if_pos (show sLate.isNight = false from rfl),
      show sLate.timeOfDay = (99 : ℝ)/100 from rfl,
      show Cx.SHOOT_PENALTY_SECONDS = (5 : ℝ) from rfl,
      show Cx.DAY_DURATION_SECONDS = (100 : ℝ) from rfl,
      min_eq_left (by norm_num : (1.0 : ℝ) ≤ 99/100 + 5/100)]
    norm_num
  · show (99 : ℝ)/100 + 5 / 100 ≠ 1
    norm_num

/-! ## C7: day eating -/

/-- C7 (amended): during day, an action request with some pickup within the
eating radius 20 removes exactly one pickup — the FIRST in-range pickup in
list order (every pickup before it in the list is out of range, but a nearer
pickup later in the list survives) — and `timeOfDay` takes the eat bonus
`DEMON_EAT_BONUS` CLAMPED at 1.0; with no pickup in range the pickup list and
`timeOfDay` are unchanged. -/
theorem C7_day_eating (c : Consts) (rng : ℕ → ℝ) (di : PlayerInput) (dt : ℝ)
    (s : GameState) (i : ℕ) (hn : s.isNight = false) (ha : di.action = true) :
    ((∃ m ∈ s.mushrooms, distance s.demon.pos m.pos < 20) →
      (∃ pre mid post, s.mushrooms = pre ++ mid :: post ∧
        (∀ m ∈ pre, ¬ distance s.demon.pos m.pos < 20) ∧
        distance s.demon.pos mid.pos < 20 ∧
        (demonSkills c rng di dt s i).1.mushrooms = pre ++ post) ∧
      (demonSkills c rng di dt s i).1.mushrooms.length + 1 = s.mushrooms.length ∧
      (demonSkills c rng di dt s i).1.timeOfDay
        = min 1.0 (s.timeOfDay + c.DEMON_EAT_BONUS)) ∧
    ((¬ ∃ m ∈ s.mushrooms, distance s.demon.pos m.pos < 20) →
      (demonSkills c rng di dt s i).1.mushrooms = s.mushrooms ∧
      (demonSkills c rng di dt s i).1.timeOfDay = s.timeOfDay) := by
  constructor
  · intro hx
    rcases demonSkills_day_eat c rng di dt s i hn ha hx with ⟨hm, ht⟩
    refine ⟨?_, ?_, ht⟩
    · rcases eatFilter_decomp s.demon.pos s.mushrooms hx with ⟨pre, mid, post, h1, h2, h3, h4⟩
      exact ⟨pre, mid, post, h1, h2, h3, by rw [hm, h4]⟩
    · rw [hm]
      exact eatFilter_length s.demon.pos s.mushrooms hx
  · intro hx
    exact demonSkills_day_eat_none c rng di dt s i hn ha hx

/-- The first-listed mushroom of the eating scenario is in range (distance
15 < 20 of the demon at (500, 100)). -/
theorem m1_in_range : distance demon0.pos m1.pos < 20 := by
  rw [distance_lt_iff]
  refine ⟨by norm_num, ?_⟩
  show ((500 : ℝ) - 515)^2 + ((100 : ℝ) - 100)^2 < 20^2
  norm_num

/-- C7 witness: at the two-mushroom scenario an action request during day
removes exactly one pickup and lands the clamped bonus on `timeOfDay`. -/
theorem C7_day_eating_witness :
    (demonSkills Cx rngHalf fireInput 1 sEat 0).1.mushrooms.length + 1
        = sEat.mushrooms.length ∧
      (demonSkills Cx rngHalf fireInput 1 sEat 0).1.timeOfDay
        = min 1.0 (sEat.timeOfDay + Cx.DEMON_EAT_BONUS) := by
  have h := (C7_day_eating Cx rngHalf fireInput 1 sEat 0 rfl rfl).1
    ⟨m1, show m1 ∈ [m1, m2] from List.mem_cons_self m1 [m2], m1_in_range⟩
  exact ⟨h.2.1, h.2.2⟩

/-- C7 counterexample: in `sEat` the pickup that is removed is the FIRST
in-range one in list order (`m1`, at distance 15), not the nearest (`m2`, at
distance 5) — the survivor list is `[m2]` even though `m2` is strictly
nearer — and at `sEatLate` the eat bonus is clamped: `timeOfDay` becomes 1,
not `99/100 + 1/10`. -/
theorem C7_counterexample :
    (demonSkills Cx rngHalf fireInput 1 sEat 0).1.mushrooms = [m2] ∧
      distance sEat.demon.pos m2.pos < distance sEat.demon.pos m1.pos ∧
      (demonSkills Cx rngHalf fireInput 1 sEatLate 0).1.timeOfDay = 1 ∧
      sEatLate.timeOfDay + Cx.DEMON_EAT_BONUS ≠ 1 := by
  have hx : ∃ m ∈ sEat.mushrooms, distance sEat.demon.pos m.pos < 20 :=
    ⟨m1, show m1 ∈ [m1, m2] from List.mem_cons_self m1 [m2], m1_in_range⟩
  have hxL : ∃ m ∈ sEatLate.mushrooms, distance sEatLate.demon.pos m.pos < 20 :=
    ⟨m1, show m1 ∈ [m1, m2] from List.mem_cons_self m1 [m2], m1_in_range⟩
  refine ⟨?_, ?_, ?_, ?_⟩
  · rw [(demonSkills_day_eat Cx rngHalf fireInput 1 sEat 0 rfl rfl hx).1,
      show sEat.mushrooms = [m1, m2] from rfl]
    simp only [eatFilter]
    rw [if_pos (show distance sEat.demon.pos m1.pos < 20 from m1_in_range)]
  · show Real.sqrt (((500 : ℝ) - 505)^2 + ((100 : ℝ) - 100)^2)
      < Real.sqrt (((500 : ℝ) - 515)^2 + ((100 : ℝ) - 100)^2)
    apply Real.sqrt_lt_sqrt
    · norm_num
    · norm_num
  · rw [(demonSkills_day_eat Cx rngHalf fireInput 1 sEatLate 0 rfl rfl hxL).2,
      show sEatLate.timeOfDay = (99 : ℝ)/100 from rfl,
      show Cx.DEMON_EAT_BONUS = (1 : ℝ)/10 from rfl,
      min_eq_left (by norm_num : (1.0 : ℝ) ≤ 99/100 + 1/10)]
    norm_num
  · show (99 : ℝ)/100 + 1/10 ≠ 1
    norm_num

/-! ## C8: the stun -/

/-- The single mushroom of the stunned-eating scenario is in range (distance
5 < 20 of the demon at (500, 100)). -/
theorem m2_in_range : distance demon0.pos m2.pos < 20 := by
  rw [distance_lt_iff]
  refine ⟨by norm_num, ?_⟩
  show ((500 : ℝ) - 505)^2 + ((100 : ℝ) - 100)^2 < 20^2
  norm_num

/-- C8 (amended): a positive stun timer freezes the demon's MOVEMENT (the
movement block only decays the timer by `dt`, leaving position and facing
untouched) and blocks the night CONTACT KILL — but it does not block the
demon's action: at night an action request still consumes the tracking
charge under the usual guard, and during day an action request still eats an
in-range pickup (the skills section never tests the stun timer on either
branch). -/
theorem C8_stun (c : Consts) (rng : ℕ → ℝ) (o : List Entity) (di : PlayerInput)
    (dt : ℝ) (s : GameState) (i : ℕ) (hs : s.demon.stunTimer > 0) :
    (demonMove c o di dt s
        = { s with demon := { s.demon with stunTimer := s.demon.stunTimer - dt } }) ∧
      (s.isNight = true → (demonSkills c rng di dt s i).1.phase = s.phase) ∧
      (s.isNight = true → (demonSkills c rng di dt s i).1.demon.canTrack
          = if di.action = true ∧ s.demon.canTrack = true ∧ s.nightTimer > (0.5 : ℝ)
            then false else s.demon.canTrack) ∧
      (s.isNight = false → di.action = true →
        (∃ m ∈ s.mushrooms, distance s.demon.pos m.pos < 20) →
        (demonSkills c rng di dt s i).1.mushrooms.length + 1 = s.mushrooms.length) := by
  refine ⟨demonMove_stunned c o di dt s hs, ?_, ?_, ?_⟩
  · intro hn
    exact demonSkills_no_kill c rng di dt s i hn
      (fun h => absurd hs (not_lt.mpr h.2.1))
  · intro hn
    exact demonSkills_canTrack_night c rng di dt s i hn
  · intro hn ha hx
    rw [(demonSkills_day_eat c rng di dt s i hn ha hx).1]
    exact eatFilter_length s.demon.pos s.mushrooms hx

/-- C8 witness: the stunned demon of `sStunTrack` does not move but still
consumes its tracking charge, and the stunned demon of `sStunEat` still eats
the pickup. -/
theorem C8_stun_witness :
    (demonMove Cx (obstaclesOf sStunTrack) fireInput 1 sStunTrack).demon.stunTimer = 4 ∧
      (demonMove Cx (obstaclesOf sStunTrack) fireInput 1 sStunTrack).demon.pos
        = sStunTrack.demon.pos ∧
      (demonSkills Cx rngHalf fireInput 1 sStunTrack 0).1.demon.canTrack = false ∧
      (demonSkills Cx rngHalf fireInput 1 sStunEat 0).1.mushrooms.length + 1
        = sStunEat.mushrooms.length := by
  have hT := C8_stun Cx rngHalf (obstaclesOf sStunTrack) fireInput 1 sStunTrack 0
    (by show (5 : ℝ) > 0; norm_num)
  have hE := C8_stun Cx rngHalf (obstaclesOf sStunEat) fireInput 1 sStunEat 0
    (by show (5 : ℝ) > 0; norm_num)
  refine ⟨?_, ?_, ?_, ?_⟩
  · rw [hT.1]
    show (5 : ℝ) - 1 = 4
    norm_num
  · rw [hT.1]
  · rw [hT.2.2.1 rfl,
      if_pos ⟨rfl, rfl, show (10 : ℝ) > 0.5 by norm_num⟩]
  · exact hE.2.2.2 rfl rfl
      ⟨m2, show m2 ∈ [m2] from List.mem_cons_self m2 [], m2_in_range⟩

/-- C8 counterexample, at the level of the whole `updateGame` tick: starting
from `sStunTrack` (night, stun 5, charge held) the stunned demon's action
request still consumes the tracking charge and opens the full tracking
window, while the stun persists (4 after decay); and starting from
`sStunEat` (day, stun 5, one pickup in range) the stunned demon's action
request still eats the pickup.  "No demon action takes effect" is false —
only movement and the contact kill are blocked. -/
theorem C8_counterexample :
    (updateGame Cx rngHalf 0 sStunTrack noInput fireInput 1).demon.canTrack = false ∧
      (updateGame Cx rngHalf 0 sStunTrack noInput fireInput 1).demon.trackingActiveTime
        = Cx.DEMON_TRACKING_DURATION ∧
      (updateGame Cx rngHalf 0 sStunTrack noInput fireInput 1).demon.stunTimer = 4 ∧
      (updateGame Cx rngHalf 0 sStunEat noInput fireInput 1).mushrooms = [] ∧
      sStunTrack.demon.canTrack = true ∧
      sStunTrack.demon.stunTimer = 5 ∧
      sStunEat.demon.stunTimer = 5 ∧
      sStunEat.mushrooms = [m2] := by
  have hpT : ¬ (sStunTrack.phase = GamePhase.GAME_OVER_HUNTER_WINS ∨
      sStunTrack.phase = GamePhase.GAME_OVER_DEMON_WINS) := by
    rintro (h | h) <;> exact absurd h (by decide)
  have hpE : ¬ (sStunEat.phase = GamePhase.GAME_OVER_HUNTER_WINS ∨
      sStunEat.phase = GamePhase.GAME_OVER_DEMON_WINS) := by
    rintro (h | h) <;> exact absurd h (by decide)
  -- the night run from sStunTrack
  rcases tick1_night_quiet Cx rngHalf 0 1 sStunTrack rfl
      (by show (10 : ℝ) + 1 < 60; norm_num)
    with ⟨h1nt, h1n, h1h, h1d, h1m, h1b, h1p, h1c, h1de, h1t⟩
  have h4dem : (tick4 Cx rngHalf 0 noInput 1 sStunTrack).1.demon = sStunTrack.demon := by
    simp only [tick4, hunterShoot_demon, tick3, cabinEntry_demon, tick2, hunterMove_demon]
    exact h1d
  have h5dem : (tick5 Cx rngHalf 0 noInput fireInput 1 sStunTrack).1.demon
      = { sStunTrack.demon with stunTimer := sStunTrack.demon.stunTimer - 1 } := by
    simp only [tick5]
    rw [demonMove_stunned Cx (obstaclesOf sStunTrack) fireInput 1
      (tick4 Cx rngHalf 0 noInput 1 sStunTrack).1
      (by rw [h4dem]; show (5 : ℝ) > 0; norm_num)]
    rw [h4dem]
  have h5n : (tick5 Cx rngHalf 0 noInput fireInput 1 sStunTrack).1.isNight = true := by
    simp only [tick5, tick4, tick3, tick2, demonMove_isNight, hunterShoot_isNight,
      cabinEntry_isNight, hunterMove_isNight]
    exact h1n
  have h5nt : (tick5 Cx rngHalf 0 noInput fireInput 1 sStunTrack).1.nightTimer
      = sStunTrack.nightTimer + 1 := by
    simp only [tick5, tick4, tick3, tick2, demonMove_nightTimer, hunterShoot_nightTimer,
      cabinEntry_nightTimer, hunterMove_nightTimer]
    exact h1nt
  have hcond : fireInput.action = true ∧
      (tick5 Cx rngHalf 0 noInput fireInput 1 sStunTrack).1.demon.canTrack = true ∧
      (tick5 Cx rngHalf 0 noInput fireInput 1 sStunTrack).1.nightTimer > (0.5 : ℝ) := by
    refine ⟨rfl, ?_, ?_⟩
    · rw [h5dem]
      rfl
    · rw [h5nt]
      show (10 : ℝ) + 1 > 0.5
      norm_num
  have h6ct : (tick6 Cx rngHalf 0 noInput fireInput 1 sStunTrack).1.demon.canTrack
      = false := by
    simp only [tick6]
    rw [demonSkills_canTrack_night Cx rngHalf fireInput 1
      (tick5 Cx rngHalf 0 noInput fireInput 1 sStunTrack).1
      (tick5 Cx rngHalf 0 noInput fireInput 1 sStunTrack).2 h5n, if_pos hcond]
  have h6tr : (tick6 Cx rngHalf 0 noInput fireInput 1 sStunTrack).1.demon.trackingActiveTime
      = Cx.DEMON_TRACKING_DURATION := by
    simp only [tick6]
    rw [demonSkills_trackingActiveTime_night Cx rngHalf fireInput 1
      (tick5 Cx rngHalf 0 noInput fireInput 1 sStunTrack).1
      (tick5 Cx rngHalf 0 noInput fireInput 1 sStunTrack).2 h5n, if_pos hcond]
  have h6st : (tick6 Cx rngHalf 0 noInput fireInput 1 sStunTrack).1.demon.stunTimer
      = 4 := by
    simp only [tick6, demonSkills_demon_stunTimer]
    rw [h5dem]
    show (5 : ℝ) - 1 = 4
    norm_num
  have h7dem : (tick7 Cx rngHalf 0 noInput fireInput 1 sStunTrack).1.demon
      = (tick6 Cx rngHalf 0 noInput fireInput 1 sStunTrack).1.demon := by
    simp only [tick7, deerUpdate_demon]
  have hb7 : (tick7 Cx rngHalf 0 noInput fireInput 1 sStunTrack).1.bullets = [] := by
    simp only [tick7, deerUpdate_bullets, tick6, demonSkills_bullets, tick5,
      demonMove_bullets, tick4]
    rw [hunterShoot_noaction Cx rngHalf noInput 1 (tick3 Cx rngHalf 0 noInput 1 sStunTrack).1
      (tick3 Cx rngHalf 0 noInput 1 sStunTrack).2 rfl]
    show (tick3 Cx rngHalf 0 noInput 1 sStunTrack).1.bullets = []
    simp only [tick3, cabinEntry_bullets, tick2, hunterMove_bullets]
    rw [h1b]
    rfl
  have hrun : updateGame Cx rngHalf 0 sStunTrack noInput fireInput 1
      = (bulletUpdate Cx (obstaclesOf sStunTrack) rngHalf 1
          (tick7 Cx rngHalf 0 noInput fireInput 1 sStunTrack).1
          (tick7 Cx rngHalf 0 noInput fireInput 1 sStunTrack).2).1 :=
    updateGame_run Cx rngHalf 0 sStunTrack noInput fireInput 1 hpT
  have hbu := bulletUpdate_nobullets Cx (obstaclesOf sStunTrack) rngHalf 1
    (tick7 Cx rngHalf 0 noInput fireInput 1 sStunTrack).1
    (tick7 Cx rngHalf 0 noInput fireInput 1 sStunTrack).2 hb7
  -- the day run from sStunEat
  rcases tick1_day_quiet Cx rngHalf 0 1 sStunEat rfl
      (by show (0 : ℝ) + 1 / 100 < 1; norm_num)
    with ⟨e1t, e1n, e1h, e1d, e1m, e1b, e1p, e1c⟩
  have e4dem : (tick4 Cx rngHalf 0 noInput 1 sStunEat).1.demon = sStunEat.demon := by
    simp only [tick4, hunterShoot_demon, tick3, cabinEntry_demon, tick2, hunterMove_demon]
    exact e1d
  have e5dem : (tick5 Cx rngHalf 0 noInput fireInput 1 sStunEat).1.demon
      = { sStunEat.demon with stunTimer := sStunEat.demon.stunTimer - 1 } := by
    simp only [tick5]
    rw [demonMove_stunned Cx (obstaclesOf sStunEat) fireInput 1
      (tick4 Cx rngHalf 0 noInput 1 sStunEat).1
      (by rw [e4dem]; show (5 : ℝ) > 0; norm_num)]
    rw [e4dem]
  have e5n : (tick5 Cx rngHalf 0 noInput fireInput 1 sStunEat).1.isNight = false := by
    simp only [tick5, tick4, tick3, tick2, demonMove_isNight, hunterShoot_isNight,
      cabinEntry_isNight, hunterMove_isNight]
    exact e1n
  have e5m : (tick5 Cx rngHalf 0 noInput fireInput 1 sStunEat).1.mushrooms = [m2] := by
    simp only [tick5, tick4, tick3, tick2, demonMove_mushrooms, hunterShoot_mushrooms,
      cabinEntry_mushrooms, hunterMove_mushrooms]
    rw [e1m]
    rfl
  have m2x : distance ({ sStunEat.demon with
      stunTimer := sStunEat.demon.stunTimer - 1 } : Demon).pos m2.pos < 20 := m2_in_range
  have hx5 : ∃ m ∈ (tick5 Cx rngHalf 0 noInput fireInput 1 sStunEat).1.mushrooms,
      distance (tick5 Cx rngHalf 0 noInput fireInput 1 sStunEat).1.demon.pos m.pos < 20 := by
    rw [e5m, e5dem]
    exact ⟨m2, List.mem_cons_self m2 [], m2x⟩
  have e6m : (tick6 Cx rngHalf 0 noInput fireInput 1 sStunEat).1.mushrooms = [] := by
    simp only [tick6]
    rw [(demonSkills_day_eat Cx rngHalf fireInput 1
      (tick5 Cx rngHalf 0 noInput fireInput 1 sStunEat).1
      (tick5 Cx rngHalf 0 noInput fireInput 1 sStunEat).2 e5n rfl hx5).1, e5m, e5dem]
    simp only [eatFilter]
    rw [if_pos m2x]
  have hrunE : updateGame Cx rngHalf 0 sStunEat noInput fireInput 1
      = (bulletUpdate Cx (obstaclesOf sStunEat) rngHalf 1
          (tick7 Cx rngHalf 0 noInput fireInput 1 sStunEat).1
          (tick7 Cx rngHalf 0 noInput fireInput 1 sStunEat).2).1 :=
    updateGame_run Cx rngHalf 0 sStunEat noInput fireInput 1 hpE
  refine ⟨?_, ?_, ?_, ?_, rfl, rfl, rfl, rfl⟩
  · rw [hrun, hbu]
    show (tick7 Cx rngHalf 0 noInput fireInput 1 sStunTrack).1.demon.canTrack = false
    rw [h7dem]
    exact h6ct
  · rw [hrun, hbu]
    show (tick7 Cx rngHalf 0 noInput fireInput 1 sStunTrack).1.demon.trackingActiveTime
      = Cx.DEMON_TRACKING_DURATION
    rw [h7dem]
    exact h6tr
  · rw [hrun, hbu]
    show (tick7 Cx rngHalf 0 noInput fireInput 1 sStunTrack).1.demon.stunTimer = 4
    rw [h7dem]
    exact h6st
  · rw [hrunE, bulletUpdate_mushrooms]
    simp only [tick7, deerUpdate_mushrooms]
    exact e6m

/-! ## C9: line of sight -/

/-- The distance of the vertical LOS test segment. -/
theorem los_dist30 : distance (⟨0, 0⟩ : Vector2) (⟨0, 30⟩ : Vector2) = 30 := by
  show Real.sqrt (((0 : ℝ) - 0) ^ 2 + ((0 : ℝ) - 30) ^ 2) = 30
  rw [show ((0 : ℝ) - 0) ^ 2 + ((0 : ℝ) - 30) ^ 2 = 30 ^ 2 by norm_num]
  exact Real.sqrt_sq (by norm_num)

/-- C9 (amended): `hasLineOfSight(p1, p2, obstacles)` is false exactly when
some raymarch sample — `p1` plus the unit direction towards `p2`, scaled by
`10·j` for some step count `j ≥ 1` with `10·j` strictly short of the
distance — lies strictly inside the footprint of SOME listed entity: the
square footprint of half-size `size · TREE_COLLISION_RATIO` for trees, and
the circle of radius `size` for EVERY other entity type — the cabin AND
bushes alike (the raymarch has no bush exemption). -/
theorem C9_line_of_sight (c : Consts) (p1 p2 : Vector2) (o : List Entity) :
    ¬ hasLineOfSight c p1 p2 o ↔
      ∃ j : ℕ, 1 ≤ j ∧ 10 * (j : ℝ) < distance p1 p2 ∧
        ∃ obs ∈ o,
          if obs.type = EntityType.TREE then
            |(losSample p1
                ⟨(p2.x - p1.x) / distance p1 p2, (p2.y - p1.y) / distance p1 p2⟩
                (10 * j)).x - obs.pos.x| < obs.size * c.TREE_COLLISION_FACTOR ∧
              |(losSample p1
                  ⟨(p2.x - p1.x) / distance p1 p2, (p2.y - p1.y) / distance p1 p2⟩
                  (10 * j)).y - obs.pos.y| < obs.size * c.TREE_COLLISION_FACTOR
          else distance (losSample p1
              ⟨(p2.x - p1.x) / distance p1 p2, (p2.y - p1.y) / distance p1 p2⟩
              (10 * j)) obs.pos < obs.size := by
  rw [hasLineOfSight_not_iff]
  rfl

/-- C9 witness, the claim's "in particular" tree example: on the segment
from (0, 0) to (0, 30), a tree centered at (0, 20) with collision half-size
5 blocks the sight (the sample at 20 is inside its square), while the same
tree moved to (100, 15) leaves the sight clear. -/
theorem C9_line_of_sight_witness :
    ¬ hasLineOfSight Cx ⟨0, 0⟩ ⟨0, 30⟩ [tree9] ∧
      hasLineOfSight Cx ⟨0, 0⟩ ⟨0, 30⟩ [tree9far] := by
  constructor
  · rw [C9_line_of_sight Cx ⟨0, 0⟩ ⟨0, 30⟩ [tree9], los_dist30]
    refine ⟨2, by norm_num, by norm_num, tree9, List.mem_cons_self tree9 [], ?_⟩
    rw [if_pos (show tree9.type = EntityType.TREE from rfl)]
    constructor
    · simp only [losSample]
      norm_num [tree9, Cx]
    · simp only [losSample]
      norm_num [tree9, Cx]
  · by_contra h
    rw [C9_line_of_sight Cx ⟨0, 0⟩ ⟨0, 30⟩ [tree9far], los_dist30] at h
    rcases h with ⟨j, hj1, hjlt, obs, hobs, hblk⟩
    rcases List.mem_singleton.mp hobs with rfl
    rw [if_pos (show tree9far.type = EntityType.TREE from rfl)] at hblk
    rcases hblk with ⟨hbx, -⟩
    simp only [losSample] at hbx
    rw [show tree9far.pos.x = (100 : ℝ) from rfl] at hbx
    rw [show (0 : ℝ) + (0 - 0) / 30 * (10 * (j : ℝ)) - ((100 : ℝ)) = -100 by ring,
      abs_neg, abs_of_nonneg (by norm_num : (0 : ℝ) ≤ 100)] at hbx
    norm_num [tree9far, Cx] at hbx

/-- C9 counterexample: a BUSH blocks the raymarch.  On the segment from
(0, 0) to (0, 30) with the single obstacle `bush1` — a bush centered at
(0, 10), radius 5 — `hasLineOfSight` is false although the obstacle list
contains no non-bush entity at all, refuting "false exactly when some sample
falls inside a NON-BUSH obstacle's footprint". -/
theorem C9_counterexample :
    ¬ hasLineOfSight Cx ⟨0, 0⟩ ⟨0, 30⟩ [bush1] ∧
      (∀ obs ∈ [bush1], obs.type = EntityType.BUSH) := by
  constructor
  · rw [hasLineOfSight_not_iff, los_dist30]
    refine ⟨1, le_refl 1, by norm_num, bush1, List.mem_cons_self bush1 [], ?_⟩
    rw [if_neg (by rw [show bush1.type = EntityType.BUSH from rfl]; decide)]
    rw [distance_lt_iff]
    refine ⟨by rw [show bush1.size = (5 : ℝ) from rfl]; norm_num, ?_⟩
    simp only [losSample]
    norm_num [bush1]
  · intro obs hobs
    rcases List.mem_singleton.mp hobs with rfl
    rfl

/-! ## C10: the tracking guard -/

/-- C10: at night, an action request consumes the one-shot tracking charge
and opens the tracking window for `DEMON_TRACKING_DURATION` exactly when the
charge is available AND more than half a second of the night has elapsed
(the mid-tick `nightTimer` exceeds 0.5); in the first half-second of a night
the skills section ignores the input entirely — the result is identical for
any two inputs, the charge is untouched, and a tracking timer at rest stays
at rest — so the ability can never activate in the instant night begins. -/
theorem C10_tracking_guard (c : Consts) (rng : ℕ → ℝ) (di : PlayerInput)
    (dt : ℝ) (s : GameState) (i : ℕ) (hn : s.isNight = true) :
    ((demonSkills c rng di dt s i).1.demon.canTrack
        = if di.action = true ∧ s.demon.canTrack = true ∧ s.nightTimer > (0.5 : ℝ)
          then false else s.demon.canTrack) ∧
      ((demonSkills c rng di dt s i).1.demon.trackingActiveTime
        = if di.action = true ∧ s.demon.canTrack = true ∧ s.nightTimer > (0.5 : ℝ)
          then c.DEMON_TRACKING_DURATION
          else if s.demon.trackingActiveTime > 0 then s.demon.trackingActiveTime - dt
          else s.demon.trackingActiveTime) ∧
      (s.nightTimer ≤ (0.5 : ℝ) → ∀ di' : PlayerInput,
        demonSkills c rng di dt s i = demonSkills c rng di' dt s i) ∧
      (s.nightTimer ≤ (0.5 : ℝ) →
        (demonSkills c rng di dt s i).1.demon.canTrack = s.demon.canTrack) ∧
      (s.nightTimer ≤ (0.5 : ℝ) → s.demon.trackingActiveTime ≤ 0 →
        (demonSkills c rng di dt s i).1.demon.trackingActiveTime
          = s.demon.trackingActiveTime) := by
  refine ⟨demonSkills_canTrack_night c rng di dt s i hn,
    demonSkills_trackingActiveTime_night c rng di dt s i hn, ?_, ?_, ?_⟩
  · intro hnt di'
    exact demonSkills_input_independent c rng di di' dt s i hn hnt
  · intro hnt
    rw [demonSkills_canTrack_night c rng di dt s i hn,
      if_neg (fun h => absurd h.2.2 (not_lt.mpr hnt))]
  · intro hnt htr
    rw [demonSkills_trackingActiveTime_night c rng di dt s i hn,
      if_neg (fun h => absurd h.2.2 (not_lt.mpr hnt)),
      if_neg (not_lt.mpr htr)]

/-- C10 witness: ten seconds into the night the action request consumes the
charge and opens the full window; a quarter-second into the night the charge
survives the same request and the whole section's result coincides with the
no-input run. -/
theorem C10_tracking_guard_witness :
    (demonSkills Cx rngHalf fireInput 1 sNightTrack 0).1.demon.canTrack = false ∧
      (demonSkills Cx rngHalf fireInput 1 sNightTrack 0).1.demon.trackingActiveTime
        = Cx.DEMON_TRACKING_DURATION ∧
      (demonSkills Cx rngHalf fireInput 1 sNightEarly 0).1.demon.canTrack = true ∧
      demonSkills Cx rngHalf fireInput 1 sNightEarly 0
        = demonSkills Cx rngHalf noInput 1 sNightEarly 0 := by
  have hT := C10_tracking_guard Cx rngHalf fireInput 1 sNightTrack 0 rfl
  have hE := C10_tracking_guard Cx rngHalf fireInput 1 sNightEarly 0 rfl
  refine ⟨?_, ?_, ?_, ?_⟩
  · rw [hT.1, if_pos ⟨rfl, rfl, show (10 : ℝ) > 0.5 by norm_num⟩]
  · rw [hT.2.1, if_pos ⟨rfl, rfl, show (10 : ℝ) > 0.5 by norm_num⟩]
  · rw [hE.2.2.2.1 (show (1 : ℝ)/4 ≤ 0.5 by norm_num)]
    rfl
  · exact hE.2.2.1 (show (1 : ℝ)/4 ≤ 0.5 by norm_num) noInput

end

end Hunt
